import Mathlib

/-!
# Conversion, promotion and tuple builtins of the core runtime

A shallow embedding of `src/builtins.c`.  Heap objects are addressed by natural
numbers, so the C comparison `a == b` on pointers is equality of addresses.
Functions that may raise (`jl_error` followed by `longjmp`) return an `Except`;
functions that allocate or call back into user code thread an explicit state.
-/

namespace Julia

/-! ## Values -/

/-- Address of a heap object. -/
abbrev Addr := Nat

/-- A `jl_value_t*`, seen together with the immutable object it points to.
Tuples (`jl_tuple_t`) carry their elements, instances of bits types carry the
address of their type and their payload; every other object (types, functions,
struct instances, symbols) is described by the heap tables of `Heap`. -/
inductive Value where
  | tuple (addr : Addr) (elems : List Value)
  | bits (addr : Addr) (type : Addr) (data : Nat)
  | obj (addr : Addr)

/-- The pointer itself. -/
def Value.addr : Value → Addr
  | .tuple a _ => a
  | .bits a _ _ => a
  | .obj a => a

mutual
/-- Equality of values is decidable. -/
def Value.decEq : (a b : Value) → Decidable (a = b)
  | .tuple a xs, .tuple b ys =>
    if h : a = b then
      match Value.decEqList xs ys with
      | isTrue h2 => isTrue (by rw [h, h2])
      | isFalse h2 => isFalse (fun e => h2 (by cases e; rfl))
    else isFalse (fun e => h (by cases e; rfl))
  | .bits a t d, .bits b u e =>
    if h : a = b ∧ t = u ∧ d = e then isTrue (by rw [h.1, h.2.1, h.2.2])
    else isFalse (fun e => h (by cases e; exact ⟨rfl, rfl, rfl⟩))
  | .obj a, .obj b =>
    if h : a = b then isTrue (by rw [h]) else isFalse (fun e => h (by cases e; rfl))
  | .tuple _ _, .bits _ _ _ => isFalse (fun e => by cases e)
  | .tuple _ _, .obj _ => isFalse (fun e => by cases e)
  | .bits _ _ _, .tuple _ _ => isFalse (fun e => by cases e)
  | .bits _ _ _, .obj _ => isFalse (fun e => by cases e)
  | .obj _, .tuple _ _ => isFalse (fun e => by cases e)
  | .obj _, .bits _ _ _ => isFalse (fun e => by cases e)
/-- Equality of lists of values is decidable. -/
def Value.decEqList : (xs ys : List Value) → Decidable (xs = ys)
  | [], [] => isTrue rfl
  | x :: xs, y :: ys =>
    match Value.decEq x y with
    | isTrue h1 =>
      match Value.decEqList xs ys with
      | isTrue h2 => isTrue (by rw [h1, h2])
      | isFalse h2 => isFalse (fun e => h2 (by cases e; rfl))
    | isFalse h1 => isFalse (fun e => h1 (by cases e; rfl))
  | [], _ :: _ => isFalse (fun e => by cases e)
  | _ :: _, [] => isFalse (fun e => by cases e)
end

instance : DecidableEq Value := Value.decEq

/-! ## Errors and state -/

/-- The ways a builtin leaves through `jl_error` / `jl_errorf`, one constructor
per message of `src/builtins.c`, plus the two ways the C program can stop
without a message. -/
inductive Err where
  /-- Raised through `jl_too_few_args` by `JL_NARGS`. -/
  | tooFewArgs
  /-- Raised through `jl_too_many_args` by `JL_NARGS`. -/
  | tooManyArgs
  /-- Raised through `jl_type_error` by `JL_TYPECHK`. -/
  | typeError
  /-- Message "tupleref: index out of range". -/
  | tuplerefOutOfRange
  /-- Message "convert: invalid tuple conversion". -/
  | invalidTupleConversion
  /-- Message "convert: invalid conversion". -/
  | invalidConversion
  /-- Message "convert: conversion to %s failed". -/
  | conversionFailed
  /-- Message "promotion not applicable to given types". -/
  | promotionNotApplicable
  /-- Message "arguments have no common embedding type". -/
  | noCommonEmbedding
  /-- A failed `assert`. -/
  | assertFailed
  /-- A read outside the bounds of an object. -/
  | fault
  /-- An error raised by the body of a called method. -/
  | raised (code : Nat)
  /-- Message "variable not defined". -/
  | undefinedVariable
  /-- Message "array[%d]: index out of range". -/
  | arrayOutOfRange
  /-- Message "array[%d]: uninitialized reference error". -/
  | uninitializedReference
  /-- Messages "getfield: argument must be a struct" and "setfield: argument must
  be a struct". -/
  | notAStruct
  /-- Message "type %s has no field %s". -/
  | noField
  /-- Message "invalid subtyping in definition of %s". -/
  | invalidSubtyping
  /-- Message "invalid type parameter list for %s". -/
  | invalidTypeParams
  /-- Message "you can't do that.". -/
  | cantDoThat
  /-- Message "invalid union type". -/
  | invalidUnionType
  /-- Message "print: unsupported integer size". -/
  | unsupportedIntegerSize
  deriving DecidableEq

/-- The errors the specification calls `ConversionError`. -/
def Err.isConversionError : Err → Bool
  | .invalidTupleConversion => true
  | .invalidConversion => true
  | .conversionFailed => true
  | _ => false

/-- The errors the specification calls `PromotionError`. -/
def Err.isPromotionError : Err → Bool
  | .noCommonEmbedding => true
  | _ => false

/-- The errors the specification calls `BoundsError`. -/
def Err.isBoundsError : Err → Bool
  | .tuplerefOutOfRange => true
  | .arrayOutOfRange => true
  | _ => false

/-- The errors the specification calls `UndefinedError`. -/
def Err.isUndefinedError : Err → Bool
  | .undefinedVariable => true
  | .uninitializedReference => true
  | _ => false

/-- The errors the specification calls `ArityError`. -/
def Err.isArityError : Err → Bool
  | .tooFewArgs => true
  | .tooManyArgs => true
  | _ => false

/-- The errors the specification calls `TypeError`. -/
def Err.isTypeError : Err → Bool
  | .typeError => true
  | .invalidUnionType => true
  | .invalidTypeParams => true
  | _ => false

/-- The errors the specification calls `FieldError`. -/
def Err.isFieldError : Err → Bool
  | .notAStruct => true
  | .noField => true
  | _ => false

/-- The errors the specification calls `SubtypingError`. -/
def Err.isSubtypingError : Err → Bool
  | .invalidSubtyping => true
  | _ => false

/-- The errors the specification calls `StateError`. -/
def Err.isStateError : Err → Bool
  | .cantDoThat => true
  | _ => false

/-- The part of the process state the embedded functions change: the
allocation frontier (every address below `next` is taken) and the log of the
calls made through `jl_apply`, oldest first. -/
structure St where
  next : Addr
  calls : List (Addr × List Value)
  deriving DecidableEq

/-- Outcome of a builtin: the value returned or the error raised, and the state
left behind. -/
abbrev Result := Except Err Value × St

instance : DecidableEq (Except Err Value) := fun a b =>
  match a, b with
  | .ok x, .ok y => decidable_of_iff (x = y) (by constructor <;> intro h <;> simp_all)
  | .error x, .error y => decidable_of_iff (x = y) (by constructor <;> intro h <;> simp_all)
  | .ok _, .error _ => isFalse (by intro h; cases h)
  | .error _, .ok _ => isFalse (by intro h; cases h)

/-! ## Types on the heap -/

/-- The fields read through `jl_tag_type_t*`, `jl_struct_type_t*` and
`jl_bits_type_t*`.  `fconvert = none` is the C `NULL`. -/
structure TypeFields where
  name : Addr
  super : Addr
  parameters : List Value
  nbits : Nat
  fconvert : Option Addr

/-- Modelled from the spec: `julia.h` is not part of the sources, so the object
layout and the global constants it declares are taken as data.  `hdr a` is the
header word `->type` of the non-tuple object at `a`; `fields a` are the fields
of the type object at `a`. -/
structure Heap where
  hdr : Addr → Addr
  fields : Addr → TypeFields
  jl_tuple_type : Value
  jl_null : Addr
  jl_any_type : Addr
  jl_seq_name : Addr
  jl_tag_kind : Addr
  jl_bits_kind : Addr
  jl_struct_kind : Addr
  jl_int32_type : Addr

/-- The heap together with the collaborators of `builtins.c` that live in other
files (`jltypes.c`, the interpreter): they are parameters of the embedding.
`jl_apply f args next` runs the function at `f` with the allocation frontier at
`next` and gives its outcome and the new frontier. -/
structure Runtime extends Heap where
  jl_subtype : Value → Value → Bool → Bool → Bool
  jl_types_equal : Value → Value → Bool
  jl_type_morespecific : Value → Value → Bool → Bool → Bool
  jl_apply : Addr → List Value → Addr → Except Err Value × Addr

/-- Modelled from the spec: the global `jl_null` of `julia.h`, the empty tuple. -/
def jl_null (H : Heap) : Value := .tuple H.jl_null []

/-- Modelled from the spec: the macro of `julia.h`, which is not part of the
sources, `jl_typeof(v)`: the header word of `v`. -/
def jl_typeof (H : Heap) : Value → Value
  | .tuple _ _ => H.jl_tuple_type
  | .bits _ t _ => .obj t
  | .obj a => .obj (H.hdr a)

/-- Modelled from the spec: the macro of `julia.h`, which is not part of the
sources, `jl_is_tuple(v)`. -/
def jl_is_tuple : Value → Bool
  | .tuple _ _ => true
  | _ => false

/-- Modelled from the spec: the macro of `julia.h`, which is not part of the
sources, `jl_typeis(v, t)` for a non-tuple type `t`. -/
def jl_typeis (H : Heap) (v : Value) (t : Addr) : Bool :=
  match jl_typeof H v with
  | .obj a => a == t
  | _ => false

/-- Modelled from the spec: the macro of `julia.h`, which is not part of the
sources, `jl_is_tag_type(v)`. -/
def jl_is_tag_type (H : Heap) (v : Value) : Bool :=
  match v with
  | .obj a => H.hdr a == H.jl_tag_kind
  | _ => false

/-- Modelled from the spec: the macro of `julia.h`, which is not part of the
sources, `jl_is_bits_type(v)`. -/
def jl_is_bits_type (H : Heap) (v : Value) : Bool :=
  match v with
  | .obj a => H.hdr a == H.jl_bits_kind
  | _ => false

/-- Modelled from the spec: the macro of `julia.h`, which is not part of the
sources, `jl_is_struct_type(v)`. -/
def jl_is_struct_type (H : Heap) (v : Value) : Bool :=
  match v with
  | .obj a => H.hdr a == H.jl_struct_kind
  | _ => false

/-- Modelled from the spec: the macro of `julia.h`, which is not part of the
sources, `jl_is_some_tag_type(v)`: a tag, struct or bits type. -/
def jl_is_some_tag_type (H : Heap) (v : Value) : Bool :=
  jl_is_tag_type H v || jl_is_struct_type H v || jl_is_bits_type H v

/-- Modelled from the spec: the macro of `julia.h`, which is not part of the
sources, `jl_is_seq_type(v)`: a tag type whose name is that of `...`. -/
def jl_is_seq_type (H : Heap) (v : Value) : Bool :=
  jl_is_tag_type H v && (H.fields v.addr).name == H.jl_seq_name

/-- Modelled from the spec: the macro of `julia.h`, which is not part of the
sources, `jl_tparam0(v)`: the first type parameter, `none` when there is none. -/
def jl_tparam0 (H : Heap) (v : Value) : Option Value :=
  (H.fields v.addr).parameters.head?

/-- Modelled from the spec: `jl_alloc_tuple` (`alloc.c`) is not part of the
sources; it returns a new tuple, here the object at the allocation frontier. -/
def jl_alloc_tuple (s : St) : Addr × St :=
  (s.next, ⟨s.next + 1, s.calls⟩)

/-- Function `jl_apply(f, args, n)`: the call is logged, its outcome is that of the
collaborator. -/
def jl_apply (R : Runtime) (f : Addr) (args : List Value) (s : St) : Result :=
  ((R.jl_apply f args s.next).1, ⟨(R.jl_apply f args s.next).2, s.calls ++ [(f, args)]⟩)

/-! ## Tuple builtins (`jl_f_tuple`, `jl_f_tupleref`, `jl_f_tuplelen`) -/

/-- Modelled from the spec: `jl_unbox_int32` is not part of the sources; it reads
the 32-bit payload of an `Int32` as an `int32_t`. -/
def jl_unbox_int32 : Value → Int
  | .bits _ _ d => if d % 2 ^ 32 < 2 ^ 31 then (d % 2 ^ 32 : Nat) else (d % 2 ^ 32 : Nat) - 2 ^ 32
  | _ => 0

/-- Arithmetic of C `int`: the result wraps to 32 bits, two's complement. -/
def wrap_int32 (z : Int) : Int :=
  (z + 2 ^ 31) % 2 ^ 32 - 2 ^ 31

/-- Conversion of an `int` to `size_t` (64 bits): reduction modulo `2 ^ 64`. -/
def to_size_t (z : Int) : Nat :=
  (z % 2 ^ 64).toNat

/-- Modelled from the spec: `jl_box_int32` (`alloc.c`) is not part of the
sources; it gives an `Int32` object whose payload is the argument converted to
`int32_t`. -/
def jl_box_int32 (H : Heap) (z : Int) (s : St) : Value × St :=
  (.bits s.next H.jl_int32_type (z % 2 ^ 32).toNat, ⟨s.next + 1, s.calls⟩)

/-- Function `jl_f_tuple`: `jl_null` for no argument, else a new tuple whose slot `i` is
set to `args[i]` for every `i < nargs`. -/
def jl_f_tuple (H : Heap) (args : List Value) (s : St) : Result :=
  if args.length = 0 then (.ok (jl_null H), s)
  else (.ok (.tuple (jl_alloc_tuple s).1 args), (jl_alloc_tuple s).2)

/-- Function `jl_f_tupleref`. -/
def jl_f_tupleref (H : Heap) (args : List Value) : Except Err Value :=
  if args.length < 2 then .error .tooFewArgs
  else if args.length > 2 then .error .tooManyArgs
  else
    match args with
    | [.tuple _ elems, iv] =>
      if !jl_typeis H iv H.jl_int32_type then .error .typeError
      else
        if to_size_t (wrap_int32 (jl_unbox_int32 iv - 1)) ≥ elems.length then
          .error .tuplerefOutOfRange
        else
          match elems.get? (to_size_t (wrap_int32 (jl_unbox_int32 iv - 1))) with
          | some v => .ok v
          | none => .error .fault
    | _ => .error .typeError

/-- Function `jl_f_tuplelen`. -/
def jl_f_tuplelen (H : Heap) (args : List Value) (s : St) : Result :=
  if args.length < 1 then (.error .tooFewArgs, s)
  else if args.length > 1 then (.error .tooManyArgs, s)
  else
    match args with
    | [.tuple _ elems] =>
      (.ok (jl_box_int32 H (elems.length % 2 ^ 64 : Nat) s).1, (jl_box_int32 H (elems.length % 2 ^ 64 : Nat) s).2)
    | _ => (.error .typeError, s)

/-- Function `jl_f_istype` on two arguments, the second of which passes
`JL_TYPECHK`: subtype test in tuple mode on a tuple value, on the header word of
any other value. -/
def jl_f_istype (R : Runtime) (x T : Value) : Bool :=
  if jl_is_tuple x then R.jl_subtype x T true false
  else R.jl_subtype (jl_typeof R.toHeap x) T false false

/-! ## Conversion (`convert_tuple`, `jl_convert`) -/

/-- Lines 463-481 of `jl_convert`: the path taken when `x` and `to_` are not both
tuples. -/
def jl_convert_method (R : Runtime) (x to_ : Value) (s : St) : Result :=
  if R.jl_subtype (jl_typeof R.toHeap x) to_ false false then (.ok x, s)
  else
    match (if jl_is_bits_type R.toHeap to_ then some (R.fields to_.addr).fconvert
           else if jl_is_struct_type R.toHeap to_ then some (R.fields to_.addr).fconvert
           else none) with
    | none => (.error .invalidConversion, s)
    | some none => (.error .assertFailed, s)
    | some (some meth) =>
      match jl_apply R meth [x] s with
      | (.error e, s1) => (.error e, s1)
      | (.ok out, s1) =>
        if !R.jl_subtype (jl_typeof R.toHeap out) to_ false false then
          (.error .conversionFailed, s1)
        else (.ok out, s1)

mutual
/-- Function `jl_convert`.  In the first case (`jl_is_tuple(x) && jl_is_tuple(to)`) the
body of `convert_tuple` stands in place of the call. -/
def jl_convert (R : Runtime) : Value → Value → St → Result
  | .tuple xa xs, .tuple ta ts, s =>
    if ta == R.jl_tuple_type.addr then (.ok (.tuple xa xs), s)
    else
      match convert_tuple_loop R xs ts none (jl_alloc_tuple s).2 with
      | (.error e, s1) => (.error e, s1)
      | (.ok none, s1) => (.error .invalidTupleConversion, s1)
      | (.ok (some out), s1) => (.ok (.tuple (jl_alloc_tuple s).1 out), s1)
  | .tuple xa xs, .bits a t d, s => jl_convert_method R (.tuple xa xs) (.bits a t d) s
  | .tuple xa xs, .obj a, s => jl_convert_method R (.tuple xa xs) (.obj a) s
  | .bits a t d, to_, s => jl_convert_method R (.bits a t d) to_ s
  | .obj a, to_, s => jl_convert_method R (.obj a) to_ s
/-- The `for` loop of `convert_tuple` from index `i` on: the first list holds
the elements of `x` from `i`, the second those of `to` from `i` (empty when
`i >= pl`), the third argument is `some pe` once `pseq` is set.  The result is
the list of converted elements, or `none` for `return NULL`. -/
def convert_tuple_loop (R : Runtime) : List Value → List Value → Option Value → St →
    Except Err (Option (List Value)) × St
  | [], _, _, s => (.ok (some []), s)
  | ce :: xs, ts, some pe, s =>
    match jl_convert R ce pe s with
    | (.error e, s1) => (.error e, s1)
    | (.ok v, s1) =>
      match convert_tuple_loop R xs ts (some pe) s1 with
      | (.error e, s2) => (.error e, s2)
      | (.ok none, s2) => (.ok none, s2)
      | (.ok (some vs), s2) => (.ok (some (v :: vs)), s2)
  | _ :: _, [], none, s => (.ok none, s)
  | ce :: xs, pe0 :: ts, none, s =>
    if jl_is_seq_type R.toHeap pe0 then
      match jl_tparam0 R.toHeap pe0 with
      | none => (.error .fault, s)
      | some pe =>
        match jl_convert R ce pe s with
        | (.error e, s1) => (.error e, s1)
        | (.ok v, s1) =>
          match convert_tuple_loop R xs ts (some pe) s1 with
          | (.error e, s2) => (.error e, s2)
          | (.ok none, s2) => (.ok none, s2)
          | (.ok (some vs), s2) => (.ok (some (v :: vs)), s2)
    else
      match jl_convert R ce pe0 s with
      | (.error e, s1) => (.error e, s1)
      | (.ok v, s1) =>
        match convert_tuple_loop R xs ts none s1 with
        | (.error e, s2) => (.error e, s2)
        | (.ok none, s2) => (.ok none, s2)
        | (.ok (some vs), s2) => (.ok (some (v :: vs)), s2)
end

/-- Function `convert_tuple(x, to)` for the tuple `x` at `xa` with elements `xs` and the
tuple `to` at `ta` with elements `ts`; `none` is the C `NULL`. -/
def convert_tuple (R : Runtime) (xa : Addr) (xs : List Value) (ta : Addr) (ts : List Value)
    (s : St) : Except Err (Option Value) × St :=
  if ta == R.jl_tuple_type.addr then (.ok (some (.tuple xa xs)), s)
  else
    match convert_tuple_loop R xs ts none (jl_alloc_tuple s).2 with
    | (.error e, s1) => (.error e, s1)
    | (.ok none, s1) => (.ok none, s1)
    | (.ok (some out), s1) => (.ok (some (.tuple (jl_alloc_tuple s).1 out)), s1)

/-! ## Promotion (`bigger_type`, `is_type_bigger`, `jl_f_promote`) -/

/-- Outcome of `bigger_type`: the type returned, `NULL`, a read past the end of
a parameter tuple, or no answer within the given number of steps. -/
inductive BT where
  | timeout
  | fault
  | null
  | type (t : Addr)
  deriving DecidableEq

/-- Function `is_type_bigger(a, b)`, given the function `bt` that stands for the
recursive call of `bigger_type`: `a == bigger_type(a, b)`. -/
def is_type_bigger (bt : Addr → Addr → BT) (a b : Value) : Except BT Bool :=
  match bt a.addr b.addr with
  | .timeout => .error .timeout
  | .fault => .error .fault
  | .null => .ok false
  | .type t => .ok (a.addr == t)

/-- The `for` loop over the parameters in `bigger_type` (lines 539-565), from
index `i` on: the first list holds the parameters of `t1` from `i`, the second
those of `t2` from `i`; `winner = none` is the C `NULL`. -/
def bigger_type_params (R : Runtime) (bt : Addr → Addr → BT) (t1_ t2_ : Addr) :
    List Value → List Value → Option Addr → BT
  | [], _, none => .type t1_
  | [], _, some w => .type w
  | _ :: _, [], _ => .fault
  | p1 :: ps1, p2 :: ps2, winner =>
    if R.jl_types_equal p1 p2 then bigger_type_params R bt t1_ t2_ ps1 ps2 winner
    else if jl_is_some_tag_type R.toHeap p1 && jl_is_some_tag_type R.toHeap p2 then
      match is_type_bigger bt p1 p2 with
      | .error e => e
      | .ok true =>
        if winner == some t2_ then .null
        else bigger_type_params R bt t1_ t2_ ps1 ps2 (some t1_)
      | .ok false =>
        match is_type_bigger bt p2 p1 with
        | .error e => e
        | .ok true =>
          if winner == some t1_ then .null
          else bigger_type_params R bt t1_ t2_ ps1 ps2 (some t2_)
        | .ok false => .null
    else .null

/-- The `while (1)` loop of `bigger_type` (lines 526-574), one unit of fuel per
iteration; `t1_`, `t2_` are the original arguments, `t1`, `t2` the current
ones. -/
def bigger_type_walk (R : Runtime) (bt : Addr → Addr → BT) (t1_ t2_ : Addr) :
    Nat → Addr → Addr → BT
  | 0, _, _ => .timeout
  | n + 1, t1, t2 =>
    if t1 == R.jl_any_type then
      if t2 != R.jl_any_type then .type t1_ else .null
    else if t2 == R.jl_any_type then .type t2_
    else if (R.fields t1).name == (R.fields t2).name then
      bigger_type_params R bt t1_ t2_ (R.fields t1).parameters (R.fields t2).parameters none
    else if R.jl_type_morespecific (.obj t1) (.obj t2) false false then .type t2_
    else if R.jl_type_morespecific (.obj t2) (.obj t1) false false then .type t1_
    else bigger_type_walk R bt t1_ t2_ n (R.fields t1).super (R.fields t2).super

/-- Function `bigger_type(t1, t2)` with a bound on the depth of the recursion through
`is_type_bigger` and on the number of iterations of each `while` loop. -/
def bigger_type (R : Runtime) : Nat → Addr → Addr → BT
  | 0, _, _ => .timeout
  | n + 1, t1, t2 =>
    if t1 == t2 then .type t1
    else if jl_is_bits_type R.toHeap (.obj t1) && jl_is_bits_type R.toHeap (.obj t2) then
      if (R.fields t1).nbits > (R.fields t2).nbits then .type t1
      else if (R.fields t2).nbits > (R.fields t1).nbits then .type t2
      else .null
    else bigger_type_walk R (bigger_type R n) t1 t2 (n + 1) t1 t2

/-- The fold of `jl_f_promote` (lines 594-599): `t = bigger_type(t, typeof(args[i]))`
for the remaining arguments. -/
def promote_fold (R : Runtime) (fuel : Nat) : Addr → List Value → BT
  | t, [] => .type t
  | t, a :: rest =>
    match bigger_type R fuel t (jl_typeof R.toHeap a).addr with
    | .type u => promote_fold R fuel u rest
    | r => r

/-- The last loop of `jl_f_promote` (lines 601-602): every argument is converted
to `t`; an error raised by `jl_convert` leaves the loop. -/
def promote_convert (R : Runtime) (t : Value) : List Value → St →
    Except Err (List Value) × St
  | [], s => (.ok [], s)
  | a :: rest, s =>
    match jl_convert R a t s with
    | (.error e, s1) => (.error e, s1)
    | (.ok v, s1) =>
      match promote_convert R t rest s1 with
      | (.error e, s2) => (.error e, s2)
      | (.ok vs, s2) => (.ok (v :: vs), s2)

/-- Function `jl_f_promote`; `none` when `bigger_type` gives no answer within `fuel`. -/
def jl_f_promote (R : Runtime) (fuel : Nat) (args : List Value) (s : St) : Option Result :=
  match args with
  | [] => some (.ok (jl_null R.toHeap), s)
  | [x] => some (.ok (.tuple (jl_alloc_tuple s).1 [x]), (jl_alloc_tuple s).2)
  | a0 :: a1 :: rest =>
    if args.any (fun a => !jl_is_some_tag_type R.toHeap (jl_typeof R.toHeap a)) then
      some (.error .promotionNotApplicable, s)
    else
      match bigger_type R fuel (jl_typeof R.toHeap a0).addr (jl_typeof R.toHeap a1).addr with
      | .timeout => none
      | .fault => some (.error .fault, s)
      | .null => some (.error .noCommonEmbedding, s)
      | .type t0 =>
        match promote_fold R fuel t0 rest with
        | .timeout => none
        | .fault => some (.error .fault, s)
        | .null => some (.error .noCommonEmbedding, s)
        | .type t =>
          match promote_convert R (.obj t) args (jl_alloc_tuple s).2 with
          | (.error e, s1) => some (.error e, s1)
          | (.ok vs, s1) => some (.ok (.tuple (jl_alloc_tuple s).1 vs), s1)

/-! ## A concrete runtime

The collaborators are instantiated on a small heap so that the embedded code can
be run on concrete inputs. -/

/-- Modelled from the spec: the element-wise comparison of tuples of section 4.1
(`jl_subtype` lives in `jltypes.c`, which is not part of the sources).  A
trailing Seq on the right absorbs zero or more remaining elements of the left;
with `ta` set the left elements are values and are compared through their
types. -/
def spec_tuple_subtype (H : Heap) (sub : Value → Value → Bool → Bool) (ta : Bool) :
    List Value → List Value → Bool
  | [], [] => true
  | [], [b] => jl_is_seq_type H b
  | [], _ :: _ :: _ => false
  | _ :: _, [] => false
  | a :: as, [b] =>
    if jl_is_seq_type H b then
      (match jl_tparam0 H b with
        | none => false
        | some p =>
          (if ta then (if jl_is_tuple a then sub a p true else sub (jl_typeof H a) p false)
           else sub a p false)) && spec_tuple_subtype H sub ta as [b]
    else
      (if ta then (if jl_is_tuple a then sub a b true else sub (jl_typeof H a) b false)
       else sub a b false) && spec_tuple_subtype H sub ta as []
  | a :: as, b :: c :: bs =>
    (if ta then (if jl_is_tuple a then sub a b true else sub (jl_typeof H a) b false)
     else sub a b false) && spec_tuple_subtype H sub ta as (c :: bs)

/-- Modelled from the spec: the rules of section 4.1 for `subtype(a, b)` on
nominal types and tuples (`jl_subtype` lives in `jltypes.c`, which is not part
of the sources): identity, everything is a subtype of `Any`, tuples
element-wise, equal names compare their parameters invariantly, different names
walk `a` to its super until `Any`.  The first argument bounds the walk. -/
def spec_subtype (H : Heap) : Nat → Value → Value → Bool → Bool
  | 0, _, _, _ => false
  | n + 1, .tuple _ as, .tuple _ bs, ta => spec_tuple_subtype H (spec_subtype H n) ta as bs
  | _ + 1, .tuple _ _, .obj y, _ => y == H.jl_any_type
  | n + 1, .obj x, .obj y, _ =>
    if y == H.jl_any_type then true
    else if x == y then true
    else if x == H.jl_any_type then false
    else if (H.fields x).name == (H.fields y).name then
      (H.fields x).parameters.length == (H.fields y).parameters.length &&
      (List.zip (H.fields x).parameters (H.fields y).parameters).all
        (fun pq => spec_subtype H n pq.1 pq.2 false && spec_subtype H n pq.2 pq.1 false)
    else spec_subtype H n (.obj (H.fields x).super) (.obj y) false
  | _ + 1, _, _, _ => false

/-- A type object without parameters. -/
def demoType (name super nbits : Nat) (fconvert : Option Addr) : TypeFields :=
  ⟨name, super, [], nbits, fconvert⟩

/-- A small heap: `Any` (20), `Number` (22), the bits types `Int32` (23),
`Float64` (24) and `Uint32` (25), the struct types `Complex{Int32}` (26) and
`Complex{Float64}` (27), the sequence types `Any...` (21) and `Int32...` (28),
and the tag types `A` (30), `C` (31) and `B` (32) with `B` below `C`.  The
objects at 200 and 201 are instances of the two `Complex` types. -/
def demoHeap : Heap where
  hdr := fun a =>
    if a = 23 ∨ a = 24 ∨ a = 25 then 11
    else if a = 26 ∨ a = 27 then 12
    else if a = 200 then 26
    else if a = 201 then 27
    else if a = 202 then 30
    else 10
  fields := fun a =>
    if a = 20 then demoType 100 20 0 none
    else if a = 21 then ⟨101, 20, [.obj 20], 0, none⟩
    else if a = 22 then demoType 102 20 0 none
    else if a = 23 then demoType 103 22 32 none
    else if a = 24 then demoType 104 22 64 (some 60)
    else if a = 25 then demoType 105 22 32 none
    else if a = 26 then ⟨106, 22, [.obj 23], 0, none⟩
    else if a = 27 then ⟨106, 22, [.obj 24], 0, some 61⟩
    else if a = 28 then ⟨101, 20, [.obj 23], 0, none⟩
    else if a = 30 then demoType 110 20 0 none
    else if a = 31 then demoType 111 20 0 none
    else if a = 32 then demoType 112 31 0 none
    else demoType 0 20 0 none
  jl_tuple_type := .tuple 2 [.obj 21]
  jl_null := 1
  jl_any_type := 20
  jl_seq_name := 101
  jl_tag_kind := 10
  jl_bits_kind := 11
  jl_struct_kind := 12
  jl_int32_type := 23

/-- The concrete runtime: the subtype relation is the one modelled from the
spec, type equality is subtyping both ways, `more_specific` coincides with
`subtype` (the heap has no union, type variable or variadic signature to break a
tie on), the conversion method of `Float64` (60) makes a `Float64` with the
payload of its argument, and that of `Complex{Float64}` (61) answers the
instance at 201. -/
def demoRuntime : Runtime where
  toHeap := demoHeap
  jl_subtype := fun a b ta _ => spec_subtype demoHeap 8 a b ta
  jl_types_equal := fun a b => spec_subtype demoHeap 8 a b false && spec_subtype demoHeap 8 b a false
  jl_type_morespecific := fun a b ta _ => spec_subtype demoHeap 8 a b ta
  jl_apply := fun f args next =>
    if f = 60 then
      match args with
      | [.bits _ _ d] => (.ok (.bits next 24 d), next + 1)
      | _ => (.error (.raised 0), next)
    else if f = 61 then (.ok (.obj 201), next)
    else (.error (.raised 1), next)

instance instDecidableEqExcept {ε α : Type} [DecidableEq ε] [DecidableEq α] :
    DecidableEq (Except ε α) := fun a b =>
  match a, b with
  | .ok x, .ok y => decidable_of_iff (x = y) (by constructor <;> intro h <;> simp_all)
  | .error x, .error y => decidable_of_iff (x = y) (by constructor <;> intro h <;> simp_all)
  | .ok _, .error _ => isFalse (by intro h; cases h)
  | .error _, .ok _ => isFalse (by intro h; cases h)

/-! ## Mutable objects: boxes, struct instances, arrays and type objects -/

/-- Modelled from the spec: further constants of `julia.h` and collaborators of
`builtins.c` that live in other files, taken as data.  `jl_apply_type_ctor tc ps`
gives the name and the super of the tag type obtained by applying the type
constructor `tc` to the parameters `ps`. -/
structure Globals where
  jl_box_any_type : Addr
  jl_sym_type : Addr
  jl_type_type : Value
  jl_array_type : Value
  jl_bool_type : Addr
  jl_true : Value
  jl_false : Value
  jl_typector_type : Addr
  jl_union_kind : Addr
  jl_tvar_type : Addr
  jl_scalar_type : Addr
  jl_number_type : Addr
  jl_real_type : Addr
  jl_int_type : Addr
  jl_float_type : Addr
  jl_is_function : Value → Bool
  jl_is_type : Value → Bool
  jl_apply_type_ctor : Value → List Value → Value × Value
  jl_unconstrained_type : Value → Value
  jl_compute_type_union : List Value → List Value

/-- A type object made at run time: a struct type (`jl_struct_type_t`, with
`types = none` for the C `NULL`), a tag type, a type constructor
(`jl_typector_t`) or a union type.  Tuples of names and types are kept as the
lists of their elements. -/
inductive TObj where
  | structType (name : Value) (super : Value) (parameters : List Value)
      (names : List Value) (types : Option (List Value))
  | tagType (name : Value) (super : Value) (parameters : List Value)
  | typector (parameters : List Value) (body : Value)
  | unionType (types : List Value)
  deriving DecidableEq

/-- A box or a struct instance: the header word and the pointer-sized slots
after it, `none` for `NULL`. -/
structure Cell where
  type : Addr
  slots : List (Option Value)
  deriving DecidableEq

/-- The buffer `a->data` of an array: raw element payloads for an array of a
bits type, pointers (`none` for `NULL`) for any other. -/
inductive ArrayData where
  | raw (elems : List Nat)
  | refs (elems : List (Option Value))
  deriving DecidableEq

/-- An array object (`jl_array_t`): header word, `length` and `data`. -/
structure JArray where
  type : Addr
  length : Nat
  data : ArrayData
  deriving DecidableEq

/-- The mutable part of the heap together with the state of `St`: the boxes and
struct instances, the arrays, the type objects made at run time, and the type
constructors for which a generic constructor was registered. -/
structure World where
  st : St
  obj : Addr → Option Cell
  arr : Addr → Option JArray
  ty : Addr → Option TObj
  ctors : List Value

/-- The header word of a type object made at run time. -/
def TObj.kind (R : Runtime) (G : Globals) : TObj → Addr
  | .structType _ _ _ _ _ => R.jl_struct_kind
  | .tagType _ _ _ => R.jl_tag_kind
  | .typector _ _ => G.jl_typector_type
  | .unionType _ => G.jl_union_kind

/-- The header word `->type` of the non-tuple object at `a`: that of the object
the world records there, else the one of the static heap. -/
def World.hdr (R : Runtime) (G : Globals) (w : World) (a : Addr) : Addr :=
  match w.obj a with
  | some c => c.type
  | none =>
    match w.arr a with
    | some x => x.type
    | none =>
      match w.ty a with
      | some t => t.kind R G
      | none => R.hdr a

/-- The macro `jl_typeof(v)` on the world. -/
def jl_typeof_w (R : Runtime) (G : Globals) (w : World) : Value → Value
  | .tuple _ _ => R.jl_tuple_type
  | .bits _ t _ => .obj t
  | .obj a => .obj (w.hdr R G a)

/-- The macro `jl_typeis(v, t)` on the world, for a non-tuple type `t`. -/
def jl_typeis_w (R : Runtime) (G : Globals) (w : World) (v : Value) (t : Addr) : Bool :=
  match jl_typeof_w R G w v with
  | .obj a => a == t
  | _ => false

/-- The macro `jl_is_struct_type(v)` on the world. -/
def jl_is_struct_type_w (R : Runtime) (G : Globals) (w : World) (v : Value) : Bool :=
  match v with
  | .obj a => w.hdr R G a == R.jl_struct_kind
  | _ => false

/-- The macro `jl_is_tag_type(v)` on the world. -/
def jl_is_tag_type_w (R : Runtime) (G : Globals) (w : World) (v : Value) : Bool :=
  match v with
  | .obj a => w.hdr R G a == R.jl_tag_kind
  | _ => false

/-- The macro `jl_is_bits_type(v)` on the world. -/
def jl_is_bits_type_w (R : Runtime) (G : Globals) (w : World) (v : Value) : Bool :=
  match v with
  | .obj a => w.hdr R G a == R.jl_bits_kind
  | _ => false

/-- The macro `jl_is_typector(v)` on the world. -/
def jl_is_typector_w (R : Runtime) (G : Globals) (w : World) (v : Value) : Bool :=
  match v with
  | .obj a => w.hdr R G a == G.jl_typector_type
  | _ => false

/-- The macro `jl_is_typevar(v)` on the world. -/
def jl_is_typevar_w (R : Runtime) (G : Globals) (w : World) (v : Value) : Bool :=
  jl_typeis_w R G w v G.jl_tvar_type

/-- Modelled from the spec: the macro `jl_is_array(v)` of `julia.h`; the arrays
are the objects the world records as arrays. -/
def jl_is_array (w : World) : Value → Bool
  | .obj a => (w.arr a).isSome
  | _ => false

/-- Modelled from the spec: `jl_new_struct` (`alloc.c`) is not part of the
sources; it makes a new instance of the type `T` with the given fields. -/
def jl_new_struct (T : Addr) (fields : List (Option Value)) (w : World) : Value × World :=
  (.obj w.st.next,
   { w with
     st := ⟨w.st.next + 1, w.st.calls⟩
     obj := fun b => if b = w.st.next then some ⟨T, fields⟩ else w.obj b })

/-- Function `jl_f_box`. -/
def jl_f_box (G : Globals) (args : List Value) (w : World) : Except Err Value × World :=
  if args.length < 1 then (.error .tooFewArgs, w)
  else if args.length > 2 then (.error .tooManyArgs, w)
  else
    match args with
    | [_] => (.ok (jl_new_struct G.jl_box_any_type [none] w).1,
              (jl_new_struct G.jl_box_any_type [none] w).2)
    | [_, v] => (.ok (jl_new_struct G.jl_box_any_type [some v] w).1,
                 (jl_new_struct G.jl_box_any_type [some v] w).2)
    | _ => (.error .fault, w)

/-- Function `jl_f_unbox`. -/
def jl_f_unbox (R : Runtime) (G : Globals) (args : List Value) (w : World) : Except Err Value :=
  if args.length < 1 then .error .tooFewArgs
  else if args.length > 1 then .error .tooManyArgs
  else
    match args with
    | [b] =>
      if !jl_typeis_w R G w b G.jl_box_any_type then .error .typeError
      else
        match w.obj b.addr with
        | some c =>
          match c.slots.head? with
          | some (some v) => .ok v
          | some none => .error .undefinedVariable
          | none => .error .fault
        | none => .error .fault
    | _ => .error .fault

/-! ## Arrays (`jl_arrayref`, `jl_f_arrayref`) -/

/-- Function `jl_arrayref(a, i)` for the array object `x`.  An element of a bits type
is copied to a new scalar (`new_scalar`), `nbits / 8` bytes of it; a `Bool`
element gives `jl_true` or `jl_false`. -/
def jl_arrayref (R : Runtime) (G : Globals) (x : JArray) (i : Nat) (w : World) :
    Except Err Value × World :=
  match jl_tparam0 R.toHeap (.obj x.type) with
  | none => (.error .fault, w)
  | some el_type =>
    if jl_is_bits_type R.toHeap el_type then
      match x.data with
      | .raw elems =>
        match elems.get? i with
        | none => (.error .fault, w)
        | some d =>
          if el_type.addr == G.jl_bool_type then
            if d % 2 ^ 8 != 0 then (.ok G.jl_true, w) else (.ok G.jl_false, w)
          else
            (.ok (.bits w.st.next el_type.addr
                (d % 2 ^ (8 * ((R.fields el_type.addr).nbits / 8)))),
             { w with st := ⟨w.st.next + 1, w.st.calls⟩ })
      | .refs _ => (.error .fault, w)
    else
      match x.data with
      | .refs elems =>
        match elems.get? i with
        | none => (.error .fault, w)
        | some none => (.error .uninitializedReference, w)
        | some (some v) => (.ok v, w)
      | .raw _ => (.error .fault, w)

/-- Function `jl_f_arrayref`. -/
def jl_f_arrayref (R : Runtime) (G : Globals) (args : List Value) (w : World) :
    Except Err Value × World :=
  if args.length < 2 then (.error .tooFewArgs, w)
  else if args.length > 2 then (.error .tooManyArgs, w)
  else
    match args with
    | [a, iv] =>
      if !jl_is_array w a then (.error .typeError, w)
      else if !jl_typeis_w R G w iv R.jl_int32_type then (.error .typeError, w)
      else
        match w.arr a.addr with
        | none => (.error .fault, w)
        | some x =>
          if to_size_t (wrap_int32 (jl_unbox_int32 iv - 1)) ≥ x.length then
            (.error .arrayOutOfRange, w)
          else jl_arrayref R G x (to_size_t (wrap_int32 (jl_unbox_int32 iv - 1))) w
    | _ => (.error .fault, w)

/-! ## Application (`jl_f_apply`) -/

/-- The second loop of `jl_f_apply` (lines 148-152): the elements of the tuples,
in order, are copied to `newargs`. -/
def apply_newargs : List Value → List Value
  | [] => []
  | .tuple _ elems :: rest => elems ++ apply_newargs rest
  | _ :: rest => apply_newargs rest

/-- Function `jl_f_apply`. -/
def jl_f_apply (R : Runtime) (G : Globals) (args : List Value) (s : St) : Result :=
  match args with
  | [] => (.error .tooFewArgs, s)
  | f :: ts =>
    if !G.jl_is_function f then (.error .typeError, s)
    else if ts.any (fun t => !jl_is_tuple t) then (.error .typeError, s)
    else jl_apply R f.addr (apply_newargs ts) s

/-! ## Conversion in a world the called methods can write (`jl_convert`) -/

/-- The collaborator behind `jl_apply` as code that reads and writes the whole
world: `A f args w` is the outcome of the function at `f` called with `args` in
the world `w`, and the world it leaves (allocations, writes to struct
instances, arrays and type objects included). -/
abbrev Methods := Addr → List Value → World → Except Err Value × World

/-- Function `jl_apply(f, args, n)` on the world: the call is logged, then the function
runs. -/
def jl_apply_w (A : Methods) (f : Addr) (args : List Value) (w : World) :
    Except Err Value × World :=
  A f args { w with st := ⟨w.st.next, w.st.calls ++ [(f, args)]⟩ }

/-- Lines 463-481 of `jl_convert` on the world: the path taken when `x` and `to_`
are not both tuples.  The type of the result is read in the world the method
leaves. -/
def jl_convert_method_w (A : Methods) (R : Runtime) (G : Globals) (x to_ : Value) (w : World) :
    Except Err Value × World :=
  if R.jl_subtype (jl_typeof_w R G w x) to_ false false then (.ok x, w)
  else
    match (if jl_is_bits_type_w R G w to_ then some (R.fields to_.addr).fconvert
           else if jl_is_struct_type_w R G w to_ then some (R.fields to_.addr).fconvert
           else none) with
    | none => (.error .invalidConversion, w)
    | some none => (.error .assertFailed, w)
    | some (some meth) =>
      match jl_apply_w A meth [x] w with
      | (.error e, w1) => (.error e, w1)
      | (.ok out, w1) =>
        if !R.jl_subtype (jl_typeof_w R G w1 out) to_ false false then
          (.error .conversionFailed, w1)
        else (.ok out, w1)

mutual
/-- Function `jl_convert` on the world.  In the first case (`jl_is_tuple(x) &&
jl_is_tuple(to)`) the body of `convert_tuple` stands in place of the call. -/
def jl_convert_w (A : Methods) (R : Runtime) (G : Globals) :
    Value → Value → World → Except Err Value × World
  | .tuple xa xs, .tuple ta ts, w =>
    if ta == R.jl_tuple_type.addr then (.ok (.tuple xa xs), w)
    else
      match convert_tuple_loop_w A R G xs ts none { w with st := (jl_alloc_tuple w.st).2 } with
      | (.error e, w1) => (.error e, w1)
      | (.ok none, w1) => (.error .invalidTupleConversion, w1)
      | (.ok (some out), w1) => (.ok (.tuple (jl_alloc_tuple w.st).1 out), w1)
  | .tuple xa xs, .bits a t d, w => jl_convert_method_w A R G (.tuple xa xs) (.bits a t d) w
  | .tuple xa xs, .obj a, w => jl_convert_method_w A R G (.tuple xa xs) (.obj a) w
  | .bits a t d, to_, w => jl_convert_method_w A R G (.bits a t d) to_ w
  | .obj a, to_, w => jl_convert_method_w A R G (.obj a) to_ w
/-- The `for` loop of `convert_tuple` on the world, from index `i` on; the
arguments are those of `convert_tuple_loop`. -/
def convert_tuple_loop_w (A : Methods) (R : Runtime) (G : Globals) :
    List Value → List Value → Option Value → World → Except Err (Option (List Value)) × World
  | [], _, _, w => (.ok (some []), w)
  | ce :: xs, ts, some pe, w =>
    match jl_convert_w A R G ce pe w with
    | (.error e, w1) => (.error e, w1)
    | (.ok v, w1) =>
      match convert_tuple_loop_w A R G xs ts (some pe) w1 with
      | (.error e, w2) => (.error e, w2)
      | (.ok none, w2) => (.ok none, w2)
      | (.ok (some vs), w2) => (.ok (some (v :: vs)), w2)
  | _ :: _, [], none, w => (.ok none, w)
  | ce :: xs, pe0 :: ts, none, w =>
    if jl_is_seq_type R.toHeap pe0 then
      match jl_tparam0 R.toHeap pe0 with
      | none => (.error .fault, w)
      | some pe =>
        match jl_convert_w A R G ce pe w with
        | (.error e, w1) => (.error e, w1)
        | (.ok v, w1) =>
          match convert_tuple_loop_w A R G xs ts (some pe) w1 with
          | (.error e, w2) => (.error e, w2)
          | (.ok none, w2) => (.ok none, w2)
          | (.ok (some vs), w2) => (.ok (some (v :: vs)), w2)
    else
      match jl_convert_w A R G ce pe0 w with
      | (.error e, w1) => (.error e, w1)
      | (.ok v, w1) =>
        match convert_tuple_loop_w A R G xs ts none w1 with
        | (.error e, w2) => (.error e, w2)
        | (.ok none, w2) => (.ok none, w2)
        | (.ok (some vs), w2) => (.ok (some (v :: vs)), w2)
end

/-! ## Fields of struct instances (`field_offset`, `jl_f_get_field`, `jl_f_set_field`) -/

/-- Function `field_offset`: the first index at which the tuple of names holds the
symbol `fld` (pointer equality), `none` when the loop ends without one. -/
def field_offset : List Value → Value → Option Nat
  | [], _ => none
  | n :: rest, fld =>
    if n.addr == fld.addr then some 0
    else
      match field_offset rest fld with
      | some i => some (i + 1)
      | none => none

/-- The field `names` of the struct type at `T`. -/
def struct_names (w : World) (T : Addr) : Option (List Value) :=
  match w.ty T with
  | some (.structType _ _ _ names _) => some names
  | _ => none

/-- The field `types` of the struct type at `T`; `some none` is the C `NULL`. -/
def struct_types (w : World) (T : Addr) : Option (Option (List Value)) :=
  match w.ty T with
  | some (.structType _ _ _ _ types) => some types
  | _ => none

/-- Function `jl_f_get_field`; the result `none` is a `NULL` slot, returned as it
is. -/
def jl_f_get_field (R : Runtime) (G : Globals) (args : List Value) (w : World) :
    Except Err (Option Value) :=
  if args.length < 2 then .error .tooFewArgs
  else if args.length > 2 then .error .tooManyArgs
  else
    match args with
    | [v, fld] =>
      if !jl_typeis_w R G w fld G.jl_sym_type then .error .typeError
      else if !jl_is_struct_type_w R G w (jl_typeof_w R G w v) then .error .notAStruct
      else
        match struct_names w (jl_typeof_w R G w v).addr with
        | none => .error .fault
        | some names =>
          match field_offset names fld with
          | none => .error .noField
          | some i =>
            match w.obj v.addr with
            | none => .error .fault
            | some c =>
              match c.slots.get? i with
              | none => .error .fault
              | some slot => .ok slot
    | _ => .error .fault

/-- Function `jl_f_set_field`.  The type of `v`, the offset `i` and the declared type
are read before `jl_convert` is called; the slot is written in the world the
conversion leaves. -/
def jl_f_set_field (A : Methods) (R : Runtime) (G : Globals) (args : List Value) (w : World) :
    Except Err Value × World :=
  if args.length < 3 then (.error .tooFewArgs, w)
  else if args.length > 3 then (.error .tooManyArgs, w)
  else
    match args with
    | [v, fld, rhs] =>
      if !jl_typeis_w R G w fld G.jl_sym_type then (.error .typeError, w)
      else if !jl_is_struct_type_w R G w (jl_typeof_w R G w v) then (.error .notAStruct, w)
      else
        match struct_names w (jl_typeof_w R G w v).addr with
        | none => (.error .fault, w)
        | some names =>
          match field_offset names fld with
          | none => (.error .noField, w)
          | some i =>
            match struct_types w (jl_typeof_w R G w v).addr with
            | some (some types) =>
              match types.get? i with
              | none => (.error .fault, w)
              | some F =>
                match jl_convert_w A R G rhs F w with
                | (.error e, w1) => (.error e, w1)
                | (.ok y, w1) =>
                  match w1.obj v.addr with
                  | none => (.error .fault, w1)
                  | some c =>
                    if i < c.slots.length then
                      (.ok v,
                       { w1 with
                         obj := fun b =>
                           if b = v.addr then some ⟨c.type, c.slots.set i (some y)⟩
                           else w1.obj b })
                    else (.error .fault, w1)
            | _ => (.error .fault, w)
    | _ => (.error .fault, w)

/-! ## Type construction (`check_supertype`, `jl_f_new_struct_type`,
`jl_f_new_tag_type`, `jl_f_new_type_constructor`, `jl_f_new_struct_fields`,
`jl_f_union`) -/

/-- Function `all_typevars`. -/
def all_typevars (R : Runtime) (G : Globals) (w : World) (p : List Value) : Bool :=
  p.all (fun v => jl_is_typevar_w R G w v)

/-- Function `check_supertype`; in its first test the call `jl_is_struct_type(super)`
is commented out in the source, only `jl_is_tag_type(super)` is evaluated. -/
def check_supertype (R : Runtime) (G : Globals) (w : World) (super : Value) : Except Err Unit :=
  if !(jl_is_tag_type_w R G w super) ||
      super.addr == G.jl_sym_type ||
      R.jl_subtype super G.jl_type_type false false ||
      R.jl_subtype super G.jl_array_type false false then
    .error .invalidSubtyping
  else .ok ()

/-- Modelled from the spec: `jl_new_struct_type`, `jl_new_tagtype`,
`jl_new_type_ctor` and `jl_new_uniontype` (`alloc.c`) are not part of the
sources; each makes a new type object, here at the allocation frontier. -/
def new_type_object (t : TObj) (w : World) : Value × World :=
  (.obj w.st.next,
   { w with
     st := ⟨w.st.next + 1, w.st.calls⟩
     ty := fun b => if b = w.st.next then some t else w.ty b })

/-- The assignments `nst->super = sup; nst->names = names` on the struct type at
`a`. -/
def set_super_names (a : Addr) (sup : Value) (names : List Value) (w : World) : World :=
  { w with
    ty := fun b =>
      if b = a then
        match w.ty a with
        | some (.structType name _ ps _ types) => some (.structType name sup ps names types)
        | r => r
      else w.ty b }

/-- The assignment `st->types = types` on the struct type at `a`. -/
def set_types (a : Addr) (types : List Value) (w : World) : World :=
  { w with
    ty := fun b =>
      if b = a then
        match w.ty a with
        | some (.structType name sup ps names _) =>
          some (.structType name sup ps names (some types))
        | r => r
      else w.ty b }

/-- Function `jl_f_new_struct_type`.  For one of the five numeric type constructors the
1-tuple `jl_tuple(1, nst)` is allocated before the constructor is applied. -/
def jl_f_new_struct_type (R : Runtime) (G : Globals) (args : List Value) (w : World) :
    Except Err Value × World :=
  if args.length < 4 then (.error .tooFewArgs, w)
  else if args.length > 4 then (.error .tooManyArgs, w)
  else
    match args with
    | [name, super, .tuple _ params, .tuple _ fnames] =>
      if !jl_typeis_w R G w name G.jl_sym_type then (.error .typeError, w)
      else if !all_typevars R G w params then (.error .invalidTypeParams, w)
      else
        match new_type_object (.structType name (.obj R.jl_any_type) params [] none) w with
        | (nst, w1) =>
          if super.addr == G.jl_scalar_type || super.addr == G.jl_number_type ||
              super.addr == G.jl_real_type || super.addr == G.jl_int_type ||
              super.addr == G.jl_float_type then
            match new_type_object
                (.tagType (G.jl_apply_type_ctor super [nst]).1
                  (G.jl_apply_type_ctor super [nst]).2 [nst])
                { w1 with st := (jl_alloc_tuple w1.st).2 } with
            | (sup, w2) => (.ok nst, set_super_names nst.addr sup fnames w2)
          else if !G.jl_is_type super then (.error .assertFailed, w1)
          else
            match check_supertype R G w1 super with
            | .error e => (.error e, w1)
            | .ok _ =>
              if jl_is_struct_type_w R G w1 super then
                match struct_names w1 super.addr with
                | some sn => (.ok nst, set_super_names nst.addr super (sn ++ fnames) w1)
                | none => (.error .fault, w1)
              else if !jl_is_tag_type_w R G w1 super then (.error .assertFailed, w1)
              else (.ok nst, set_super_names nst.addr super fnames w1)
    | _ => (.error .typeError, w)

/-- Function `jl_f_new_type_constructor`. -/
def jl_f_new_type_constructor (R : Runtime) (G : Globals) (args : List Value) (w : World) :
    Except Err Value × World :=
  if args.length < 2 then (.error .tooFewArgs, w)
  else if args.length > 2 then (.error .tooManyArgs, w)
  else
    match args with
    | [.tuple _ p, body] =>
      if !G.jl_is_type body then (.error .assertFailed, w)
      else if !all_typevars R G w p then (.error .invalidTypeParams, w)
      else (.ok (new_type_object (.typector p body) w).1, (new_type_object (.typector p body) w).2)
    | _ => (.error .typeError, w)

/-- Function `jl_f_new_tag_type`. -/
def jl_f_new_tag_type (R : Runtime) (G : Globals) (args : List Value) (w : World) :
    Except Err Value × World :=
  if args.length < 3 then (.error .tooFewArgs, w)
  else if args.length > 3 then (.error .tooManyArgs, w)
  else
    match args with
    | [name, super, .tuple _ p] =>
      if !jl_typeis_w R G w name G.jl_sym_type then (.error .typeError, w)
      else if !jl_is_tag_type_w R G w super then (.error .typeError, w)
      else if !all_typevars R G w p then (.error .invalidTypeParams, w)
      else
        match check_supertype R G w super with
        | .error e => (.error e, w)
        | .ok _ =>
          (.ok (new_type_object (.tagType name super p) w).1,
           (new_type_object (.tagType name super p) w).2)
    | _ => (.error .typeError, w)

/-- Modelled from the spec: `jl_add_generic_constructor` is declared in
`builtins.c` and defined elsewhere; it registers a generic constructor for the
type constructor `tc`. -/
def jl_add_generic_constructor (tc : Value) (w : World) : World :=
  { w with ctors := w.ctors ++ [tc] }

/-- Function `jl_f_new_struct_fields`; the result of a successful call is
`jl_null`. -/
def jl_f_new_struct_fields (R : Runtime) (G : Globals) (args : List Value) (w : World) :
    Except Err Value × World :=
  if args.length < 2 then (.error .tooFewArgs, w)
  else if args.length > 2 then (.error .tooManyArgs, w)
  else
    match args with
    | [tc, .tuple _ ftypes] =>
      if !jl_is_typector_w R G w tc then (.error .assertFailed, w)
      else
        match w.ty tc.addr with
        | some (.typector _ t) =>
          if !jl_is_struct_type_w R G w t then (.error .cantDoThat, w)
          else
            match w.ty t.addr with
            | some (.structType _ super _ _ types) =>
              if types.isSome then (.error .cantDoThat, w)
              else if jl_is_struct_type_w R G w super then
                match struct_types w super.addr with
                | some (some pft) =>
                  (.ok (jl_null R.toHeap),
                   jl_add_generic_constructor tc (set_types t.addr (pft ++ ftypes) w))
                | _ => (.error .fault, w)
              else if jl_is_tag_type_w R G w super then
                (.ok (jl_null R.toHeap),
                 jl_add_generic_constructor tc (set_types t.addr ([] ++ ftypes) w))
              else (.error .assertFailed, w)
            | _ => (.error .fault, w)
        | _ => (.error .fault, w)
    | _ => (.error .typeError, w)

/-- The first loop of `jl_f_union` (lines 1066-1076): a type constructor is
replaced by its unconstrained type, a value that is neither a type nor a type
variable raises "invalid union type" (`none`). -/
def union_args (R : Runtime) (G : Globals) (w : World) : List Value → Option (List Value)
  | [] => some []
  | a :: rest =>
    if jl_is_typector_w R G w a then
      match union_args R G w rest with
      | some l => some (G.jl_unconstrained_type a :: l)
      | none => none
    else if !G.jl_is_type a && !jl_is_typevar_w R G w a then none
    else
      match union_args R G w rest with
      | some l => some (a :: l)
      | none => none

/-- Function `jl_f_union`.  With one argument the function returns before anything
else; otherwise the tuple `argt` is allocated before the arguments are
examined. -/
def jl_f_union (R : Runtime) (G : Globals) (args : List Value) (w : World) :
    Except Err Value × World :=
  match args with
  | [x] => (.ok x, w)
  | _ =>
    match union_args R G w args with
    | none => (.error .invalidUnionType, { w with st := (jl_alloc_tuple w.st).2 })
    | some argt =>
      match G.jl_compute_type_union argt with
      | [m] => (.ok m, { w with st := (jl_alloc_tuple w.st).2 })
      | u =>
        (.ok (new_type_object (.unionType u) { w with st := (jl_alloc_tuple w.st).2 }).1,
         (new_type_object (.unionType u) { w with st := (jl_alloc_tuple w.st).2 }).2)

/-! ## Process-wide state (`jl_print_to_string`, `jl_load`) -/

/-- The process-wide data of `builtins.c`: the globals `current_output_stream`
and `CurrentExceptionHandler` (both pointers) and the contents of the streams. -/
structure PState where
  current_output_stream : Addr
  CurrentExceptionHandler : Addr
  streams : Addr → List Char

/-- The way a function is left: by `return`, or by `longjmp` to the handler at
the given address. -/
inductive Exit where
  | returned
  | raised (handler : Addr)
  deriving DecidableEq

/-- Function `jl_print_to_string`.  The local stream `dest` and the local `jmp_buf`
named `handler` are given by their addresses; `jl_print` is the collaborator
(the generic function `print`), which answers whether it raised, that is,
whether it left by a `longjmp` that arrives at the handler installed here, and
the state it left.  The value returned is the buffer of `dest`. -/
def jl_print_to_string (jl_print : Value → PState → Bool × PState) (dest handler : Addr)
    (v : Value) (p : PState) : Exit × Option (List Char) × PState :=
  match jl_print v
      { current_output_stream := dest
        CurrentExceptionHandler := handler
        streams := fun a => if a = dest then [] else p.streams a } with
  | (true, p1) =>
    (.raised p.CurrentExceptionHandler, none,
     { current_output_stream := p.current_output_stream
       CurrentExceptionHandler := p.CurrentExceptionHandler
       streams := p1.streams })
  | (false, p1) =>
    (.returned, some (p1.streams dest),
     { current_output_stream := p.current_output_stream
       CurrentExceptionHandler := p.CurrentExceptionHandler
       streams := p1.streams })

/-- A toplevel form of a parsed file: a line marker or an expression holding a
lambda. -/
inductive Form where
  | line (lineno : Value)
  | expr (lam : Value)

/-- The `for` loop of `jl_load` (lines 195-206): `interpret` is the collaborator
`jl_interpret_toplevel_expr`, which answers whether it raised and the state it
left; the loop ends at the first form that raises. -/
def jl_load_loop (interpret : Value → PState → Bool × PState) : List Form → PState → Bool × PState
  | [], p => (false, p)
  | .line _ :: rest, p => jl_load_loop interpret rest p
  | .expr lam :: rest, p =>
    match interpret lam p with
    | (true, p1) => (true, p1)
    | (false, p1) => jl_load_loop interpret rest p1

/-- Function `jl_load`; `ast = none` is a file that could not be opened, for which
`jl_errorf` jumps to the current handler before any handler is installed. -/
def jl_load (interpret : Value → PState → Bool × PState) (handler : Addr)
    (ast : Option (List Form)) (p : PState) : Exit × PState :=
  match ast with
  | none => (.raised p.CurrentExceptionHandler, p)
  | some forms =>
    match jl_load_loop interpret forms
        { current_output_stream := p.current_output_stream
          CurrentExceptionHandler := handler
          streams := p.streams } with
    | (true, p1) =>
      (.raised p.CurrentExceptionHandler,
       { current_output_stream := p1.current_output_stream
         CurrentExceptionHandler := p.CurrentExceptionHandler
         streams := p1.streams })
    | (false, p1) =>
      (.returned,
       { current_output_stream := p1.current_output_stream
         CurrentExceptionHandler := p.CurrentExceptionHandler
         streams := p1.streams })

/-! ## Printing of tuples (`print_tuple`, `jl_f_print_any`) -/

/-- The collaborator behind `call_print` (the generic function `print` applied
to one value): the characters it writes to the current output stream and
whether it raised. -/
abbrev Printer := Value → List Char × Bool

/-- The `for` loop of `print_tuple` (lines 654-658) from index `i` on, `n` being
`t->length`; the output so far is `out`.  The result tells whether an element
raised. -/
def print_tuple_loop (pr : Printer) (n : Nat) (comma_one : Bool) :
    Nat → List Value → List Char → Bool × List Char
  | _, [], out => (false, out)
  | i, e :: rest, out =>
    if (pr e).2 then (true, out ++ (pr e).1)
    else if i < n - 1 || (n == 1 && comma_one) then
      print_tuple_loop pr n comma_one (i + 1) rest (out ++ (pr e).1 ++ [','])
    else print_tuple_loop pr n comma_one (i + 1) rest (out ++ (pr e).1)

/-- Function `print_tuple`. -/
def print_tuple (pr : Printer) (elems : List Value) (opn cls : Char) (comma_one : Bool)
    (out : List Char) : Bool × List Char :=
  match print_tuple_loop pr elems.length comma_one 0 elems (out ++ [opn]) with
  | (true, o) => (true, o)
  | (false, o) => (false, o ++ [cls])

/-- Function `jl_f_print_any` on one argument: a tuple goes to `print_tuple` with
`comma_one` set; the branches for the other kinds of values are given by
`others`. -/
def jl_f_print_any (pr : Printer) (others : Value → List Char → Bool × List Char)
    (v : Value) (out : List Char) : Bool × List Char :=
  match v with
  | .tuple _ elems => print_tuple pr elems '(' ')' true out
  | x => others x out

/-! ## Printing of scalars and struct instances (`print_uint`, `print_float64`,
`jl_f_print_any`) -/

/-- The bytes of a C string literal: its characters followed by the terminating
zero byte. -/
def c_string (s : List Char) : List Char :=
  s ++ [Char.ofNat 0]

/-- Modelled from the spec: `ios_write(s, data, n)` belongs to the stream library
declared in `llt.h`, which is not part of the sources; it appends the `n` bytes
found at `data` to the stream. -/
def ios_write (out : List Char) (data : List Char) (n : Nat) : List Char :=
  out ++ data.take n

/-- Function `print_uint(data, nbits)`, `data` being the payload it points to: the
object of `nbits` bits read there is written in decimal by the conversions
`%hhu`, `%hu`, `%u` and `%llu`, each of which takes its argument as an unsigned
integer of that width; any other width raises. -/
def print_uint (data nbits : Nat) (out : List Char) : Except Err (List Char) :=
  if nbits = 8 then .ok (out ++ Nat.toDigits 10 (data % 2 ^ 8))
  else if nbits = 16 then .ok (out ++ Nat.toDigits 10 (data % 2 ^ 16))
  else if nbits = 32 then .ok (out ++ Nat.toDigits 10 (data % 2 ^ 32))
  else if nbits = 64 then .ok (out ++ Nat.toDigits 10 (data % 2 ^ 64))
  else .error .unsupportedIntegerSize

/-- A `double` by the three fields of its representation: the sign bit, the
biased exponent (11 bits) and the fraction (52 bits). -/
structure Double where
  sign : Bool
  exponent : Nat
  fraction : Nat
  deriving DecidableEq

/-- Modelled from the spec: the macro `DFINITE(d)` of `llt.h`, which is not part
of the sources: the exponent field is not all ones. -/
def DFINITE (d : Double) : Bool :=
  d.exponent != 2047

/-- The C library test `isnan(d)`: exponent all ones and a fraction that is not
zero. -/
def isnan (d : Double) : Bool :=
  d.exponent == 2047 && d.fraction != 0

/-- Modelled from the spec: the macro `sign_bit(d)` of `llt.h`, which is not part
of the sources. -/
def sign_bit (d : Double) : Bool :=
  d.sign

/-- The C comparison `d == 0` on a finite `double`: true of both zeros. -/
def Double.isZero (d : Double) : Bool :=
  d.exponent == 0 && d.fraction == 0

/-- Function `print_float64(d, single)`.  The collaborator `snprint_real` (number
formatter of the support library) is a parameter: `snprint_real d ndec` is the
string it leaves in `buf`.  On a zero, `1/d < 0` holds exactly when the sign bit
is set. -/
def print_float64 (snprint_real : Double → Nat → List Char) (d : Double) (single : Bool)
    (out : List Char) : List Char :=
  if !DFINITE d then
    if single then
      out ++ "float32(".toList ++
        (if isnan d then (if sign_bit d then "-NaN".toList else "+NaN".toList)
         else (if sign_bit d then "-Inf".toList else "+Inf".toList)) ++ [')']
    else
      out ++ (if isnan d then (if sign_bit d then "-NaN".toList else "+NaN".toList)
              else (if sign_bit d then "-Inf".toList else "+Inf".toList))
  else if d.isZero then
    if d.sign then out ++ "-0.0".toList else out ++ "0.0".toList
  else
    if !(snprint_real d (if single then 8 else 16)).any
        (fun c => c == '.' || c == 'e' || c == 'E') then
      out ++ snprint_real d (if single then 8 else 16) ++ ".0".toList
    else out ++ snprint_real d (if single then 8 else 16)

/-- Modelled from the spec: what the print functions read through `julia.h`,
which is not part of the sources: the type of the intrinsic functions, the macro
`jl_is_func(v)`, and the characters `->name` of a symbol. -/
structure PrintEnv where
  jl_intrinsic_type : Addr
  jl_is_func : Value → Bool
  sym_name : Addr → List Char

/-- The `for` loop of the last branch of `jl_f_print_any` (lines 889-893) from
index `i` on, with `k` iterations left; `n` is `st->names->length` and `slots`
are the words after the header of the instance.  Between two fields the call
`ios_write(s, ",", 2)` is made.  The result tells whether the loop was left by
an error. -/
def print_struct_loop (pr : Printer) (n : Nat) (slots : List (Option Value)) :
    Nat → Nat → List Char → Bool × List Char
  | 0, _, out => (false, out)
  | k + 1, i, out =>
    match slots.get? i with
    | some (some f) =>
      if (pr f).2 then (true, out ++ (pr f).1)
      else if i < n - 1 then
        print_struct_loop pr n slots k (i + 1) (ios_write (out ++ (pr f).1) (c_string [',']) 2)
      else print_struct_loop pr n slots k (i + 1) (out ++ (pr f).1)
    | _ => (true, out)

/-- The branches of `jl_f_print_any` that follow the test `jl_is_tuple(v)`.  The
functions `print_type` and `print_function` are parameters; each gives the
output it leaves and whether it raised.  In the last branch a value of a bits
type goes to `print_uint` with the width its type declares, and any other value
is printed as a struct instance: the name of its type, the fields between
parentheses.  The payload of an intrinsic function is read as a `uint32_t` and
written by the conversion `%d`, that is, as an `int`. -/
def print_any_rest (R : Runtime) (G : Globals) (w : World) (P : PrintEnv) (pr : Printer)
    (print_type print_function : Value → List Char → Bool × List Char)
    (v : Value) (out : List Char) : Bool × List Char :=
  if G.jl_is_type v then print_type v out
  else if P.jl_is_func v then print_function v out
  else if jl_typeis_w R G w v P.jl_intrinsic_type then
    match v with
    | .bits _ _ d =>
      (false, out ++ "#<intrinsic-function ".toList ++
        (if d % 2 ^ 32 < 2 ^ 31 then Nat.toDigits 10 (d % 2 ^ 32)
         else '-' :: Nat.toDigits 10 (2 ^ 32 - d % 2 ^ 32)) ++ ['>'])
    | _ => (true, out)
  else if jl_is_bits_type_w R G w (jl_typeof_w R G w v) then
    match v with
    | .bits _ t d =>
      match print_uint d (R.fields t).nbits out with
      | .ok o => (false, o)
      | .error _ => (true, out)
    | _ => (true, out)
  else if !jl_is_struct_type_w R G w (jl_typeof_w R G w v) then (true, out)
  else
    match w.ty (jl_typeof_w R G w v).addr, w.obj v.addr with
    | some (.structType name _ _ names _), some c =>
      match print_struct_loop pr names.length c.slots names.length 0
          (out ++ P.sym_name name.addr ++ ['(']) with
      | (true, o) => (true, o)
      | (false, o) => (false, o ++ [')'])
    | _, _ => (true, out)

/-! ## Arrays (`jl_f_arraylen`, `jl_f_arrayset`) -/

/-- Function `jl_f_arraylen`. -/
def jl_f_arraylen (R : Runtime) (args : List Value) (w : World) : Except Err Value × World :=
  if args.length < 1 then (.error .tooFewArgs, w)
  else if args.length > 1 then (.error .tooManyArgs, w)
  else
    match args with
    | [a] =>
      if !jl_is_array w a then (.error .typeError, w)
      else
        match w.arr a.addr with
        | none => (.error .fault, w)
        | some x =>
          (.ok (jl_box_int32 R.toHeap (x.length % 2 ^ 64 : Nat) w.st).1,
           { w with st := (jl_box_int32 R.toHeap (x.length % 2 ^ 64 : Nat) w.st).2 })
    | _ => (.error .fault, w)

/-- The `switch (nb)` of `jl_f_arrayset` (lines 372-383): the first `nb` bytes of
the payload `d` of `rhs` are copied to element `i` of the buffer; for `nb = 0`
the `memcpy` of the default case copies nothing. -/
def array_store (elems : List Nat) (i nb d : Nat) : List Nat :=
  if nb = 0 then elems else elems.set i (d % 2 ^ (8 * nb))

/-- Function `jl_f_arrayset`.  The length and the element type are read before
`jl_convert` is called; the buffer is written in the world the conversion
leaves.  The payload of `rhs` is that of an instance of a bits type; reading it
from any other object, or storing outside the buffer, is a fault. -/
def jl_f_arrayset (A : Methods) (R : Runtime) (G : Globals) (args : List Value) (w : World) :
    Except Err Value × World :=
  if args.length < 3 then (.error .tooFewArgs, w)
  else if args.length > 3 then (.error .tooManyArgs, w)
  else
    match args with
    | [a, iv, v] =>
      if !jl_is_array w a then (.error .typeError, w)
      else if !jl_typeis_w R G w iv R.jl_int32_type then (.error .typeError, w)
      else
        match w.arr a.addr with
        | none => (.error .fault, w)
        | some x =>
          if to_size_t (wrap_int32 (jl_unbox_int32 iv - 1)) ≥ x.length then
            (.error .arrayOutOfRange, w)
          else
            match jl_tparam0 R.toHeap (.obj x.type) with
            | none => (.error .fault, w)
            | some el_type =>
              match jl_convert_w A R G v el_type w with
              | (.error e, w1) => (.error e, w1)
              | (.ok rhs, w1) =>
                match w1.arr a.addr with
                | none => (.error .fault, w1)
                | some x1 =>
                  if jl_is_bits_type R.toHeap el_type then
                    match x1.data, rhs with
                    | .raw elems, .bits _ _ d =>
                      if to_size_t (wrap_int32 (jl_unbox_int32 iv - 1)) < elems.length then
                        (.ok a,
                         { w1 with
                           arr := fun b =>
                             if b = a.addr then
                               some ⟨x1.type, x1.length,
                                 .raw (array_store elems
                                   (to_size_t (wrap_int32 (jl_unbox_int32 iv - 1)))
                                   ((R.fields el_type.addr).nbits / 8) d)⟩
                             else w1.arr b })
                      else (.error .fault, w1)
                    | _, _ => (.error .fault, w1)
                  else
                    match x1.data with
                    | .refs elems =>
                      if to_size_t (wrap_int32 (jl_unbox_int32 iv - 1)) < elems.length then
                        (.ok a,
                         { w1 with
                           arr := fun b =>
                             if b = a.addr then
                               some ⟨x1.type, x1.length,
                                 .refs (elems.set
                                   (to_size_t (wrap_int32 (jl_unbox_int32 iv - 1))) (some rhs))⟩
                             else w1.arr b })
                      else (.error .fault, w1)
                    | .raw _ => (.error .fault, w1)
    | _ => (.error .fault, w)

/-! ## A concrete world -/

/-- The heap `demoHeap` with, in addition, the types `Type` (40), `Array` (41),
`Symbol` (42), the box type (43) and `Bool` (46, a bits type of 8 bits), the
array types `Array{Int32}` (47), `Array{Any}` (48) and `Array{Bool}` (49), the
symbols `x` (50), `y` (51) and `Foo` (52), and a type variable (55). -/
def demoHeap2 : Heap :=
  { demoHeap with
    hdr := fun a =>
      if a = 50 ∨ a = 51 ∨ a = 52 then 42
      else if a = 55 then 44
      else if a = 46 then 11
      else if a = 42 ∨ a = 43 then 12
      else demoHeap.hdr a
    fields := fun a =>
      if a = 40 then demoType 140 20 0 none
      else if a = 41 then demoType 141 20 0 none
      else if a = 42 then demoType 142 20 0 none
      else if a = 43 then demoType 143 20 0 none
      else if a = 46 then demoType 146 20 8 none
      else if a = 47 then ⟨141, 20, [.obj 23], 0, none⟩
      else if a = 48 then ⟨141, 20, [.obj 20], 0, none⟩
      else if a = 49 then ⟨141, 20, [.obj 46], 0, none⟩
      else demoHeap.fields a }

/-- The runtime `demoRuntime` on the heap `demoHeap2`. -/
def demoRuntime2 : Runtime :=
  { demoRuntime with
    toHeap := demoHeap2
    jl_subtype := fun a b ta _ => spec_subtype demoHeap2 8 a b ta
    jl_types_equal := fun a b =>
      spec_subtype demoHeap2 8 a b false && spec_subtype demoHeap2 8 b a false
    jl_type_morespecific := fun a b ta _ => spec_subtype demoHeap2 8 a b ta }

/-- The constants of the concrete world.  The functions are the objects at 60
and 61; every tuple and every object at an address from 20 to 49 or from 1000
on is a type; normalising a union removes the repeated members. -/
def demoGlobals : Globals where
  jl_box_any_type := 43
  jl_sym_type := 42
  jl_type_type := .obj 40
  jl_array_type := .obj 41
  jl_bool_type := 46
  jl_true := .bits 56 46 1
  jl_false := .bits 57 46 0
  jl_typector_type := 45
  jl_union_kind := 13
  jl_tvar_type := 44
  jl_scalar_type := 70
  jl_number_type := 71
  jl_real_type := 72
  jl_int_type := 73
  jl_float_type := 74
  jl_is_function := fun v => v.addr == 60 || v.addr == 61
  jl_is_type := fun v =>
    match v with
    | .tuple _ _ => true
    | .bits _ _ _ => false
    | .obj a => (decide (20 ≤ a) && decide (a < 50)) || decide (1000 ≤ a)
  jl_apply_type_ctor := fun tc _ => (.obj (tc.addr + 100), .obj 20)
  jl_unconstrained_type := fun v => v
  jl_compute_type_union := fun l => l.dedup

/-- A world with the struct type `Point` (80) of fields `x::Int32`, `y::Float64`
and its instance (210) holding `Int32(1)` and `Float64(2)`, a struct type (81)
whose field types are not completed, wrapped in the type constructor at 82, and
the arrays at 230 (`Array{Int32}` holding 7, 8, 9), 231 (`Array{Any}` whose
second slot is null) and 232 (`Array{Bool}` holding 0 and 1). -/
def demoWorld : World where
  st := ⟨1000, []⟩
  obj := fun a =>
    if a = 210 then some ⟨80, [some (.bits 300 23 1), some (.bits 301 24 2)]⟩
    else none
  arr := fun a =>
    if a = 230 then some ⟨47, 3, .raw [7, 8, 9]⟩
    else if a = 231 then some ⟨48, 3, .refs [some (.obj 50), none, some (.bits 300 23 1)]⟩
    else if a = 232 then some ⟨49, 2, .raw [0, 1]⟩
    else none
  ty := fun a =>
    if a = 80 then
      some (.structType (.obj 52) (.obj 20) [] [.obj 50, .obj 51] (some [.obj 23, .obj 24]))
    else if a = 81 then some (.structType (.obj 52) (.obj 20) [] [.obj 50] none)
    else if a = 82 then some (.typector [] (.obj 81))
    else none
  ctors := []

/-- The print environment of the concrete world: the type of the intrinsic
functions is the object at 58, the functions are the objects at 60 and 61, and
the symbols at 50, 51 and 52 are named `x`, `y` and `Foo`. -/
def demoPrintEnv : PrintEnv where
  jl_intrinsic_type := 58
  jl_is_func := fun v => v.addr == 60 || v.addr == 61
  sym_name := fun a =>
    if a = 50 then ['x'] else if a = 51 then ['y'] else if a = 52 then ['F', 'o', 'o'] else []

/-- A stand-in for `print_type` and `print_function` in the concrete world, where
no type and no function is printed: it writes nothing and raises. -/
def raising_printer : Value → List Char → Bool × List Char :=
  fun _ out => (true, out)

/-- The heap `demoHeap2` with one more bits type, of 24 bits, at 59. -/
def demoHeap3 : Heap :=
  { demoHeap2 with
    hdr := fun a => if a = 59 then 11 else demoHeap2.hdr a
    fields := fun a => if a = 59 then demoType 159 20 24 none else demoHeap2.fields a }

/-- The runtime `demoRuntime2` on the heap `demoHeap3`. -/
def demoRuntime3 : Runtime :=
  { demoRuntime2 with toHeap := demoHeap3 }

/-- The heap `demoHeap` with two struct types `S1` (90) and `S2` (91) whose supers
are parameterised by the struct type itself, the way `jl_f_new_struct_type`
builds the super for `Number`: the super of `S1` is the tag type `Number{S1}`
(92), that of `S2` is `Number{S2}` (93), and both of these are directly below
`Any`. -/
def selfHeap : Heap :=
  { demoHeap with
    hdr := fun a => if a = 90 ∨ a = 91 then 12 else demoHeap.hdr a
    fields := fun a =>
      if a = 90 then ⟨190, 92, [], 0, none⟩
      else if a = 91 then ⟨191, 93, [], 0, none⟩
      else if a = 92 then ⟨102, 20, [.obj 90], 0, none⟩
      else if a = 93 then ⟨102, 20, [.obj 91], 0, none⟩
      else demoHeap.fields a }

/-- The runtime `demoRuntime` on the heap `selfHeap`. -/
def selfRuntime : Runtime :=
  { demoRuntime with
    toHeap := selfHeap
    jl_subtype := fun a b ta _ => spec_subtype selfHeap 8 a b ta
    jl_types_equal := fun a b =>
      spec_subtype selfHeap 8 a b false && spec_subtype selfHeap 8 b a false
    jl_type_morespecific := fun a b ta _ => spec_subtype selfHeap 8 a b ta }

/-- The runtime `demoRuntime` with methods that raise: every call, that of the
conversion method of `Float64` (60) included, raises. -/
def raisingRuntime : Runtime :=
  { demoRuntime with jl_apply := fun _ _ next => (.error (.raised 7), next) }

/-- The heap `demoHeap2` with the array type `Array{Float64}` (38). -/
def demoHeap4 : Heap :=
  { demoHeap2 with
    fields := fun a => if a = 38 then ⟨141, 20, [.obj 24], 0, none⟩ else demoHeap2.fields a }

/-- The runtime `demoRuntime2` on the heap `demoHeap4`. -/
def demoRuntime4 : Runtime :=
  { demoRuntime2 with
    toHeap := demoHeap4
    jl_subtype := fun a b ta _ => spec_subtype demoHeap4 8 a b ta
    jl_types_equal := fun a b =>
      spec_subtype demoHeap4 8 a b false && spec_subtype demoHeap4 8 b a false
    jl_type_morespecific := fun a b ta _ => spec_subtype demoHeap4 8 a b ta }

/-- The world `demoWorld` with one more array, the `Array{Float64}` at 233 holding
the payloads 5 and 6. -/
def demoWorld4 : World :=
  { demoWorld with
    arr := fun a => if a = 233 then some ⟨38, 2, .raw [5, 6]⟩ else demoWorld.arr a }

/-- The write `demoMethods` performs on the object at `p`: the first field of a
struct instance is set to the `Int32` at 306, of payload 0, the first element of
an array of a bits type is set to `0`. -/
def demo_write (p : Addr) (w : World) : World :=
  match w.obj p with
  | some c =>
    { w with obj := fun b => if b = p then some ⟨c.type, c.slots.set 0 (some (.bits 306 23 0))⟩
                             else w.obj b }
  | none =>
    match w.arr p with
    | some ⟨t, n, .raw elems⟩ =>
      { w with arr := fun b => if b = p then some ⟨t, n, .raw (elems.set 0 0)⟩ else w.arr b }
    | _ => w

/-- The methods of the concrete world.  The conversion method of `Float64` (60)
makes a `Float64` with the payload of a bits argument; called with the object
at `p` it writes to that object and answers `Float64(0)`; called with the
1-tuple holding the object at `p` it writes to that object and raises.  Every
other call raises. -/
def demoMethods : Methods := fun f args w =>
  if f = 60 then
    match args with
    | [.bits _ _ d] => (.ok (.bits w.st.next 24 d), { w with st := ⟨w.st.next + 1, w.st.calls⟩ })
    | [.obj p] =>
      (.ok (.bits w.st.next 24 0),
       demo_write p { w with st := ⟨w.st.next + 1, w.st.calls⟩ })
    | [.tuple _ [.obj p]] => (.error (.raised 0), demo_write p w)
    | _ => (.error (.raised 0), w)
  else (.error (.raised 1), w)

/-! ## Notions used to state the properties -/

/-- The common type of `promote` in the words of the spec:
`T = bigger_type(typeof(x1), typeof(x2))`, then `T = bigger_type(T, typeof(xi))`
for the following arguments, a left fold; once a step is undefined `T` stays
undefined. -/
def promote_type_spec (R : Runtime) (fuel : Nat) (x1 x2 : Value) (rest : List Value) : BT :=
  rest.foldl
    (fun T xi =>
      match T with
      | .type t => bigger_type R fuel t (jl_typeof R.toHeap xi).addr
      | r => r)
    (bigger_type R fuel (jl_typeof R.toHeap x1).addr (jl_typeof R.toHeap x2).addr)

/-- The elements `convert(x1, T), …, convert(xn, T)` in the words of the spec:
the conversions are made in order, each in the state the previous one left, and
the first error ends them. -/
def convert_all_spec (R : Runtime) (T : Value) (xs : List Value) (s : St) :
    Except Err (List Value) × St :=
  xs.foldl
    (fun acc x =>
      match acc with
      | (.error e, s1) => (.error e, s1)
      | (.ok ys, s1) =>
        match jl_convert R x T s1 with
        | (.error e, s2) => (.error e, s2)
        | (.ok y, s2) => (.ok (ys ++ [y]), s2))
    (.ok [], s)

/-- The contract of `promote` for two or more arguments in the words of the
spec: fail with `PromotionError` when the common type is undefined, else return
the tuple of the converted arguments. -/
def promote_spec (R : Runtime) (fuel : Nat) (x1 x2 : Value) (rest : List Value) (s : St) :
    Option Result :=
  match promote_type_spec R fuel x1 x2 rest with
  | .timeout => none
  | .fault => some (.error .fault, s)
  | .null => some (.error .noCommonEmbedding, s)
  | .type T =>
    match convert_all_spec R (.obj T) (x1 :: x2 :: rest) ⟨s.next + 1, s.calls⟩ with
    | (.error e, s1) => some (.error e, s1)
    | (.ok ys, s1) => some (.ok (.tuple s.next ys), s1)

/-- Whether `bigger_type` gave an answer: a type or `NULL`. -/
def BT.answered : BT → Bool
  | .null => true
  | .type _ => true
  | _ => false

/-- The verdict on one parameter position of two types with the same name: the
parameters are type-equal, the parameter of `t1` is the bigger one, that of
`t2` is, or the position has no bigger parameter. -/
inductive Side where
  | same
  | left
  | right
  | neither
  deriving DecidableEq

/-- The verdict on the position holding `p1` and `p2`, in the words of the spec:
of two parameters that are not type-equal, `p1` is the bigger one when
`bigger_type(p1, p2)` is `p1`, and `p2` is when that fails and
`bigger_type(p2, p1)` is `p2`; parameters that are not both nominal types have
no bigger one.  `bt` stands for `bigger_type`. -/
def bigger_param (R : Runtime) (bt : Addr → Addr → BT) (p1 p2 : Value) : Side :=
  if R.jl_types_equal p1 p2 then .same
  else if !(jl_is_some_tag_type R.toHeap p1 && jl_is_some_tag_type R.toHeap p2) then .neither
  else if bt p1.addr p2.addr = .type p1.addr then .left
  else if bt p2.addr p1.addr = .type p2.addr then .right
  else .neither

/-- The result for two types `t1`, `t2` with the same name from the verdicts on
their positions, taken in order, `w` being the winner so far. -/
def combine_sides (t1 t2 : Addr) : List Side → Option Addr → BT
  | [], none => .type t1
  | [], some w => .type w
  | .same :: r, w => combine_sides t1 t2 r w
  | .left :: r, w => if w = some t2 then .null else combine_sides t1 t2 r (some t1)
  | .right :: r, w => if w = some t1 then .null else combine_sides t1 t2 r (some t2)
  | .neither :: _, _ => .null

/-- The type reached from `t` after `k` hops along `super`. -/
def super_iter (R : Runtime) : Nat → Addr → Addr
  | 0, t => t
  | k + 1, t => super_iter R k (R.fields t).super

/-- The elements of a tuple value, none for any other value. -/
def tuple_elems : Value → List Value
  | .tuple _ elems => elems
  | _ => []

/-- The concatenation `t1 ++ ... ++ tk` of the elements of the given tuples. -/
def concat_tuples (ts : List Value) : List Value :=
  ts.foldr (fun t acc => tuple_elems t ++ acc) []

/-- The printed elements separated by single commas. -/
def comma_separated : List (List Char) → List Char
  | [] => []
  | [x] => x
  | x :: y :: rest => x ++ [','] ++ comma_separated (y :: rest)

/-- A printer for the concrete world: an instance of a bits type prints as the
decimal digits of its payload, any other value raises. -/
def demoPrinter : Printer := fun v =>
  match v with
  | .bits _ _ d => (Nat.toDigits 10 d, false)
  | _ => ([], true)

/-- Nothing is recorded in the world at or above the allocation frontier. -/
def World.wf (w : World) : Prop :=
  ∀ b, w.st.next ≤ b → w.obj b = none ∧ w.arr b = none ∧ w.ty b = none

/-- The supertypes that `check_supertype` lets through: a tag type that is not
`Symbol`, not a subtype of `Type` and not a subtype of `Array`. -/
def valid_supertype (R : Runtime) (G : Globals) (w : World) (super : Value) : Bool :=
  jl_is_tag_type_w R G w super && super.addr != G.jl_sym_type &&
    !R.jl_subtype super G.jl_type_type false false &&
    !R.jl_subtype super G.jl_array_type false false

/-- One of the five type constructors `Scalar`, `Number`, `Real`, `Int`, `Float`. -/
def is_numeric_ctor (G : Globals) (super : Value) : Bool :=
  super.addr == G.jl_scalar_type || super.addr == G.jl_number_type ||
    super.addr == G.jl_real_type || super.addr == G.jl_int_type ||
    super.addr == G.jl_float_type

/-- The characters `print_float64` looks for in the formatted string: a decimal
point or an exponent marker. -/
def decimal_mark (c : Char) : Bool :=
  c == '.' || c == 'e' || c == 'E'

/-- A value up to the identity of a scalar: the address of an instance of a bits
type is replaced by `0`. -/
def Value.scalar : Value → Value
  | .bits _ t d => .bits 0 t d
  | v => v

/-! ## Properties of `jl_convert` -/

theorem jl_convert_tuple_eq (R : Runtime) (xa : Addr) (xs : List Value) (ta : Addr)
    (ts : List Value) (s : St) :
    jl_convert R (.tuple xa xs) (.tuple ta ts) s
      = match convert_tuple R xa xs ta ts s with
        | (.error e, s1) => (.error e, s1)
        | (.ok none, s1) => (.error .invalidTupleConversion, s1)
        | (.ok (some out), s1) => (.ok out, s1) := by
  rw [jl_convert, convert_tuple]
  by_cases hta : (ta == R.jl_tuple_type.addr) = true
  · simp [hta]
  · simp only [hta, Bool.false_eq_true, if_false]
    rcases convert_tuple_loop R xs ts none (jl_alloc_tuple s).2 with ⟨r, s1⟩
    cases r with
    | error e => rfl
    | ok o => cases o <;> rfl

/-- C2, evaluated at the failing input: converting the 1-tuple `(Int32(1),)` to
the tuple type `(Int32, Int32)` returns a 1-tuple, and `istype` of that result
and the target type is false. -/
theorem convert_short_tuple_result_not_istype :
    jl_convert demoRuntime (.tuple 500 [.bits 300 23 1]) (.tuple 501 [.obj 23, .obj 23])
      ⟨1000, []⟩ = (.ok (.tuple 1000 [.bits 300 23 1]), ⟨1001, []⟩) ∧
    jl_f_istype demoRuntime (.tuple 1000 [.bits 300 23 1]) (.tuple 501 [.obj 23, .obj 23])
      = false := by
  decide

/-- C3, evaluated at the failing input: a tuple with fewer elements than the
target tuple type requires is converted without any error, whereas a tuple with
more elements than the target accepts raises "convert: invalid tuple
conversion". -/
theorem convert_tuple_arity_checked_one_way :
    (jl_convert demoRuntime (.tuple 500 [.bits 300 23 1]) (.tuple 501 [.obj 23, .obj 23])
      ⟨1000, []⟩).1 = .ok (.tuple 1000 [.bits 300 23 1]) ∧
    (jl_convert demoRuntime (.tuple 500 [.bits 300 23 1, .bits 301 23 2]) (.tuple 501 [.obj 23])
      ⟨1000, []⟩).1 = .error .invalidTupleConversion := by
  decide

/-- C4: when `x` and `T` are not both tuples, the type of `x` is not a subtype of
`T`, and `T` is neither a bits type nor a struct type, `convert(x, T)` raises
"convert: invalid conversion" (a ConversionError) and leaves the state, hence
the log of method calls, as it was. -/
theorem convert_other_kind_fails (R : Runtime) (x T : Value) (s : St)
    (hpair : (jl_is_tuple x && jl_is_tuple T) = false)
    (hsub : R.jl_subtype (jl_typeof R.toHeap x) T false false = false)
    (hbits : jl_is_bits_type R.toHeap T = false)
    (hstruct : jl_is_struct_type R.toHeap T = false) :
    jl_convert R x T s = (.error .invalidConversion, s) ∧
      Err.isConversionError .invalidConversion = true := by
  refine ⟨?_, rfl⟩
  have hm : jl_convert_method R x T s = (.error .invalidConversion, s) := by
    simp [jl_convert_method, hsub, hbits, hstruct]
  cases x with
  | tuple xa xs =>
    cases T with
    | tuple ta ts => simp [jl_is_tuple] at hpair
    | bits a t d => rw [jl_convert]; exact hm
    | obj a => rw [jl_convert]; exact hm
  | bits a t d => rw [jl_convert]; exact hm
  | obj a => rw [jl_convert]; exact hm

/-- Witness of C4: an `Int32` value and the tag type `A`. -/
theorem convert_other_kind_fails_witness :
    (jl_is_tuple (.bits 300 23 1) && jl_is_tuple (.obj 30)) = false ∧
    demoRuntime.jl_subtype (jl_typeof demoRuntime.toHeap (.bits 300 23 1)) (.obj 30) false false
      = false ∧
    jl_is_bits_type demoRuntime.toHeap (.obj 30) = false ∧
    jl_is_struct_type demoRuntime.toHeap (.obj 30) = false ∧
    (jl_convert demoRuntime (.bits 300 23 1) (.obj 30) ⟨1000, []⟩
        = (.error .invalidConversion, ⟨1000, []⟩) ∧
      Err.isConversionError .invalidConversion = true) :=
  ⟨by decide, by decide, by decide, by decide,
    convert_other_kind_fails demoRuntime (.bits 300 23 1) (.obj 30) ⟨1000, []⟩
      (by decide) (by decide) (by decide) (by decide)⟩

/-! ## Properties of `jl_f_promote` and `bigger_type` -/

theorem promote_fold_eq_foldl (R : Runtime) (fuel : Nat) (rest : List Value) (r : BT) :
    rest.foldl
      (fun T xi =>
        match T with
        | .type t => bigger_type R fuel t (jl_typeof R.toHeap xi).addr
        | r => r) r
    = match r with
      | .type t => promote_fold R fuel t rest
      | r => r := by
  induction rest generalizing r with
  | nil => cases r <;> simp [promote_fold]
  | cons a rest ih =>
    rw [List.foldl_cons, ih]
    cases r with
    | timeout => rfl
    | fault => rfl
    | null => rfl
    | type t =>
      simp only [promote_fold]

theorem convert_all_spec_foldl (R : Runtime) (T : Value) (xs : List Value)
    (acc : Except Err (List Value) × St) :
    xs.foldl
      (fun acc x =>
        match acc with
        | (.error e, s1) => (.error e, s1)
        | (.ok ys, s1) =>
          match jl_convert R x T s1 with
          | (.error e, s2) => (.error e, s2)
          | (.ok y, s2) => (.ok (ys ++ [y]), s2)) acc
    = match acc with
      | (.error e, s1) => (.error e, s1)
      | (.ok ys, s1) =>
        match promote_convert R T xs s1 with
        | (.error e, s2) => (.error e, s2)
        | (.ok vs, s2) => (.ok (ys ++ vs), s2) := by
  induction xs generalizing acc with
  | nil =>
    obtain ⟨r, s1⟩ := acc
    cases r <;> simp [promote_convert]
  | cons x xs ih =>
    rw [List.foldl_cons, ih]
    obtain ⟨r, s1⟩ := acc
    cases r with
    | error e => rfl
    | ok ys =>
      simp only [promote_convert]
      rcases hc : jl_convert R x T s1 with ⟨r2, s2⟩
      cases r2 with
      | error e => rfl
      | ok y =>
        simp only []
        rcases hp : promote_convert R T xs s2 with ⟨r3, s3⟩
        cases r3 with
        | error e => rfl
        | ok vs => simp

theorem convert_all_spec_eq (R : Runtime) (T : Value) (xs : List Value) (s : St) :
    convert_all_spec R T xs s = promote_convert R T xs s := by
  rw [convert_all_spec, convert_all_spec_foldl]
  simp only []
  rcases promote_convert R T xs s with ⟨r, s1⟩
  cases r <;> simp

theorem promote_convert_length (R : Runtime) (T : Value) (xs : List Value) (s : St)
    (vs : List Value) (s1 : St) (h : promote_convert R T xs s = (.ok vs, s1)) :
    vs.length = xs.length := by
  induction xs generalizing s vs s1 with
  | nil =>
    simp [promote_convert] at h
    simp [← h.1]
  | cons x xs ih =>
    rw [promote_convert] at h
    rcases hc : jl_convert R x T s with ⟨r2, s2⟩
    rw [hc] at h
    cases r2 with
    | error e => simp at h
    | ok y =>
      simp only [] at h
      rcases hp : promote_convert R T xs s2 with ⟨r3, s3⟩
      rw [hp] at h
      cases r3 with
      | error e => simp at h
      | ok ws =>
        simp only [Prod.mk.injEq, Except.ok.injEq] at h
        rw [← h.1, List.length_cons, List.length_cons, ih s2 ws s3 hp]

theorem bigger_type_params_mono (R : Runtime) (bt bt2 : Addr → Addr → BT) (t1 t2 : Addr)
    (hext : ∀ a b, bt a b ≠ .timeout → bt2 a b = bt a b) :
    ∀ (ps1 ps2 : List Value) (w : Option Addr),
    bigger_type_params R bt t1 t2 ps1 ps2 w ≠ .timeout →
    bigger_type_params R bt2 t1 t2 ps1 ps2 w = bigger_type_params R bt t1 t2 ps1 ps2 w := by
  intro ps1
  induction ps1 with
  | nil => intro ps2 w _; cases w <;> simp [bigger_type_params]
  | cons p1 r1 ih =>
    intro ps2 w h
    cases ps2 with
    | nil => simp [bigger_type_params]
    | cons p2 r2 =>
      simp only [bigger_type_params] at h ⊢
      by_cases heq : R.jl_types_equal p1 p2 = true
      · simp only [heq, if_true] at h ⊢
        exact ih r2 w h
      · simp only [heq, Bool.false_eq_true, if_false] at h ⊢
        by_cases htag : (jl_is_some_tag_type R.toHeap p1 && jl_is_some_tag_type R.toHeap p2) = true
        · simp only [htag, if_true, is_type_bigger] at h ⊢
          cases h1 : bt p1.addr p2.addr with
          | timeout => simp [h1] at h
          | fault =>
            rw [hext _ _ (by rw [h1]; simp), h1]
          | null =>
            rw [hext _ _ (by rw [h1]; simp), h1]
            rw [h1] at h
            simp only [] at h ⊢
            cases h2 : bt p2.addr p1.addr with
            | timeout => simp [h2] at h
            | fault => rw [hext _ _ (by rw [h2]; simp), h2]
            | null => rw [hext _ _ (by rw [h2]; simp), h2]
            | type u =>
              rw [hext _ _ (by rw [h2]; simp), h2]
              rw [h2] at h
              simp only [] at h ⊢
              by_cases hq : (p2.addr == u) = true
              · simp only [hq] at h ⊢
                by_cases hw : (w == some t1) = true
                · simp [hw]
                · simp only [hw, Bool.false_eq_true, if_false] at h ⊢
                  exact ih r2 _ h
              · simp [hq]
          | type t =>
            rw [hext _ _ (by rw [h1]; simp), h1]
            rw [h1] at h
            simp only [] at h ⊢
            by_cases hp : (p1.addr == t) = true
            · simp only [hp] at h ⊢
              by_cases hw : (w == some t2) = true
              · simp [hw]
              · simp only [hw, Bool.false_eq_true, if_false] at h ⊢
                exact ih r2 _ h
            · simp only [hp] at h ⊢
              cases h2 : bt p2.addr p1.addr with
              | timeout => simp [h2] at h
              | fault => rw [hext _ _ (by rw [h2]; simp), h2]
              | null => rw [hext _ _ (by rw [h2]; simp), h2]
              | type u =>
                rw [hext _ _ (by rw [h2]; simp), h2]
                rw [h2] at h
                simp only [] at h ⊢
                by_cases hq : (p2.addr == u) = true
                · simp only [hq] at h ⊢
                  by_cases hw : (w == some t1) = true
                  · simp [hw]
                  · simp only [hw, Bool.false_eq_true, if_false] at h ⊢
                    exact ih r2 _ h
                · simp [hq]
        · simp [htag]

theorem bigger_type_walk_mono (R : Runtime) (bt bt2 : Addr → Addr → BT) (t1_ t2_ : Addr)
    (hext : ∀ a b, bt a b ≠ .timeout → bt2 a b = bt a b) :
    ∀ (m m2 : Nat) (a b : Addr), m ≤ m2 →
    bigger_type_walk R bt t1_ t2_ m a b ≠ .timeout →
    bigger_type_walk R bt2 t1_ t2_ m2 a b = bigger_type_walk R bt t1_ t2_ m a b := by
  intro m
  induction m with
  | zero => intro m2 a b _ h; simp [bigger_type_walk] at h
  | succ m ih =>
    intro m2 a b hm h
    obtain ⟨k, rfl⟩ : ∃ k, m2 = k + 1 := ⟨m2 - 1, by omega⟩
    simp only [bigger_type_walk] at h ⊢
    by_cases ha : (a == R.jl_any_type) = true
    · simp [ha]
    · simp only [ha, Bool.false_eq_true, if_false] at h ⊢
      by_cases hb : (b == R.jl_any_type) = true
      · simp [hb]
      · simp only [hb, Bool.false_eq_true, if_false] at h ⊢
        by_cases hn : ((R.fields a).name == (R.fields b).name) = true
        · simp only [hn, if_true] at h ⊢
          exact bigger_type_params_mono R bt bt2 t1_ t2_ hext _ _ _ h
        · simp only [hn, Bool.false_eq_true, if_false] at h ⊢
          by_cases h1 : R.jl_type_morespecific (.obj a) (.obj b) false false = true
          · simp [h1]
          · simp only [h1, Bool.false_eq_true, if_false] at h ⊢
            by_cases h2 : R.jl_type_morespecific (.obj b) (.obj a) false false = true
            · simp [h2]
            · simp only [h2, Bool.false_eq_true, if_false] at h ⊢
              exact ih k _ _ (by omega) h

theorem bigger_type_succ (R : Runtime) :
    ∀ (n : Nat) (t1 t2 : Addr), bigger_type R n t1 t2 ≠ .timeout →
    bigger_type R (n + 1) t1 t2 = bigger_type R n t1 t2 := by
  intro n
  induction n with
  | zero => intro t1 t2 h; simp [bigger_type] at h
  | succ n ih =>
    intro t1 t2 h
    rw [bigger_type] at h
    rw [bigger_type, bigger_type]
    by_cases he : (t1 == t2) = true
    · simp [he]
    · simp only [he, Bool.false_eq_true, if_false] at h ⊢
      by_cases hb : (jl_is_bits_type R.toHeap (.obj t1) && jl_is_bits_type R.toHeap (.obj t2)) = true
      · simp [hb]
      · simp only [hb, Bool.false_eq_true, if_false] at h ⊢
        exact bigger_type_walk_mono R _ _ t1 t2 (fun a b hab => ih a b hab) _ _ _ _ (by omega) h

theorem bigger_type_mono (R : Runtime) (n m : Nat) (t1 t2 : Addr) (hnm : n ≤ m)
    (h : bigger_type R n t1 t2 ≠ .timeout) :
    bigger_type R m t1 t2 = bigger_type R n t1 t2 := by
  induction m with
  | zero =>
    have : n = 0 := by omega
    subst this; rfl
  | succ m ih =>
    by_cases hm : n ≤ m
    · have e := ih hm
      rw [bigger_type_succ R m t1 t2 (by rw [e]; exact h), e]
    · have : n = m + 1 := by omega
      subst this; rfl

theorem promote_fold_mono (R : Runtime) (n m : Nat) (hnm : n ≤ m) :
    ∀ (rest : List Value) (t : Addr), promote_fold R n t rest ≠ .timeout →
    promote_fold R m t rest = promote_fold R n t rest := by
  intro rest
  induction rest with
  | nil => intro t _; rfl
  | cons a rest ih =>
    intro t h
    rw [promote_fold] at h
    rw [promote_fold, promote_fold]
    cases hb : bigger_type R n t (jl_typeof R.toHeap a).addr with
    | timeout => rw [hb] at h; simp at h
    | fault => rw [bigger_type_mono R n m _ _ hnm (by rw [hb]; simp), hb]
    | null => rw [bigger_type_mono R n m _ _ hnm (by rw [hb]; simp), hb]
    | type u =>
      rw [bigger_type_mono R n m _ _ hnm (by rw [hb]; simp), hb]
      rw [hb] at h
      exact ih u h

theorem jl_f_promote_mono (R : Runtime) (n m : Nat) (hnm : n ≤ m) (args : List Value) (s : St)
    (r : Result) (h : jl_f_promote R n args s = some r) :
    jl_f_promote R m args s = some r := by
  match args with
  | [] => exact h
  | [x] => exact h
  | a0 :: a1 :: rest =>
    rw [jl_f_promote] at h ⊢
    by_cases hany : (a0 :: a1 :: rest).any
        (fun a => !jl_is_some_tag_type R.toHeap (jl_typeof R.toHeap a)) = true
    · rw [if_pos hany] at h ⊢
      exact h
    · rw [if_neg hany] at h ⊢
      cases hb : bigger_type R n (jl_typeof R.toHeap a0).addr (jl_typeof R.toHeap a1).addr with
      | timeout => rw [hb] at h; simp at h
      | fault =>
        rw [bigger_type_mono R n m _ _ hnm (by rw [hb]; simp), hb]
        rw [hb] at h
        exact h
      | null =>
        rw [bigger_type_mono R n m _ _ hnm (by rw [hb]; simp), hb]
        rw [hb] at h
        exact h
      | type t0 =>
        rw [bigger_type_mono R n m _ _ hnm (by rw [hb]; simp), hb]
        rw [hb] at h
        simp only [] at h ⊢
        cases hf : promote_fold R n t0 rest with
        | timeout => rw [hf] at h; simp at h
        | fault =>
          rw [promote_fold_mono R n m hnm rest t0 (by rw [hf]; simp), hf]
          rw [hf] at h
          exact h
        | null =>
          rw [promote_fold_mono R n m hnm rest t0 (by rw [hf]; simp), hf]
          rw [hf] at h
          exact h
        | type t =>
          rw [promote_fold_mono R n m hnm rest t0 (by rw [hf]; simp), hf]
          rw [hf] at h
          exact h

theorem promote_type_spec_mono (R : Runtime) (n m : Nat) (hnm : n ≤ m) (x1 x2 : Value)
    (rest : List Value) (h : (promote_type_spec R n x1 x2 rest).answered = true) :
    promote_type_spec R m x1 x2 rest = promote_type_spec R n x1 x2 rest := by
  simp only [promote_type_spec, promote_fold_eq_foldl] at h ⊢
  cases hb : bigger_type R n (jl_typeof R.toHeap x1).addr (jl_typeof R.toHeap x2).addr with
  | timeout => rw [hb] at h; simp [BT.answered] at h
  | fault => rw [hb] at h; simp [BT.answered] at h
  | null => rw [bigger_type_mono R n m _ _ hnm (by rw [hb]; simp), hb]
  | type t0 =>
    rw [bigger_type_mono R n m _ _ hnm (by rw [hb]; simp), hb]
    rw [hb] at h
    simp only at h ⊢
    exact promote_fold_mono R n m hnm rest t0 (by
      intro hc
      rw [hc] at h
      simp [BT.answered] at h)

theorem jl_f_promote_eq_spec (R : Runtime) (fuel : Nat) (x1 x2 : Value) (rest : List Value)
    (s : St)
    (hnom : ∀ a ∈ x1 :: x2 :: rest,
      jl_is_some_tag_type R.toHeap (jl_typeof R.toHeap a) = true) :
    jl_f_promote R fuel (x1 :: x2 :: rest) s = promote_spec R fuel x1 x2 rest s := by
  have hany : (x1 :: x2 :: rest).any
      (fun a => !jl_is_some_tag_type R.toHeap (jl_typeof R.toHeap a)) = false := by
    rw [List.any_eq_false]
    intro a ha
    simp [hnom a ha]
  rw [jl_f_promote, hany, promote_spec, promote_type_spec, promote_fold_eq_foldl]
  simp only [Bool.false_eq_true, if_false]
  cases h0 : bigger_type R fuel (jl_typeof R.toHeap x1).addr (jl_typeof R.toHeap x2).addr with
  | timeout => rfl
  | fault => rfl
  | null => rfl
  | type t0 =>
    simp only []
    cases h1 : promote_fold R fuel t0 rest with
    | timeout => rfl
    | fault => rfl
    | null => rfl
    | type t =>
      simp only [convert_all_spec_eq, jl_alloc_tuple]

/-- C5, as stated, fails: in `promote(Int32(1), Float64(2))` both types are nominal
and the fold answers `T = Float64`, so no step is undefined; the conversion
method of `Float64`, called for `convert(Int32(1), Float64)`, raises, and
`promote` raises that error, which is no PromotionError, and returns no tuple,
for every bound on the number of steps from 1 on. -/
theorem promote_conversion_error_counterexample :
    (∀ a ∈ [Value.bits 300 23 1, Value.bits 301 24 2],
      jl_is_some_tag_type raisingRuntime.toHeap (jl_typeof raisingRuntime.toHeap a) = true) ∧
    promote_type_spec raisingRuntime 1 (.bits 300 23 1) (.bits 301 24 2) [] = .type 24 ∧
    (raisingRuntime.fields 24).fconvert = some 60 ∧
    Err.isPromotionError (.raised 7) = false ∧
    ∀ m, jl_f_promote raisingRuntime (m + 1) [.bits 300 23 1, .bits 301 24 2] ⟨1000, []⟩
      = some (.error (.raised 7), ⟨1001, [(60, [.bits 300 23 1])]⟩) :=
  ⟨by decide, by decide, by decide, by decide,
    fun m => jl_f_promote_mono raisingRuntime 1 (m + 1) (by omega) _ _ _ (by decide)⟩

/-- C5 (amended): for two or more arguments whose types are all nominal and on
which every step of the left fold `T = bigger_type(typeof(x1), typeof(x2))`,
`T = bigger_type(T, typeof(xi))` answers within some bound, `jl_f_promote`
produces, for that bound and every larger one, the following outcome: when a
step is undefined it raises "arguments have no common embedding type" (a
PromotionError) in an unchanged state; when the fold ends on the type `T` it
converts `x1`, ..., `xn` to `T` in order, raises the error of the first
conversion that raises, and when all succeed returns the new tuple, of length
`n`, whose `i`-th element is `convert(xi, T)`.  A conversion that stops at the
assertion `meth != NULL` of `jl_convert` is left out. -/
theorem promote_fold_then_convert (R : Runtime) (fuel : Nat) (x1 x2 : Value)
    (rest : List Value) (s : St)
    (hnom : ∀ a ∈ x1 :: x2 :: rest,
      jl_is_some_tag_type R.toHeap (jl_typeof R.toHeap a) = true)
    (hans : (promote_type_spec R fuel x1 x2 rest).answered = true) :
    ∀ m, fuel ≤ m →
      (promote_type_spec R fuel x1 x2 rest = .null →
        jl_f_promote R m (x1 :: x2 :: rest) s = some (.error .noCommonEmbedding, s) ∧
        Err.isPromotionError .noCommonEmbedding = true) ∧
      (∀ T, promote_type_spec R fuel x1 x2 rest = .type T →
        (∀ e s1, convert_all_spec R (.obj T) (x1 :: x2 :: rest) ⟨s.next + 1, s.calls⟩
            = (.error e, s1) → e ≠ .assertFailed →
          jl_f_promote R m (x1 :: x2 :: rest) s = some (.error e, s1)) ∧
        (∀ ys s1, convert_all_spec R (.obj T) (x1 :: x2 :: rest) ⟨s.next + 1, s.calls⟩
            = (.ok ys, s1) →
          jl_f_promote R m (x1 :: x2 :: rest) s = some (.ok (.tuple s.next ys), s1) ∧
          ys.length = (x1 :: x2 :: rest).length)) := by
  intro m hm
  have hspec := promote_type_spec_mono R fuel m hm x1 x2 rest hans
  have hmain := jl_f_promote_eq_spec R m x1 x2 rest s hnom
  rw [promote_spec, hspec] at hmain
  refine ⟨?_, ?_⟩
  · intro hnull
    rw [hnull] at hmain
    exact ⟨hmain, rfl⟩
  · intro T hT
    rw [hT] at hmain
    simp only at hmain
    refine ⟨?_, ?_⟩
    · intro e s1 hc _
      rw [hc] at hmain
      exact hmain
    · intro ys s1 hc
      rw [hc] at hmain
      refine ⟨hmain, ?_⟩
      rw [convert_all_spec_eq] at hc
      exact promote_convert_length R _ _ _ ys s1 hc

/-- Witness of C5 (amended): `promote(Int32(1), Float64(2), Int32(3))`, a fold of
two steps that ends on `Float64`, returns the tuple of the three `Float64`
values. -/
theorem promote_fold_then_convert_witness :
    (∀ a ∈ [Value.bits 300 23 1, Value.bits 301 24 2, Value.bits 302 23 3],
      jl_is_some_tag_type demoRuntime.toHeap (jl_typeof demoRuntime.toHeap a) = true) ∧
    promote_type_spec demoRuntime 1 (.bits 300 23 1) (.bits 301 24 2) [.bits 302 23 3]
      = .type 24 ∧
    jl_f_promote demoRuntime 7 [.bits 300 23 1, .bits 301 24 2, .bits 302 23 3] ⟨1000, []⟩
      = some (.ok (.tuple 1000 [.bits 1001 24 1, .bits 301 24 2, .bits 1002 24 3]),
          ⟨1003, [(60, [.bits 300 23 1]), (60, [.bits 302 23 3])]⟩) :=
  ⟨by decide, by decide,
    ((((promote_fold_then_convert demoRuntime 1 (.bits 300 23 1) (.bits 301 24 2)
      [.bits 302 23 3] ⟨1000, []⟩ (by decide) (by decide) 7 (by decide)).2 24 (by decide)).2
      [.bits 1001 24 1, .bits 301 24 2, .bits 1002 24 3]
      ⟨1003, [(60, [.bits 300 23 1]), (60, [.bits 302 23 3])]⟩ (by decide)).1)⟩

/-- C6: `promote()` returns the empty tuple `jl_null`, and `promote(x)` returns a
new 1-tuple whose only element is `x` itself, for every value `x`, without any
test on `x`, without raising and without calling a conversion method. -/
theorem promote_zero_one (R : Runtime) (fuel : Nat) (x : Value) (s : St) :
    jl_f_promote R fuel [] s = some (.ok (jl_null R.toHeap), s) ∧
    jl_f_promote R fuel [x] s = some (.ok (.tuple s.next [x]), ⟨s.next + 1, s.calls⟩) := by
  constructor <;> rfl

/-- C7: `bigger_type(t, t)` is `t`; for two different bits types it is the one
with strictly more bits, and `NULL` when both have the same number of bits. -/
theorem bigger_type_same_or_bits (R : Runtime) (n : Nat) (t1 t2 : Addr) :
    (t1 = t2 → bigger_type R (n + 1) t1 t2 = .type t1) ∧
    (t1 ≠ t2 → jl_is_bits_type R.toHeap (.obj t1) = true →
      jl_is_bits_type R.toHeap (.obj t2) = true →
      ((R.fields t1).nbits > (R.fields t2).nbits → bigger_type R (n + 1) t1 t2 = .type t1) ∧
      ((R.fields t2).nbits > (R.fields t1).nbits → bigger_type R (n + 1) t1 t2 = .type t2) ∧
      ((R.fields t1).nbits = (R.fields t2).nbits → bigger_type R (n + 1) t1 t2 = .null)) := by
  constructor
  · intro h
    simp [bigger_type, h]
  · intro hne hb1 hb2
    refine ⟨?_, ?_, ?_⟩
    · intro h
      simp [bigger_type, hne, hb1, hb2, h]
    · intro h
      have h2 : ¬ (R.fields t1).nbits > (R.fields t2).nbits := by omega
      simp only [bigger_type, beq_iff_eq, hne, if_false, hb1, hb2, Bool.and_self, if_true, h2, h]
    · intro h
      simp [bigger_type, hne, hb1, hb2, h]

/-- Witness of C7: `Int32` against `Float64` (more bits wins) and against
`Uint32` (same width, undefined). -/
theorem bigger_type_same_or_bits_witness :
    ((23 : Addr) ≠ 24 ∧ jl_is_bits_type demoRuntime.toHeap (.obj 23) = true ∧
      jl_is_bits_type demoRuntime.toHeap (.obj 24) = true ∧
      (demoRuntime.fields 24).nbits > (demoRuntime.fields 23).nbits ∧
      bigger_type demoRuntime 1 23 24 = .type 24) ∧
    ((23 : Addr) ≠ 25 ∧ jl_is_bits_type demoRuntime.toHeap (.obj 25) = true ∧
      (demoRuntime.fields 23).nbits = (demoRuntime.fields 25).nbits ∧
      bigger_type demoRuntime 1 23 25 = .null) :=
  ⟨⟨by decide, by decide, by decide, by decide,
    ((bigger_type_same_or_bits demoRuntime 0 23 24).2 (by decide) (by decide)
      (by decide)).2.1 (by decide)⟩,
   ⟨by decide, by decide, by decide,
    ((bigger_type_same_or_bits demoRuntime 0 23 25).2 (by decide) (by decide)
      (by decide)).2.2 (by decide)⟩⟩

theorem combine_left (t1 t2 : Addr) (hne : t1 ≠ t2) (sides : List Side) (w : Option Addr)
    (hw : w = none ∨ w = some t1)
    (h : ∀ sd ∈ sides, sd = .same ∨ sd = .left) : combine_sides t1 t2 sides w = .type t1 := by
  induction sides generalizing w with
  | nil => rcases hw with rfl | rfl <;> rfl
  | cons hd tl ih =>
    have htl : ∀ sd ∈ tl, sd = .same ∨ sd = .left := fun sd hsd => h sd (List.mem_cons_of_mem _ hsd)
    rcases h hd (List.mem_cons_self _ _) with rfl | rfl
    · exact ih w hw htl
    · have : w ≠ some t2 := by
        rcases hw with rfl | rfl
        · simp
        · simpa using hne
      simp only [combine_sides, this, if_false]
      exact ih _ (Or.inr rfl) htl

theorem combine_right (t1 t2 : Addr) (hne : t1 ≠ t2) (sides : List Side) (w : Option Addr)
    (hw : w = some t2 ∨ (w = none ∧ Side.right ∈ sides))
    (h : ∀ sd ∈ sides, sd = .same ∨ sd = .right) : combine_sides t1 t2 sides w = .type t2 := by
  induction sides generalizing w with
  | nil =>
    rcases hw with rfl | ⟨_, hm⟩
    · rfl
    · simp at hm
  | cons hd tl ih =>
    have htl : ∀ sd ∈ tl, sd = .same ∨ sd = .right := fun sd hsd => h sd (List.mem_cons_of_mem _ hsd)
    rcases h hd (List.mem_cons_self _ _) with rfl | rfl
    · refine ih w ?_ htl
      rcases hw with hw | ⟨hw, hm⟩
      · exact Or.inl hw
      · exact Or.inr ⟨hw, by simpa using hm⟩
    · have : w ≠ some t1 := by
        rcases hw with rfl | ⟨rfl, _⟩
        · simpa using hne.symm
        · simp
      simp only [combine_sides, this, if_false]
      exact ih _ (Or.inl rfl) htl

theorem combine_null (t1 t2 : Addr) (sides : List Side) (w : Option Addr)
    (h : Side.neither ∈ sides ∨ (Side.left ∈ sides ∧ Side.right ∈ sides) ∨
      (Side.left ∈ sides ∧ w = some t2) ∨ (Side.right ∈ sides ∧ w = some t1)) :
    combine_sides t1 t2 sides w = .null := by
  induction sides generalizing w with
  | nil => simp at h
  | cons hd tl ih =>
    cases hd with
    | same =>
      simp only [combine_sides]
      apply ih
      simpa using h
    | neither => simp [combine_sides]
    | left =>
      simp only [combine_sides]
      by_cases hw : w = some t2
      · simp [hw]
      · simp only [hw, if_false]
        apply ih
        simp only [List.mem_cons, reduceCtorEq, false_or, true_or, true_and, hw, and_false] at h
        rcases h with h | h | h
        · exact Or.inl h
        · exact Or.inr (Or.inr (Or.inr ⟨h, rfl⟩))
        · exact Or.inr (Or.inr (Or.inr ⟨h.1, rfl⟩))
    | right =>
      simp only [combine_sides]
      by_cases hw : w = some t1
      · simp [hw]
      · simp only [hw, if_false]
        apply ih
        simp only [List.mem_cons, reduceCtorEq, false_or, true_or, true_and, and_true, hw, and_false, or_false] at h
        rcases h with h | h | h
        · exact Or.inl h
        · exact Or.inr (Or.inr (Or.inl ⟨h, rfl⟩))
        · exact Or.inr (Or.inr (Or.inl ⟨h.1, rfl⟩))

theorem bigger_type_params_eq (R : Runtime) (bt : Addr → Addr → BT) (t1 t2 : Addr)
    (ps1 ps2 : List Value) (w : Option Addr) (hlen : ps1.length = ps2.length)
    (hterm : ∀ pq ∈ List.zip ps1 ps2,
      (bt pq.1.addr pq.2.addr).answered = true ∧ (bt pq.2.addr pq.1.addr).answered = true) :
    bigger_type_params R bt t1 t2 ps1 ps2 w
      = combine_sides t1 t2 (List.zipWith (bigger_param R bt) ps1 ps2) w := by
  induction ps1 generalizing ps2 w with
  | nil => cases w <;> simp [bigger_type_params, combine_sides]
  | cons p1 r1 ih =>
    cases ps2 with
    | nil => simp at hlen
    | cons p2 r2 =>
      have hl : r1.length = r2.length := by simpa using hlen
      have ht : ∀ pq ∈ List.zip r1 r2,
          (bt pq.1.addr pq.2.addr).answered = true ∧ (bt pq.2.addr pq.1.addr).answered = true :=
        fun pq hpq => hterm pq (by simp [List.zip_cons_cons, hpq])
      have h0 := hterm (p1, p2) (by simp [List.zip_cons_cons])
      simp only [bigger_type_params, List.zipWith_cons_cons, bigger_param]
      by_cases heq : R.jl_types_equal p1 p2 = true
      · simp only [heq, if_true, combine_sides]
        exact ih r2 w hl ht
      · simp only [heq, Bool.false_eq_true, if_false]
        by_cases htag : (jl_is_some_tag_type R.toHeap p1 && jl_is_some_tag_type R.toHeap p2) = true
        · simp only [htag, if_true, Bool.not_true, Bool.false_eq_true, if_false, is_type_bigger]
          cases h1 : bt p1.addr p2.addr with
          | timeout => rw [h1] at h0; simp [BT.answered] at h0
          | fault => rw [h1] at h0; simp [BT.answered] at h0
          | type t =>
            by_cases hp : p1.addr = t
            · subst hp
              simp only [beq_self_eq_true, if_true, combine_sides]
              by_cases hw : w = some t2
              · simp [hw]
              · have hw2 : (w == some t2) = false := by simpa using hw
                simp only [hw2, hw, Bool.false_eq_true, if_false]
                exact ih r2 _ hl ht
            · have hp2 : (p1.addr == t) = false := by simpa using hp
              have hp3 : ¬ (BT.type t = BT.type p1.addr) := by
                intro h
                exact hp (by cases h; rfl)
              simp only [hp2, hp3, if_false]
              cases h2 : bt p2.addr p1.addr with
              | timeout => rw [h2] at h0; simp [BT.answered] at h0
              | fault => rw [h2] at h0; simp [BT.answered] at h0
              | null => simp [combine_sides]
              | type u =>
                by_cases hq : p2.addr = u
                · subst hq
                  simp only [beq_self_eq_true, if_true, combine_sides]
                  by_cases hw : w = some t1
                  · simp [hw]
                  · have hw2 : (w == some t1) = false := by simpa using hw
                    simp only [hw2, hw, Bool.false_eq_true, if_false]
                    exact ih r2 _ hl ht
                · have hq2 : (p2.addr == u) = false := by simpa using hq
                  have hq3 : ¬ (BT.type u = BT.type p2.addr) := by
                    intro h
                    exact hq (by cases h; rfl)
                  simp [hq2, hq3, combine_sides]
          | null =>
            simp only [reduceCtorEq, if_false]
            cases h2 : bt p2.addr p1.addr with
            | timeout => rw [h2] at h0; simp [BT.answered] at h0
            | fault => rw [h2] at h0; simp [BT.answered] at h0
            | null => simp [combine_sides]
            | type u =>
              by_cases hq : p2.addr = u
              · subst hq
                simp only [beq_self_eq_true, if_true, combine_sides]
                by_cases hw : w = some t1
                · simp [hw]
                · have hw2 : (w == some t1) = false := by simpa using hw
                  simp only [hw2, hw, Bool.false_eq_true, if_false]
                  exact ih r2 _ hl ht
              · have hq2 : (p2.addr == u) = false := by simpa using hq
                have hq3 : ¬ (BT.type u = BT.type p2.addr) := by
                  intro h
                  exact hq (by cases h; rfl)
                simp [hq2, hq3, combine_sides]
        · simp [htag, combine_sides]

theorem same_name_combine_sides (R : Runtime) (n : Nat) (t1 t2 : Addr)
    (hne : t1 ≠ t2)
    (hbits : (jl_is_bits_type R.toHeap (.obj t1) && jl_is_bits_type R.toHeap (.obj t2)) = false)
    (h1 : t1 ≠ R.jl_any_type) (h2 : t2 ≠ R.jl_any_type)
    (hname : (R.fields t1).name = (R.fields t2).name)
    (hlen : (R.fields t1).parameters.length = (R.fields t2).parameters.length)
    (hterm : ∀ pq ∈ List.zip (R.fields t1).parameters (R.fields t2).parameters,
      (bigger_type R n pq.1.addr pq.2.addr).answered = true ∧
      (bigger_type R n pq.2.addr pq.1.addr).answered = true) :
    bigger_type R (n + 1) t1 t2
      = combine_sides t1 t2
          (List.zipWith (bigger_param R (bigger_type R n))
            (R.fields t1).parameters (R.fields t2).parameters) none := by
  rw [bigger_type]
  simp only [beq_iff_eq, hne, if_false, hbits, Bool.false_eq_true, bigger_type_walk, h1, h2,
    hname, if_true]
  exact bigger_type_params_eq R _ t1 t2 _ _ none hlen hterm

/-- Two distinct types with the same name, neither of them `Any` and not both
bits types, whose parameter tuples have the same length and on whose
parameters `bigger_type` answers: `bigger_type(t1, t2)` is `t1` when at every
position where the parameters are not type-equal the parameter of `t1` is the
bigger one, `t2` when there is such a position and at every one the parameter
of `t2` is the bigger one, and `NULL` when some position has no bigger
parameter or two positions disagree on the side. -/
theorem bigger_type_same_name (R : Runtime) (n : Nat) (t1 t2 : Addr)
    (hne : t1 ≠ t2)
    (hbits : (jl_is_bits_type R.toHeap (.obj t1) && jl_is_bits_type R.toHeap (.obj t2)) = false)
    (h1 : t1 ≠ R.jl_any_type) (h2 : t2 ≠ R.jl_any_type)
    (hname : (R.fields t1).name = (R.fields t2).name)
    (hlen : (R.fields t1).parameters.length = (R.fields t2).parameters.length)
    (hterm : ∀ pq ∈ List.zip (R.fields t1).parameters (R.fields t2).parameters,
      (bigger_type R n pq.1.addr pq.2.addr).answered = true ∧
      (bigger_type R n pq.2.addr pq.1.addr).answered = true) :
    ((∀ sd ∈ List.zipWith (bigger_param R (bigger_type R n))
          (R.fields t1).parameters (R.fields t2).parameters, sd = .same ∨ sd = .left) →
      bigger_type R (n + 1) t1 t2 = .type t1) ∧
    (Side.right ∈ List.zipWith (bigger_param R (bigger_type R n))
          (R.fields t1).parameters (R.fields t2).parameters →
      (∀ sd ∈ List.zipWith (bigger_param R (bigger_type R n))
          (R.fields t1).parameters (R.fields t2).parameters, sd = .same ∨ sd = .right) →
      bigger_type R (n + 1) t1 t2 = .type t2) ∧
    ((Side.neither ∈ List.zipWith (bigger_param R (bigger_type R n))
          (R.fields t1).parameters (R.fields t2).parameters ∨
        (Side.left ∈ List.zipWith (bigger_param R (bigger_type R n))
          (R.fields t1).parameters (R.fields t2).parameters ∧
         Side.right ∈ List.zipWith (bigger_param R (bigger_type R n))
          (R.fields t1).parameters (R.fields t2).parameters)) →
      bigger_type R (n + 1) t1 t2 = .null) := by
  rw [same_name_combine_sides R n t1 t2 hne hbits h1 h2 hname hlen hterm]
  refine ⟨?_, ?_, ?_⟩
  · intro h
    exact combine_left t1 t2 hne _ none (Or.inl rfl) h
  · intro hr h
    exact combine_right t1 t2 hne _ none (Or.inr ⟨rfl, hr⟩) h
  · intro h
    apply combine_null
    rcases h with h | h
    · exact Or.inl h
    · exact Or.inr (Or.inl h)

/-- The types `Complex{Int32}` and `Complex{Float64}`, whose parameters are
answered: `bigger_type(Complex{Int32}, Complex{Float64})` is
`Complex{Float64}`. -/
theorem bigger_type_same_name_complex :
    (26 : Addr) ≠ 27 ∧
    (demoRuntime.fields 26).name = (demoRuntime.fields 27).name ∧
    List.zipWith (bigger_param demoRuntime (bigger_type demoRuntime 1))
      (demoRuntime.fields 26).parameters (demoRuntime.fields 27).parameters = [Side.right] ∧
    bigger_type demoRuntime 2 26 27 = .type 27 :=
  ⟨by decide, by decide, by decide,
    (bigger_type_same_name demoRuntime 1 26 27 (by decide) (by decide) (by decide) (by decide)
      (by decide) (by decide) (by decide)).2.1 (by decide) (by decide)⟩

theorem bigger_type_walk_steps (R : Runtime) (bt : Addr → Addr → BT) (t1_ t2_ : Addr) :
    ∀ (k m a b : Nat),
    (∀ j < k, super_iter R j a ≠ R.jl_any_type ∧ super_iter R j b ≠ R.jl_any_type ∧
      (R.fields (super_iter R j a)).name ≠ (R.fields (super_iter R j b)).name ∧
      R.jl_type_morespecific (.obj (super_iter R j a)) (.obj (super_iter R j b)) false false
        = false ∧
      R.jl_type_morespecific (.obj (super_iter R j b)) (.obj (super_iter R j a)) false false
        = false) →
    bigger_type_walk R bt t1_ t2_ (m + k) a b
      = bigger_type_walk R bt t1_ t2_ m (super_iter R k a) (super_iter R k b) := by
  intro k
  induction k with
  | zero => intro m a b _; rfl
  | succ k ih =>
    intro m a b h
    obtain ⟨ha, hb, hn, hm1, hm2⟩ := h 0 (Nat.succ_pos k)
    simp only [super_iter] at ha hb hn hm1 hm2
    have hrest : ∀ j < k,
        super_iter R j (R.fields a).super ≠ R.jl_any_type ∧
        super_iter R j (R.fields b).super ≠ R.jl_any_type ∧
        (R.fields (super_iter R j (R.fields a).super)).name
          ≠ (R.fields (super_iter R j (R.fields b).super)).name ∧
        R.jl_type_morespecific (.obj (super_iter R j (R.fields a).super))
          (.obj (super_iter R j (R.fields b).super)) false false = false ∧
        R.jl_type_morespecific (.obj (super_iter R j (R.fields b).super))
          (.obj (super_iter R j (R.fields a).super)) false false = false :=
      fun j hj => h (j + 1) (Nat.succ_lt_succ hj)
    have e : m + (k + 1) = (m + k) + 1 := by omega
    rw [e, bigger_type_walk]
    simp only [beq_iff_eq, ha, hb, hn, hm1, hm2, if_false, Bool.false_eq_true]
    exact ih m _ _ hrest

/-- C9, as stated, fails: the tag types `A` (30, directly below `Any`) and `B`
(32, below `C`, itself below `Any`) have different names and neither is more
specific than the other; the chain of `A` reaches `Any` after one hop, that of
`B` has not yet, and `bigger_type` yields `A`, the side that has reached `Any`,
not `B`, in either order of the arguments. -/
theorem bigger_type_any_first_counterexample :
    (demoRuntime.fields 30).name ≠ (demoRuntime.fields 32).name ∧
    demoRuntime.jl_type_morespecific (.obj 30) (.obj 32) false false = false ∧
    demoRuntime.jl_type_morespecific (.obj 32) (.obj 30) false false = false ∧
    (demoRuntime.fields 30).super = demoRuntime.jl_any_type ∧
    (demoRuntime.fields 32).super ≠ demoRuntime.jl_any_type ∧
    bigger_type demoRuntime 3 30 32 = .type 30 ∧
    bigger_type demoRuntime 3 30 32 ≠ .type 32 ∧
    bigger_type demoRuntime 3 32 30 = .type 30 := by
  decide

/-- C9 (amended): for two distinct types: when both are bits types `bigger_type`
makes no walk and yields the one of more bits, undefined for equal widths.
When they are not both bits types and their super chains go through `k` hops
on which neither side is `Any`, the names differ and neither side is more
specific than the other: when after these `k` hops one side is `Any` and the
other is not, `bigger_type` yields the original type of the side that has
reached `Any`. -/
theorem bigger_type_any_first (R : Runtime) (n k : Nat) (t1 t2 : Addr) (hk : k ≤ n)
    (hne : t1 ≠ t2)
    (hstep : ∀ j < k, super_iter R j t1 ≠ R.jl_any_type ∧ super_iter R j t2 ≠ R.jl_any_type ∧
      (R.fields (super_iter R j t1)).name ≠ (R.fields (super_iter R j t2)).name ∧
      R.jl_type_morespecific (.obj (super_iter R j t1)) (.obj (super_iter R j t2)) false false
        = false ∧
      R.jl_type_morespecific (.obj (super_iter R j t2)) (.obj (super_iter R j t1)) false false
        = false) :
    ((jl_is_bits_type R.toHeap (.obj t1) && jl_is_bits_type R.toHeap (.obj t2)) = true →
      bigger_type R (n + 1) t1 t2
        = if (R.fields t1).nbits > (R.fields t2).nbits then .type t1
          else if (R.fields t2).nbits > (R.fields t1).nbits then .type t2
          else .null) ∧
    ((jl_is_bits_type R.toHeap (.obj t1) && jl_is_bits_type R.toHeap (.obj t2)) = false →
      (super_iter R k t1 = R.jl_any_type → super_iter R k t2 ≠ R.jl_any_type →
        bigger_type R (n + 1) t1 t2 = .type t1) ∧
      (super_iter R k t2 = R.jl_any_type → super_iter R k t1 ≠ R.jl_any_type →
        bigger_type R (n + 1) t1 t2 = .type t2)) := by
  refine ⟨?_, ?_⟩
  · intro hbits
    rw [bigger_type]
    simp only [beq_iff_eq, hne, if_false, hbits, if_true]
  · intro hbits
    have e : n + 1 = (n - k + 1) + k := by omega
    have hw : bigger_type R (n + 1) t1 t2
        = bigger_type_walk R (bigger_type R n) t1 t2 (n - k + 1)
            (super_iter R k t1) (super_iter R k t2) := by
      rw [bigger_type]
      simp only [beq_iff_eq, hne, if_false, hbits, Bool.false_eq_true]
      rw [e]
      exact bigger_type_walk_steps R _ t1 t2 k (n - k + 1) t1 t2 hstep
    constructor
    · intro ha hb
      rw [hw, bigger_type_walk]
      simp [ha, hb]
    · intro hb ha
      rw [hw, bigger_type_walk]
      simp [ha, hb]

/-- Witness of C9 (amended): `A` against `B`, one hop, yields `A`, whose chain has
reached `Any`; the bits types `Bool` (8 bits, directly below `Any`) and `Int32`
(32 bits) yield `Int32` in either order. -/
theorem bigger_type_any_first_witness :
    (30 : Addr) ≠ 32 ∧
    super_iter demoRuntime 1 30 = demoRuntime.jl_any_type ∧
    super_iter demoRuntime 1 32 ≠ demoRuntime.jl_any_type ∧
    bigger_type demoRuntime 2 30 32 = .type 30 ∧
    (demoRuntime2.fields 46).super = demoRuntime2.jl_any_type ∧
    (demoRuntime2.fields 23).super ≠ demoRuntime2.jl_any_type ∧
    bigger_type demoRuntime2 1 46 23 = .type 23 ∧
    bigger_type demoRuntime2 1 23 46 = .type 23 :=
  ⟨by decide, by decide, by decide,
    ((bigger_type_any_first demoRuntime 1 1 30 32 (by decide) (by decide) (by decide)).2
      (by decide)).1 (by decide) (by decide),
    by decide, by decide,
    ((bigger_type_any_first demoRuntime2 0 0 46 23 (by decide) (by decide)
      (fun j hj => absurd hj (Nat.not_lt_zero j))).1 (by decide)).trans (by decide),
    ((bigger_type_any_first demoRuntime2 0 0 23 46 (by decide) (by decide)
      (fun j hj => absurd hj (Nat.not_lt_zero j))).1 (by decide)).trans (by decide)⟩

/-! ## Properties of the tuple builtins -/

theorem unbox_box_length (H : Heap) (n : Nat) (s : St) (hn : n < 2 ^ 31) :
    jl_unbox_int32 (jl_box_int32 H ((n % 2 ^ 64 : Nat) : Int) s).1 = n := by
  simp only [jl_box_int32, jl_unbox_int32]
  have h1 : (((n % 2 ^ 64 : Nat) : Int) % 2 ^ 32).toNat = n := by omega
  rw [h1]
  have h2 : n % 2 ^ 32 = n := by omega
  rw [h2, if_pos hn]

theorem tupleref_index (a t d n : Nat) (hn : n < 2 ^ 31) :
    (1 ≤ jl_unbox_int32 (.bits a t d) ∧ jl_unbox_int32 (.bits a t d) ≤ n →
      to_size_t (wrap_int32 (jl_unbox_int32 (.bits a t d) - 1))
        = (jl_unbox_int32 (.bits a t d) - 1).toNat ∧
      (jl_unbox_int32 (.bits a t d) - 1).toNat < n) ∧
    (jl_unbox_int32 (.bits a t d) < 1 ∨ jl_unbox_int32 (.bits a t d) > n →
      to_size_t (wrap_int32 (jl_unbox_int32 (.bits a t d) - 1)) ≥ n) := by
  simp only [jl_unbox_int32, to_size_t, wrap_int32]
  constructor
  · intro h
    split at h <;> omega
  · intro h
    split at h <;> omega

/-- C10: for every list of `n` values, `n` in the range of `Int32`,
`t = tuple(x1..xn)` is built without error, `tuplelen(t)` is the `Int32` `n`,
and for every `Int32` index `i`: `tupleref(t, i)` is the `i`-th value when
`1 ≤ i ≤ n` and raises "tupleref: index out of range" (a BoundsError) when
`i < 1` or `i > n`. -/
theorem tuple_len_ref (H : Heap) (xs : List Value) (s : St) (a d : Nat)
    (hn : xs.length < 2 ^ 31) :
    ∃ t s1, jl_f_tuple H xs s = (.ok t, s1) ∧
      (∃ v s2, jl_f_tuplelen H [t] s1 = (.ok v, s2) ∧ jl_unbox_int32 v = xs.length) ∧
      (1 ≤ jl_unbox_int32 (.bits a H.jl_int32_type d) ∧
          jl_unbox_int32 (.bits a H.jl_int32_type d) ≤ xs.length →
        ∃ x, xs.get? (jl_unbox_int32 (.bits a H.jl_int32_type d) - 1).toNat = some x ∧
          jl_f_tupleref H [t, .bits a H.jl_int32_type d] = .ok x) ∧
      (jl_unbox_int32 (.bits a H.jl_int32_type d) < 1 ∨
          jl_unbox_int32 (.bits a H.jl_int32_type d) > xs.length →
        jl_f_tupleref H [t, .bits a H.jl_int32_type d] = .error .tuplerefOutOfRange ∧
        Err.isBoundsError .tuplerefOutOfRange = true) := by
  have ht : ∃ ta s1, jl_f_tuple H xs s = (.ok (.tuple ta xs), s1) := by
    cases xs with
    | nil => exact ⟨H.jl_null, s, by simp [jl_f_tuple, jl_null]⟩
    | cons x xs => exact ⟨(jl_alloc_tuple s).1, (jl_alloc_tuple s).2, by simp [jl_f_tuple]⟩
  obtain ⟨ta, s1, e1⟩ := ht
  have hty : jl_typeis H (.bits a H.jl_int32_type d) H.jl_int32_type = true := by
    simp [jl_typeis, jl_typeof]
  obtain ⟨hin, hout⟩ := tupleref_index a H.jl_int32_type d xs.length hn
  refine ⟨.tuple ta xs, s1, e1,
    ⟨(jl_box_int32 H ((xs.length % 2 ^ 64 : Nat) : Int) s1).1,
      (jl_box_int32 H ((xs.length % 2 ^ 64 : Nat) : Int) s1).2, ?_,
      unbox_box_length H xs.length s1 hn⟩, ?_, ?_⟩
  · simp [jl_f_tuplelen]
  · intro h
    obtain ⟨hi, hlt⟩ := hin h
    have hget : xs.get? (jl_unbox_int32 (.bits a H.jl_int32_type d) - 1).toNat
        = some (xs.get ⟨_, hlt⟩) := List.get?_eq_get hlt
    refine ⟨_, hget, ?_⟩
    have hnot : ¬ (to_size_t (wrap_int32 (jl_unbox_int32 (.bits a H.jl_int32_type d) - 1))
        ≥ xs.length) := by
      rw [hi]
      omega
    simp only [jl_f_tupleref, List.length_cons, List.length_nil, hty, hnot]
    simp only [hi, hget]
    simp
  · intro h
    have hge := hout h
    refine ⟨?_, rfl⟩
    simp only [jl_f_tupleref, List.length_cons, List.length_nil, hty, hge]
    simp

/-- Witness of C10: the tuple of two `Int32` values and the index 2. -/
theorem tuple_len_ref_witness :
    [Value.bits 300 23 7, Value.bits 301 23 9].length < 2 ^ 31 ∧
    ∃ t s1, jl_f_tuple demoHeap [.bits 300 23 7, .bits 301 23 9] ⟨1000, []⟩ = (.ok t, s1) ∧
      (∃ v s2, jl_f_tuplelen demoHeap [t] s1 = (.ok v, s2) ∧
        jl_unbox_int32 v = [Value.bits 300 23 7, Value.bits 301 23 9].length) ∧
      (1 ≤ jl_unbox_int32 (.bits 302 demoHeap.jl_int32_type 2) ∧
          jl_unbox_int32 (.bits 302 demoHeap.jl_int32_type 2)
            ≤ [Value.bits 300 23 7, Value.bits 301 23 9].length →
        ∃ x, [Value.bits 300 23 7, Value.bits 301 23 9].get?
              (jl_unbox_int32 (.bits 302 demoHeap.jl_int32_type 2) - 1).toNat = some x ∧
          jl_f_tupleref demoHeap [t, .bits 302 demoHeap.jl_int32_type 2] = .ok x) ∧
      (jl_unbox_int32 (.bits 302 demoHeap.jl_int32_type 2) < 1 ∨
          jl_unbox_int32 (.bits 302 demoHeap.jl_int32_type 2)
            > [Value.bits 300 23 7, Value.bits 301 23 9].length →
        jl_f_tupleref demoHeap [t, .bits 302 demoHeap.jl_int32_type 2]
          = .error .tuplerefOutOfRange ∧
        Err.isBoundsError .tuplerefOutOfRange = true) :=
  ⟨by decide, tuple_len_ref demoHeap [.bits 300 23 7, .bits 301 23 9] ⟨1000, []⟩ 302 2
    (by decide)⟩

/-! ## Properties of the box builtins -/

/-- C11, as stated, fails: `box(v)` with the single argument `Int32(1)` makes an
empty box, on which `unbox` raises "variable not defined" instead of returning
`v`, and `box()` with no argument raises "too few arguments" instead of making
an empty box. -/
theorem box_unbox_counterexample :
    (jl_f_box demoGlobals [.bits 300 23 1] demoWorld).1 = .ok (.obj 1000) ∧
    jl_f_unbox demoRuntime2 demoGlobals [.obj 1000]
      (jl_f_box demoGlobals [.bits 300 23 1] demoWorld).2 = .error .undefinedVariable ∧
    (jl_f_box demoGlobals [] demoWorld).1 = .error .tooFewArgs := by
  decide

/-- C11 (amended): `box` takes one or two arguments and ignores the first.  For
every `a` and `v`, `box(a, v)` makes a new box, at the allocation frontier, on
which `unbox` returns `v`; `box(a)` makes a new empty box on which `unbox`
raises "variable not defined" (an UndefinedError); no other box or struct
instance is changed; `box()` raises "too few arguments" (an ArityError). -/
theorem box_unbox (R : Runtime) (G : Globals) (a v : Value) (w : World) :
    (∃ b w1, jl_f_box G [a, v] w = (.ok b, w1) ∧ b = .obj w.st.next ∧
      jl_f_unbox R G [b] w1 = .ok v ∧ ∀ c, c ≠ w.st.next → w1.obj c = w.obj c) ∧
    (∃ b w1, jl_f_box G [a] w = (.ok b, w1) ∧ b = .obj w.st.next ∧
      jl_f_unbox R G [b] w1 = .error .undefinedVariable ∧
      Err.isUndefinedError .undefinedVariable = true ∧
      ∀ c, c ≠ w.st.next → w1.obj c = w.obj c) ∧
    jl_f_box G [] w = (.error .tooFewArgs, w) ∧ Err.isArityError .tooFewArgs = true := by
  refine ⟨⟨_, _, rfl, rfl, ?_, ?_⟩, ⟨_, _, rfl, rfl, ?_, rfl, ?_⟩, rfl, rfl⟩
  · simp [jl_f_unbox, jl_new_struct, jl_typeis_w, jl_typeof_w, World.hdr, Value.addr]
  · intro c hc
    simp [jl_new_struct, hc]
  · simp [jl_f_unbox, jl_new_struct, jl_typeis_w, jl_typeof_w, World.hdr, Value.addr]
  · intro c hc
    simp [jl_new_struct, hc]

/-! ## Properties of `jl_f_arrayref` -/

theorem jl_arrayref_not_out_of_range (R : Runtime) (G : Globals) (x : JArray) (i : Nat)
    (w : World) : (jl_arrayref R G x i w).1 ≠ .error .arrayOutOfRange := by
  unfold jl_arrayref
  split
  · simp
  · split
    · split
      · split
        · simp
        · split
          · split <;> simp
          · simp
      · simp
    · split
      · split <;> simp
      · simp

theorem jl_f_arrayref_eq (R : Runtime) (G : Globals) (w : World) (a : Addr) (x : JArray)
    (ia d : Nat) (hx : w.arr a = some x) :
    jl_f_arrayref R G [.obj a, .bits ia R.jl_int32_type d] w
      = if to_size_t (wrap_int32 (jl_unbox_int32 (.bits ia R.jl_int32_type d) - 1)) ≥ x.length
        then (.error .arrayOutOfRange, w)
        else jl_arrayref R G x
          (to_size_t (wrap_int32 (jl_unbox_int32 (.bits ia R.jl_int32_type d) - 1))) w := by
  simp [jl_f_arrayref, jl_is_array, hx, jl_typeis_w, jl_typeof_w, Value.addr]

/-- C12: for every array of length `n`, `n` in the range of `Int32`, and every
`Int32` index `i`: `arrayref(a, i)` raises "index out of range" (a BoundsError)
exactly when `i < 1` or `i > n`; for `1 ≤ i ≤ n`, on an array of references it
raises "uninitialized reference error" (an UndefinedError) when slot `i` is
null and returns the value stored there otherwise, leaving the world as it was;
on an array of a bits type it returns `jl_true` or `jl_false` for a `Bool`
element and else a new scalar of the element type holding the stored payload. -/
theorem arrayref_bounds (R : Runtime) (G : Globals) (w : World) (a : Addr) (x : JArray)
    (ia d : Nat) (hx : w.arr a = some x) (hn : x.length < 2 ^ 31) :
    ((jl_f_arrayref R G [.obj a, .bits ia R.jl_int32_type d] w).1 = .error .arrayOutOfRange ↔
      (jl_unbox_int32 (.bits ia R.jl_int32_type d) < 1 ∨
        jl_unbox_int32 (.bits ia R.jl_int32_type d) > x.length)) ∧
    Err.isBoundsError .arrayOutOfRange = true ∧
    (∀ el elems, jl_tparam0 R.toHeap (.obj x.type) = some el →
      jl_is_bits_type R.toHeap el = false → x.data = .refs elems →
      1 ≤ jl_unbox_int32 (.bits ia R.jl_int32_type d) →
      jl_unbox_int32 (.bits ia R.jl_int32_type d) ≤ x.length →
      (elems.get? (jl_unbox_int32 (.bits ia R.jl_int32_type d) - 1).toNat = some none →
        jl_f_arrayref R G [.obj a, .bits ia R.jl_int32_type d] w
          = (.error .uninitializedReference, w) ∧
        Err.isUndefinedError .uninitializedReference = true) ∧
      (∀ v, elems.get? (jl_unbox_int32 (.bits ia R.jl_int32_type d) - 1).toNat = some (some v) →
        jl_f_arrayref R G [.obj a, .bits ia R.jl_int32_type d] w = (.ok v, w))) ∧
    (∀ el elems dd, jl_tparam0 R.toHeap (.obj x.type) = some el →
      jl_is_bits_type R.toHeap el = true → x.data = .raw elems →
      1 ≤ jl_unbox_int32 (.bits ia R.jl_int32_type d) →
      jl_unbox_int32 (.bits ia R.jl_int32_type d) ≤ x.length →
      elems.get? (jl_unbox_int32 (.bits ia R.jl_int32_type d) - 1).toNat = some dd →
      (el.addr = G.jl_bool_type →
        jl_f_arrayref R G [.obj a, .bits ia R.jl_int32_type d] w
          = (.ok (if dd % 2 ^ 8 != 0 then G.jl_true else G.jl_false), w)) ∧
      (el.addr ≠ G.jl_bool_type →
        (jl_f_arrayref R G [.obj a, .bits ia R.jl_int32_type d] w).1
          = .ok (.bits w.st.next el.addr (dd % 2 ^ (8 * ((R.fields el.addr).nbits / 8)))))) := by
  obtain ⟨hin, hout⟩ := tupleref_index ia R.jl_int32_type d x.length hn
  have heq := jl_f_arrayref_eq R G w a x ia d hx
  refine ⟨⟨?_, ?_⟩, rfl, ?_, ?_⟩
  · intro h
    by_contra hc
    have hr : 1 ≤ jl_unbox_int32 (.bits ia R.jl_int32_type d) ∧
        jl_unbox_int32 (.bits ia R.jl_int32_type d) ≤ x.length := by omega
    obtain ⟨hi, hlt⟩ := hin hr
    have hnot : ¬ (to_size_t (wrap_int32 (jl_unbox_int32 (.bits ia R.jl_int32_type d) - 1))
        ≥ x.length) := by rw [hi]; omega
    rw [heq, if_neg hnot] at h
    exact jl_arrayref_not_out_of_range R G x _ w h
  · intro h
    rw [heq, if_pos (hout h)]
  · intro el elems hel hbits hdata h1 h2
    obtain ⟨hi, hlt⟩ := hin ⟨h1, h2⟩
    have hnot : ¬ (to_size_t (wrap_int32 (jl_unbox_int32 (.bits ia R.jl_int32_type d) - 1))
        ≥ x.length) := by rw [hi]; omega
    rw [heq, if_neg hnot, hi]
    constructor
    · intro hnone
      refine ⟨?_, rfl⟩
      simp only [jl_arrayref, hel, hbits, hdata, hnone, Bool.false_eq_true, if_false]
    · intro v hv
      simp only [jl_arrayref, hel, hbits, hdata, hv, Bool.false_eq_true, if_false]
  · intro el elems dd hel hbits hdata h1 h2 hget
    obtain ⟨hi, hlt⟩ := hin ⟨h1, h2⟩
    have hnot : ¬ (to_size_t (wrap_int32 (jl_unbox_int32 (.bits ia R.jl_int32_type d) - 1))
        ≥ x.length) := by rw [hi]; omega
    rw [heq, if_neg hnot, hi]
    constructor
    · intro hb
      simp only [jl_arrayref, hel, hbits, hdata, hget, hb, beq_self_eq_true, if_true]
      split <;> rfl
    · intro hb
      have hb2 : (el.addr == G.jl_bool_type) = false := by simpa using hb
      simp only [jl_arrayref, hel, hbits, hdata, hget, hb2, if_true, Bool.false_eq_true,
        if_false]

/-- Witness of C12: the array of references at 231, whose second slot is null,
and the index 2. -/
theorem arrayref_bounds_witness :
    demoWorld.arr 231 = some ⟨48, 3, .refs [some (.obj 50), none, some (.bits 300 23 1)]⟩ ∧
    (3 : Nat) < 2 ^ 31 ∧
    jl_f_arrayref demoRuntime2 demoGlobals [.obj 231, .bits 302 demoRuntime2.jl_int32_type 2]
      demoWorld = (.error .uninitializedReference, demoWorld) :=
  ⟨by decide, by decide,
    (((arrayref_bounds demoRuntime2 demoGlobals demoWorld 231
      ⟨48, 3, .refs [some (.obj 50), none, some (.bits 300 23 1)]⟩ 302 2
      (by decide) (by decide)).2.2.1 (.obj 20) [some (.obj 50), none, some (.bits 300 23 1)]
      (by decide) (by decide) rfl (by decide) (by decide)).1 (by decide)).1⟩

/-! ## Properties of `jl_f_apply` -/

theorem apply_newargs_eq (ts : List Value) : apply_newargs ts = concat_tuples ts := by
  induction ts with
  | nil => rfl
  | cons t ts ih =>
    cases t with
    | tuple a elems => simp [apply_newargs, concat_tuples, tuple_elems, ih]
    | bits a ty d => simp [apply_newargs, concat_tuples, tuple_elems, ih]
    | obj a => simp [apply_newargs, concat_tuples, tuple_elems, ih]

theorem concat_tuples_length (ts : List Value) :
    (concat_tuples ts).length = (ts.map (fun t => (tuple_elems t).length)).sum := by
  induction ts with
  | nil => rfl
  | cons t ts ih =>
    have e : concat_tuples (t :: ts) = tuple_elems t ++ concat_tuples ts := rfl
    rw [e, List.length_append, ih]
    simp

/-- C13: for every function `f` and tuples `t1..tk`, `apply(f, t1, ..., tk)` is
the outcome of the single call of `f` on the concatenation of the elements of
`t1..tk` in order, whose length is the sum of the lengths of the tuples; when
`f` is not a function or some `ti` is not a tuple, `apply` raises a TypeError
and leaves the state, hence the log of calls, as it was. -/
theorem apply_concatenation (R : Runtime) (G : Globals) (f : Value) (ts : List Value)
    (s : St) :
    (G.jl_is_function f = true → (∀ t ∈ ts, jl_is_tuple t = true) →
      jl_f_apply R G (f :: ts) s = jl_apply R f.addr (concat_tuples ts) s ∧
      (jl_f_apply R G (f :: ts) s).2.calls = s.calls ++ [(f.addr, concat_tuples ts)] ∧
      (concat_tuples ts).length = (ts.map (fun t => (tuple_elems t).length)).sum) ∧
    (G.jl_is_function f = false ∨ (∃ t ∈ ts, jl_is_tuple t = false) →
      jl_f_apply R G (f :: ts) s = (.error .typeError, s) ∧
      Err.isTypeError .typeError = true) := by
  constructor
  · intro hf ht
    have hany : ts.any (fun t => !jl_is_tuple t) = false := by
      rw [List.any_eq_false]
      intro t hmem
      simp [ht t hmem]
    have e : jl_f_apply R G (f :: ts) s = jl_apply R f.addr (concat_tuples ts) s := by
      simp only [jl_f_apply, hf, hany, Bool.not_true, Bool.false_eq_true, if_false,
        apply_newargs_eq]
    refine ⟨e, ?_, concat_tuples_length ts⟩
    rw [e]
    rfl
  · intro h
    refine ⟨?_, rfl⟩
    by_cases hf : G.jl_is_function f = true
    · rcases h with h | ⟨t, hmem, ht⟩
      · rw [hf] at h
        exact absurd h (by simp)
      · have hany : ts.any (fun t => !jl_is_tuple t) = true := by
          rw [List.any_eq_true]
          exact ⟨t, hmem, by simp [ht]⟩
        simp only [jl_f_apply, hf, hany, Bool.not_true, Bool.false_eq_true, if_false, if_true]
    · have hf2 : G.jl_is_function f = false := by simpa using hf
      simp only [jl_f_apply, hf2, Bool.not_false, if_true]

/-- Witness of C13: `apply` of the function at 60 to the tuples `(Int32(1),)`
and `()`. -/
theorem apply_concatenation_witness :
    demoGlobals.jl_is_function (.obj 60) = true ∧
    (∀ t ∈ [Value.tuple 500 [.bits 300 23 1], Value.tuple 1 []], jl_is_tuple t = true) ∧
    jl_f_apply demoRuntime2 demoGlobals
        [.obj 60, .tuple 500 [.bits 300 23 1], .tuple 1 []] ⟨1000, []⟩
      = jl_apply demoRuntime2 60 [.bits 300 23 1] ⟨1000, []⟩ :=
  ⟨by decide, by decide,
    ((apply_concatenation demoRuntime2 demoGlobals (.obj 60)
      [.tuple 500 [.bits 300 23 1], .tuple 1 []] ⟨1000, []⟩).1 (by decide) (by decide)).1⟩

/-! ## Properties of `jl_f_get_field` and `jl_f_set_field` -/

theorem field_offset_addr (names : List Value) (fld : Value) (i : Nat)
    (h : field_offset names fld = some i) :
    ∃ n, names.get? i = some n ∧ n.addr = fld.addr := by
  induction names generalizing i with
  | nil => simp [field_offset] at h
  | cons n rest ih =>
    rw [field_offset] at h
    by_cases hn : (n.addr == fld.addr) = true
    · rw [if_pos hn] at h
      cases h
      exact ⟨n, rfl, by simpa using hn⟩
    · rw [if_neg hn] at h
      cases hr : field_offset rest fld with
      | none => rw [hr] at h; simp at h
      | some j =>
        rw [hr] at h
        cases h
        obtain ⟨m, hm, hma⟩ := ih j hr
        exact ⟨m, by simpa using hm, hma⟩

theorem get_field_struct (R : Runtime) (G : Globals) (w0 : World) (a : Addr) (c0 : Cell)
    (g nm sup : Value) (ps names : List Value) (types : Option (List Value))
    (hobj : w0.obj a = some c0)
    (hstruct : jl_is_struct_type_w R G w0 (.obj c0.type) = true)
    (hty : w0.ty c0.type = some (.structType nm sup ps names types)) :
    jl_f_get_field R G [.obj a, g] w0
      = if !jl_typeis_w R G w0 g G.jl_sym_type then .error .typeError
        else
          match field_offset names g with
          | none => .error .noField
          | some j =>
            match c0.slots.get? j with
            | none => .error .fault
            | some slot => .ok slot := by
  have ht : jl_typeof_w R G w0 (.obj a) = .obj c0.type := by
    simp [jl_typeof_w, World.hdr, hobj]
  simp only [jl_f_get_field, List.length_cons, List.length_nil, ht, hstruct, struct_names, hty,
    Value.addr, hobj]
  simp

theorem set_field_hdr (R : Runtime) (G : Globals) (w : World) (a : Addr) (c : Cell)
    (slots : List (Option Value)) (s1 : St) (hobj : w.obj a = some c) (b : Addr) :
    World.hdr R G
      { w with
        st := s1
        obj := fun b => if b = a then some ⟨c.type, slots⟩ else w.obj b } b
      = World.hdr R G w b := by
  unfold World.hdr
  by_cases hb : b = a
  · subst hb
    simp [hobj]
  · simp [hb]

theorem typeis_of_hdr (R : Runtime) (G : Globals) (w w1 : World) (g : Value) (t : Addr)
    (h : World.hdr R G w1 g.addr = World.hdr R G w g.addr) :
    jl_typeis_w R G w1 g t = jl_typeis_w R G w g t := by
  cases g with
  | tuple a xs => rfl
  | bits a ty d => rfl
  | obj a =>
    simp only [jl_typeis_w, jl_typeof_w]
    simp only [Value.addr] at h
    rw [h]

/-- C14, as stated, fails: the conversion method of `Float64`, called with the
instance `s` of `Point` itself, writes the field `x` of `s` and answers
`Float64(0)`.  `setfield(s, y, s)` returns `s`, `getfield(s, y)` then reads the
converted value, but `getfield(s, x)`, which read `Int32(1)` before the call,
reads the value the method wrote. -/
theorem setfield_other_field_counterexample :
    (jl_convert_w demoMethods demoRuntime4 demoGlobals (.obj 210) (.obj 24) demoWorld4).1
      = .ok (.bits 1000 24 0) ∧
    (jl_f_set_field demoMethods demoRuntime4 demoGlobals [.obj 210, .obj 51, .obj 210]
      demoWorld4).1 = .ok (.obj 210) ∧
    jl_f_get_field demoRuntime4 demoGlobals [.obj 210, .obj 51]
        (jl_f_set_field demoMethods demoRuntime4 demoGlobals [.obj 210, .obj 51, .obj 210]
          demoWorld4).2 = .ok (some (.bits 1000 24 0)) ∧
    jl_f_get_field demoRuntime4 demoGlobals [.obj 210, .obj 50] demoWorld4
      = .ok (some (.bits 300 23 1)) ∧
    jl_f_get_field demoRuntime4 demoGlobals [.obj 210, .obj 50]
        (jl_f_set_field demoMethods demoRuntime4 demoGlobals [.obj 210, .obj 51, .obj 210]
          demoWorld4).2 = .ok (some (.bits 306 23 0)) := by
  decide

/-- C14 (amended): for a struct instance `s`, a symbol `f` found by `field_offset`
at position `i` of the names of the type of `s`, whose declared type `F` is the
`i`-th field type, and a value `v` for which `convert(v, F)` returns `y` and
leaves `s` an instance of its type, itself unchanged: `setfield(s, f, v)`
returns `s`, afterwards `getfield(s, f)` returns `y`, and `getfield(s, g)` gives
for every other symbol `g` what it gave in the world the conversion left; that
is what it gave before the call when the conversion wrote neither `s` nor the
header of `g`. -/
theorem setfield_getfield (A : Methods) (R : Runtime) (G : Globals) (w w1 : World) (a : Addr)
    (c c1 : Cell) (fld v nm sup F y : Value) (ps names types : List Value) (i : Nat)
    (hobj : w.obj a = some c)
    (hstruct : jl_is_struct_type_w R G w (.obj c.type) = true)
    (hty : w.ty c.type = some (.structType nm sup ps names (some types)))
    (hsym : jl_typeis_w R G w fld G.jl_sym_type = true)
    (hoff : field_offset names fld = some i)
    (hF : types.get? i = some F)
    (hconv : jl_convert_w A R G v F w = (.ok y, w1))
    (hobj1 : w1.obj a = some c1) (hc1 : c1.type = c.type) (hslot : i < c1.slots.length)
    (hstruct1 : jl_is_struct_type_w R G w1 (.obj c.type) = true)
    (hty1 : w1.ty c.type = w.ty c.type)
    (hsym1 : jl_typeis_w R G w1 fld G.jl_sym_type = true) :
    (jl_f_set_field A R G [.obj a, fld, v] w).1 = .ok (.obj a) ∧
    jl_f_get_field R G [.obj a, fld] (jl_f_set_field A R G [.obj a, fld, v] w).2
      = .ok (some y) ∧
    (∀ g : Value, g.addr ≠ fld.addr →
      jl_f_get_field R G [.obj a, g] (jl_f_set_field A R G [.obj a, fld, v] w).2
        = jl_f_get_field R G [.obj a, g] w1) ∧
    (w1.obj a = w.obj a → ∀ g : Value, g.addr ≠ fld.addr →
      World.hdr R G w1 g.addr = World.hdr R G w g.addr →
      jl_f_get_field R G [.obj a, g] (jl_f_set_field A R G [.obj a, fld, v] w).2
        = jl_f_get_field R G [.obj a, g] w) := by
  have ht : jl_typeof_w R G w (.obj a) = .obj c.type := by
    simp [jl_typeof_w, World.hdr, hobj]
  have hset : jl_f_set_field A R G [.obj a, fld, v] w
      = (.ok (.obj a),
         { w1 with
           obj := fun b => if b = a then some ⟨c1.type, c1.slots.set i (some y)⟩ else w1.obj b }) := by
    simp only [jl_f_set_field, List.length_cons, List.length_nil, ht, hstruct, hsym, struct_names,
      struct_types, hty, Value.addr, hoff, hF, hconv, hobj1, hslot]
    simp
  have hty1c : w1.ty c1.type = some (.structType nm sup ps names (some types)) := by
    rw [hc1, hty1, hty]
  have hstruct1c : jl_is_struct_type_w R G w1 (.obj c1.type) = true := by
    rw [hc1]; exact hstruct1
  have hh := set_field_hdr R G w1 a c1 (c1.slots.set i (some y)) w1.st hobj1
  have hobj2 : ({ w1 with
      obj := fun b => if b = a then some ⟨c1.type, c1.slots.set i (some y)⟩ else w1.obj b } :
        World).obj a = some ⟨c1.type, c1.slots.set i (some y)⟩ := by simp
  have hstruct2 : jl_is_struct_type_w R G ({ w1 with
      obj := fun b => if b = a then some ⟨c1.type, c1.slots.set i (some y)⟩ else w1.obj b } :
        World) (.obj c1.type) = true := by
    simp only [jl_is_struct_type_w]
    rw [hh]
    exact hstruct1c
  have hsymeq : ∀ g : Value, jl_typeis_w R G ({ w1 with
      obj := fun b => if b = a then some ⟨c1.type, c1.slots.set i (some y)⟩ else w1.obj b } :
        World) g G.jl_sym_type = jl_typeis_w R G w1 g G.jl_sym_type :=
    fun g => typeis_of_hdr R G w1 _ g _ (hh g.addr)
  have hframe : ∀ g : Value, g.addr ≠ fld.addr →
      jl_f_get_field R G [.obj a, g] (jl_f_set_field A R G [.obj a, fld, v] w).2
        = jl_f_get_field R G [.obj a, g] w1 := by
    intro g hg
    rw [hset]
    simp only []
    rw [get_field_struct R G _ a ⟨c1.type, c1.slots.set i (some y)⟩ g nm sup ps names
      (some types) hobj2 hstruct2 hty1c,
      get_field_struct R G w1 a c1 g nm sup ps names (some types) hobj1 hstruct1c hty1c, hsymeq]
    cases hj : field_offset names g with
    | none => rfl
    | some j =>
      have hne : i ≠ j := by
        intro hij
        subst hij
        obtain ⟨n1, hn1, ha1⟩ := field_offset_addr names fld i hoff
        obtain ⟨n2, hn2, ha2⟩ := field_offset_addr names g i hj
        rw [hn1] at hn2
        cases hn2
        exact hg (ha2.symm.trans ha1)
      simp [List.getElem?_set_ne hne]
  refine ⟨by rw [hset], ?_, hframe, ?_⟩
  · rw [hset]
    simp only []
    rw [get_field_struct R G _ a ⟨c1.type, c1.slots.set i (some y)⟩ fld nm sup ps names
      (some types) hobj2 hstruct2 hty1c, hsymeq, hsym1, hoff]
    simp [List.getElem?_set_self, hslot]
  · intro hsame g hg hhdr
    rw [hframe g hg]
    have hcc : c1 = c := by
      rw [hsame, hobj] at hobj1
      exact (Option.some.inj hobj1).symm
    subst hcc
    rw [get_field_struct R G w1 a c1 g nm sup ps names (some types) hobj1 hstruct1c hty1c,
      get_field_struct R G w a c1 g nm sup ps names (some types) hobj hstruct hty,
      typeis_of_hdr R G w w1 g _ hhdr]

/-- Witness of C14: `setfield` of the field `y::Float64` of the instance of
`Point` to `Int32(5)`, which the conversion method of `Float64` converts without
writing to any object. -/
theorem setfield_getfield_witness :
    field_offset [Value.obj 50, Value.obj 51] (.obj 51) = some 1 ∧
    (jl_convert_w demoMethods demoRuntime4 demoGlobals (.bits 302 23 5) (.obj 24) demoWorld4).1
      = .ok (.bits 1000 24 5) ∧
    (jl_f_set_field demoMethods demoRuntime4 demoGlobals [.obj 210, .obj 51, .bits 302 23 5]
      demoWorld4).1 = .ok (.obj 210) ∧
    jl_f_get_field demoRuntime4 demoGlobals [.obj 210, .obj 51]
        (jl_f_set_field demoMethods demoRuntime4 demoGlobals [.obj 210, .obj 51, .bits 302 23 5]
          demoWorld4).2 = .ok (some (.bits 1000 24 5)) ∧
    jl_f_get_field demoRuntime4 demoGlobals [.obj 210, .obj 50]
        (jl_f_set_field demoMethods demoRuntime4 demoGlobals [.obj 210, .obj 51, .bits 302 23 5]
          demoWorld4).2
      = jl_f_get_field demoRuntime4 demoGlobals [.obj 210, .obj 50] demoWorld4 :=
  have h := setfield_getfield demoMethods demoRuntime4 demoGlobals demoWorld4
    (jl_convert_w demoMethods demoRuntime4 demoGlobals (.bits 302 23 5) (.obj 24) demoWorld4).2
    210 ⟨80, [some (.bits 300 23 1), some (.bits 301 24 2)]⟩
    ⟨80, [some (.bits 300 23 1), some (.bits 301 24 2)]⟩ (.obj 51) (.bits 302 23 5)
    (.obj 52) (.obj 20) (.obj 24) (.bits 1000 24 5) [] [.obj 50, .obj 51] [.obj 23, .obj 24] 1
    (by decide) (by decide) (by decide) (by decide) (by decide) (by decide)
    (Prod.ext (by decide) rfl) (by decide) (by decide) (by decide) (by decide) (by decide)
    (by decide)
  ⟨by decide, by decide, h.1, h.2.1, h.2.2.2 (by decide) (.obj 50) (by decide) (by decide)⟩

/-! ## Properties of the type construction builtins -/

theorem hdr_new_type_object (R : Runtime) (G : Globals) (t : TObj) (w : World) (b : Addr)
    (hb : b ≠ w.st.next) :
    World.hdr R G (new_type_object t w).2 b = World.hdr R G w b := by
  simp [World.hdr, new_type_object, hb]

theorem check_supertype_eq (R : Runtime) (G : Globals) (w : World) (super : Value) :
    check_supertype R G w super
      = if valid_supertype R G w super then .ok () else .error .invalidSubtyping := by
  unfold check_supertype valid_supertype
  cases jl_is_tag_type_w R G w super <;> cases h2 : (super.addr == G.jl_sym_type) <;>
    cases R.jl_subtype super G.jl_type_type false false <;>
    cases R.jl_subtype super G.jl_array_type false false <;> simp [bne, h2]

theorem valid_supertype_new_type_object (R : Runtime) (G : Globals) (t : TObj) (w : World)
    (super : Value) (hb : super.addr ≠ w.st.next) :
    valid_supertype R G (new_type_object t w).2 super = valid_supertype R G w super := by
  cases super with
  | tuple a xs => rfl
  | bits a ty d => rfl
  | obj a =>
    simp only [valid_supertype, jl_is_tag_type_w]
    rw [hdr_new_type_object R G t w a hb]

/-- C15, as stated, fails: the struct type `Complex{Int32}` (26) is a struct type,
is not `Symbol`, is not a subtype of `Type` nor of `Array`, yet
`new_struct_type` with that super raises "invalid subtyping". -/
theorem struct_super_rejected_counterexample :
    jl_is_struct_type_w demoRuntime2 demoGlobals demoWorld (.obj 26) = true ∧
    (26 : Addr) ≠ demoGlobals.jl_sym_type ∧
    demoRuntime2.jl_subtype (.obj 26) demoGlobals.jl_type_type false false = false ∧
    demoRuntime2.jl_subtype (.obj 26) demoGlobals.jl_array_type false false = false ∧
    demoGlobals.jl_is_type (.obj 26) = true ∧
    (jl_f_new_struct_type demoRuntime2 demoGlobals
      [.obj 52, .obj 26, .tuple 1 [], .tuple 500 [.obj 50]] demoWorld).1
      = .error .invalidSubtyping := by
  decide

/-- C15 (amended): `check_supertype` accepts a proposed supertype exactly when it
is a tag type, is not `Symbol`, is not a subtype of `Type` and is not a subtype
of `Array`, and raises "invalid subtyping" (a SubtypingError) otherwise; a
struct type is never accepted.  With a symbol for name and type variables for
parameters: `new_tag_type` returns a new tag type when the super is accepted,
raises the SubtypingError and leaves the world as it was when a tag type is not
accepted, and raises a TypeError when the super is not a tag type;
`new_struct_type` returns a new struct type when the super is one of `Scalar`,
`Number`, `Real`, `Int`, `Float`, without any check, and else when the super is
accepted, and raises the SubtypingError when it is not, returning no type. -/
theorem supertype_accepted_iff (R : Runtime) (G : Globals) (w : World)
    (name super : Value) (params fnames : List Value) (pa fa : Addr)
    (hkind : R.jl_struct_kind ≠ R.jl_tag_kind)
    (hname : jl_typeis_w R G w name G.jl_sym_type = true)
    (hparams : all_typevars R G w params = true)
    (hsuper : super.addr ≠ w.st.next) :
    (check_supertype R G w super = .ok () ↔
      (jl_is_tag_type_w R G w super = true ∧ super.addr ≠ G.jl_sym_type ∧
        R.jl_subtype super G.jl_type_type false false = false ∧
        R.jl_subtype super G.jl_array_type false false = false)) ∧
    (check_supertype R G w super ≠ .ok () →
      check_supertype R G w super = .error .invalidSubtyping ∧
      Err.isSubtypingError .invalidSubtyping = true) ∧
    (jl_is_struct_type_w R G w super = true →
      check_supertype R G w super = .error .invalidSubtyping) ∧
    (check_supertype R G w super = .ok () →
      (jl_f_new_tag_type R G [name, super, .tuple pa params] w).1 = .ok (.obj w.st.next)) ∧
    (jl_is_tag_type_w R G w super = true → check_supertype R G w super ≠ .ok () →
      jl_f_new_tag_type R G [name, super, .tuple pa params] w = (.error .invalidSubtyping, w)) ∧
    (jl_is_tag_type_w R G w super = false →
      jl_f_new_tag_type R G [name, super, .tuple pa params] w = (.error .typeError, w)) ∧
    (is_numeric_ctor G super = true →
      (jl_f_new_struct_type R G [name, super, .tuple pa params, .tuple fa fnames] w).1
        = .ok (.obj w.st.next)) ∧
    (is_numeric_ctor G super = false → G.jl_is_type super = true →
      check_supertype R G w super = .ok () →
      (jl_f_new_struct_type R G [name, super, .tuple pa params, .tuple fa fnames] w).1
        = .ok (.obj w.st.next)) ∧
    (is_numeric_ctor G super = false → G.jl_is_type super = true →
      check_supertype R G w super ≠ .ok () →
      (jl_f_new_struct_type R G [name, super, .tuple pa params, .tuple fa fnames] w).1
        = .error .invalidSubtyping) := by
  have hstructtag : jl_is_struct_type_w R G w super = true →
      jl_is_tag_type_w R G w super = false := by
    intro h
    cases super with
    | tuple a xs => rfl
    | bits a ty d => rfl
    | obj a =>
      simp only [jl_is_struct_type_w, beq_iff_eq] at h
      simp only [jl_is_tag_type_w, h]
      simpa using hkind
  have hv1 : ∀ t : TObj, check_supertype R G (new_type_object t w).2 super
      = check_supertype R G w super := by
    intro t
    rw [check_supertype_eq, check_supertype_eq, valid_supertype_new_type_object R G t w super hsuper]
  have htag1 : ∀ t : TObj, jl_is_tag_type_w R G (new_type_object t w).2 super
      = jl_is_tag_type_w R G w super := by
    intro t
    cases super with
    | tuple a xs => rfl
    | bits a ty d => rfl
    | obj a =>
      simp only [jl_is_tag_type_w]
      rw [hdr_new_type_object R G t w a hsuper]
  have hstruct1 : ∀ t : TObj, jl_is_struct_type_w R G (new_type_object t w).2 super
      = jl_is_struct_type_w R G w super := by
    intro t
    cases super with
    | tuple a xs => rfl
    | bits a ty d => rfl
    | obj a =>
      simp only [jl_is_struct_type_w]
      rw [hdr_new_type_object R G t w a hsuper]
  have hvalid : check_supertype R G w super = .ok () ↔ valid_supertype R G w super = true := by
    rw [check_supertype_eq]
    cases valid_supertype R G w super <;> simp
  have hfive : is_numeric_ctor G super
      = (super.addr == G.jl_scalar_type || super.addr == G.jl_number_type ||
          super.addr == G.jl_real_type || super.addr == G.jl_int_type ||
          super.addr == G.jl_float_type) := rfl
  refine ⟨?_, ?_, ?_, ?_, ?_, ?_, ?_, ?_, ?_⟩
  · rw [hvalid]
    simp [valid_supertype, bne_iff_ne]
    tauto
  · intro h
    refine ⟨?_, rfl⟩
    rw [check_supertype_eq] at h ⊢
    cases hv : valid_supertype R G w super
    · rfl
    · rw [hv] at h
      exact absurd rfl h
  · intro h
    rw [check_supertype_eq]
    simp [valid_supertype, hstructtag h]
  · intro h
    have htag : jl_is_tag_type_w R G w super = true := by
      rw [hvalid] at h
      simp only [valid_supertype, Bool.and_eq_true] at h
      exact h.1.1.1
    simp only [jl_f_new_tag_type, List.length_cons, List.length_nil, hname, htag, hparams, h]
    simp [new_type_object]
  · intro htag h
    have he : check_supertype R G w super = .error .invalidSubtyping := by
      rw [check_supertype_eq] at h ⊢
      cases hv : valid_supertype R G w super
      · rfl
      · rw [hv] at h
        exact absurd rfl h
    simp only [jl_f_new_tag_type, List.length_cons, List.length_nil, hname, htag, hparams, he]
    simp
  · intro htag
    simp only [jl_f_new_tag_type, List.length_cons, List.length_nil, hname, htag]
    simp
  · intro h5
    rw [hfive] at h5
    simp only [jl_f_new_struct_type, List.length_cons, List.length_nil, hname, hparams, h5]
    simp [new_type_object]
  · intro h5 hty h
    rw [hfive] at h5
    have htag : jl_is_tag_type_w R G w super = true := by
      rw [hvalid] at h
      simp only [valid_supertype, Bool.and_eq_true] at h
      exact h.1.1.1
    have hns : jl_is_struct_type_w R G w super = false := by
      cases hs : jl_is_struct_type_w R G w super
      · rfl
      · rw [hstructtag hs] at htag
        exact absurd htag (by simp)
    simp only [jl_f_new_struct_type, List.length_cons, List.length_nil, hname, hparams, h5, hty,
      hv1, h, hstruct1, hns, htag1, htag]
    simp [new_type_object]
  · intro h5 hty h
    rw [hfive] at h5
    have he : check_supertype R G w super = .error .invalidSubtyping := by
      rw [check_supertype_eq] at h ⊢
      cases hv : valid_supertype R G w super
      · rfl
      · rw [hv] at h
        exact absurd rfl h
    simp only [jl_f_new_struct_type, List.length_cons, List.length_nil, hname, hparams, h5, hty,
      hv1, he]
    simp

/-- Witness of C15 (amended): the tag type `A` (30) is accepted as the super of a
new struct type. -/
theorem supertype_accepted_iff_witness :
    demoRuntime2.jl_struct_kind ≠ demoRuntime2.jl_tag_kind ∧
    jl_typeis_w demoRuntime2 demoGlobals demoWorld (.obj 52) demoGlobals.jl_sym_type = true ∧
    check_supertype demoRuntime2 demoGlobals demoWorld (.obj 30) = .ok () ∧
    (jl_f_new_struct_type demoRuntime2 demoGlobals
      [.obj 52, .obj 30, .tuple 1 [], .tuple 500 [.obj 50]] demoWorld).1 = .ok (.obj 1000) :=
  ⟨by decide, by decide, by decide,
    (supertype_accepted_iff demoRuntime2 demoGlobals demoWorld (.obj 52) (.obj 30) []
      [.obj 50] 1 500 (by decide) (by decide) (by decide) (by decide)).2.2.2.2.2.2.2.1
      (by decide) (by decide) (by decide)⟩

theorem hdr_set_types (R : Runtime) (G : Globals) (w : World) (a : Addr) (types : List Value)
    (tc : Value) (b : Addr) :
    World.hdr R G (jl_add_generic_constructor tc (set_types a types w)) b = World.hdr R G w b := by
  unfold World.hdr jl_add_generic_constructor set_types
  simp only []
  by_cases hb : b = a
  · subst hb
    simp only [if_true]
    cases h : w.ty b with
    | none => rfl
    | some t => cases t <;> rfl
  · simp only [hb, if_false]

theorem new_struct_fields_filled (R : Runtime) (G : Globals) (w : World)
    (tc t nm sup : Value) (tps ps names ftypes old : List Value) (fta : Addr)
    (htc : jl_is_typector_w R G w tc = true)
    (hbody : w.ty tc.addr = some (.typector tps t))
    (hst : jl_is_struct_type_w R G w t = true)
    (hty : w.ty t.addr = some (.structType nm sup ps names (some old))) :
    jl_f_new_struct_fields R G [tc, .tuple fta ftypes] w = (.error .cantDoThat, w) := by
  simp only [jl_f_new_struct_fields, List.length_cons, List.length_nil, htc, hbody, hst, hty]
  simp

theorem new_struct_fields_after (R : Runtime) (G : Globals) (w : World)
    (tc t nm sup : Value) (tps ps names types : List Value)
    (htc : jl_is_typector_w R G w tc = true)
    (hbody : w.ty tc.addr = some (.typector tps t))
    (hst : jl_is_struct_type_w R G w t = true)
    (hty : w.ty t.addr = some (.structType nm sup ps names none)) :
    jl_is_typector_w R G (jl_add_generic_constructor tc (set_types t.addr types w)) tc = true ∧
    (jl_add_generic_constructor tc (set_types t.addr types w)).ty tc.addr
      = some (.typector tps t) ∧
    jl_is_struct_type_w R G (jl_add_generic_constructor tc (set_types t.addr types w)) t
      = true ∧
    (jl_add_generic_constructor tc (set_types t.addr types w)).ty t.addr
      = some (.structType nm sup ps names (some types)) := by
  have hne : tc.addr ≠ t.addr := by
    intro h
    rw [h, hty] at hbody
    cases hbody
  refine ⟨?_, ?_, ?_, ?_⟩
  · cases tc with
    | tuple a xs => simp [jl_is_typector_w] at htc
    | bits a ty d => simp [jl_is_typector_w] at htc
    | obj a =>
      simp only [jl_is_typector_w, hdr_set_types]
      exact htc
  · simp [jl_add_generic_constructor, set_types, hne, hbody]
  · cases t with
    | tuple a xs => simp [jl_is_struct_type_w] at hst
    | bits a ty d => simp [jl_is_struct_type_w] at hst
    | obj a =>
      simp only [jl_is_struct_type_w, hdr_set_types]
      exact hst
  · simp [jl_add_generic_constructor, set_types, hty]

/-- C16: for a type constructor `tc` whose body is the struct type `st`:
when `st.types` is not filled, `new_struct_fields(tc, ftypes)` returns the empty
tuple and sets `st.types` to the types of the super followed by `ftypes` when
the super is a struct type with filled types, to `ftypes` when the super is a
tag type, and any later call of `new_struct_fields` on `tc` raises "you can't
do that." (a StateError) and leaves the world as it is; when `st.types` is
already filled, the call raises that error and leaves the world as it is. -/
theorem new_struct_fields_once (R : Runtime) (G : Globals) (w : World)
    (tc t nm sup : Value) (tps ps names ftypes ftypes2 : List Value) (fta fta2 : Addr)
    (htc : jl_is_typector_w R G w tc = true)
    (hbody : w.ty tc.addr = some (.typector tps t))
    (hst : jl_is_struct_type_w R G w t = true) :
    (w.ty t.addr = some (.structType nm sup ps names none) →
      jl_is_struct_type_w R G w sup = false → jl_is_tag_type_w R G w sup = true →
      (jl_f_new_struct_fields R G [tc, .tuple fta ftypes] w).1 = .ok (jl_null R.toHeap) ∧
      struct_types (jl_f_new_struct_fields R G [tc, .tuple fta ftypes] w).2 t.addr
        = some (some ftypes) ∧
      jl_f_new_struct_fields R G [tc, .tuple fta2 ftypes2]
          (jl_f_new_struct_fields R G [tc, .tuple fta ftypes] w).2
        = (.error .cantDoThat, (jl_f_new_struct_fields R G [tc, .tuple fta ftypes] w).2)) ∧
    (∀ pft, w.ty t.addr = some (.structType nm sup ps names none) →
      jl_is_struct_type_w R G w sup = true → struct_types w sup.addr = some (some pft) →
      (jl_f_new_struct_fields R G [tc, .tuple fta ftypes] w).1 = .ok (jl_null R.toHeap) ∧
      struct_types (jl_f_new_struct_fields R G [tc, .tuple fta ftypes] w).2 t.addr
        = some (some (pft ++ ftypes)) ∧
      jl_f_new_struct_fields R G [tc, .tuple fta2 ftypes2]
          (jl_f_new_struct_fields R G [tc, .tuple fta ftypes] w).2
        = (.error .cantDoThat, (jl_f_new_struct_fields R G [tc, .tuple fta ftypes] w).2)) ∧
    (∀ old, w.ty t.addr = some (.structType nm sup ps names (some old)) →
      jl_f_new_struct_fields R G [tc, .tuple fta ftypes] w = (.error .cantDoThat, w) ∧
      Err.isStateError .cantDoThat = true) := by
  refine ⟨?_, ?_, ?_⟩
  · intro hty hns htag
    have e : jl_f_new_struct_fields R G [tc, .tuple fta ftypes] w
        = (.ok (jl_null R.toHeap),
           jl_add_generic_constructor tc (set_types t.addr ftypes w)) := by
      simp only [jl_f_new_struct_fields, List.length_cons, List.length_nil, htc, hbody, hst, hty,
        hns, htag]
      simp
    obtain ⟨a1, a2, a3, a4⟩ := new_struct_fields_after R G w tc t nm sup tps ps names ftypes
      htc hbody hst hty
    rw [e]
    refine ⟨rfl, ?_, ?_⟩
    · simp only [struct_types, a4]
    · exact new_struct_fields_filled R G _ tc t nm sup tps ps names ftypes2 ftypes fta2
        a1 a2 a3 a4
  · intro pft hty hs hpft
    have e : jl_f_new_struct_fields R G [tc, .tuple fta ftypes] w
        = (.ok (jl_null R.toHeap),
           jl_add_generic_constructor tc (set_types t.addr (pft ++ ftypes) w)) := by
      simp only [jl_f_new_struct_fields, List.length_cons, List.length_nil, htc, hbody, hst, hty,
        hs, hpft]
      simp
    obtain ⟨a1, a2, a3, a4⟩ := new_struct_fields_after R G w tc t nm sup tps ps names
      (pft ++ ftypes) htc hbody hst hty
    rw [e]
    refine ⟨rfl, ?_, ?_⟩
    · simp only [struct_types, a4]
    · exact new_struct_fields_filled R G _ tc t nm sup tps ps names ftypes2 (pft ++ ftypes) fta2
        a1 a2 a3 a4
  · intro old hty
    exact ⟨new_struct_fields_filled R G w tc t nm sup tps ps names ftypes old fta
      htc hbody hst hty, rfl⟩

/-- Witness of C16: the struct type at 81, whose super is `Any` and whose field
types are not filled, under the type constructor at 82. -/
theorem new_struct_fields_once_witness :
    jl_is_typector_w demoRuntime2 demoGlobals demoWorld (.obj 82) = true ∧
    demoWorld.ty 82 = some (.typector [] (.obj 81)) ∧
    demoWorld.ty 81 = some (.structType (.obj 52) (.obj 20) [] [.obj 50] none) ∧
    (jl_f_new_struct_fields demoRuntime2 demoGlobals [.obj 82, .tuple 501 [.obj 23]]
      demoWorld).1 = .ok (jl_null demoRuntime2.toHeap) ∧
    struct_types (jl_f_new_struct_fields demoRuntime2 demoGlobals
      [.obj 82, .tuple 501 [.obj 23]] demoWorld).2 81 = some (some [.obj 23]) :=
  ⟨by decide, by decide, by decide,
    ((new_struct_fields_once demoRuntime2 demoGlobals demoWorld (.obj 82) (.obj 81) (.obj 52)
      (.obj 20) [] [] [.obj 50] [.obj 23] [] 501 1 (by decide) (by decide) (by decide)).1
      (by decide) (by decide) (by decide)).1,
    ((new_struct_fields_once demoRuntime2 demoGlobals demoWorld (.obj 82) (.obj 81) (.obj 52)
      (.obj 20) [] [] [.obj 50] [.obj 23] [] 501 1 (by decide) (by decide) (by decide)).1
      (by decide) (by decide) (by decide)).2.1⟩

theorem hdr_set_super_names (R : Runtime) (G : Globals) (w : World) (a : Addr) (sup : Value)
    (names : List Value) (b : Addr) :
    World.hdr R G (set_super_names a sup names w) b = World.hdr R G w b := by
  unfold World.hdr set_super_names
  simp only []
  by_cases hb : b = a
  · subst hb
    simp only [if_true]
    cases h : w.ty b with
    | none => rfl
    | some t => cases t <;> rfl
  · simp only [hb, if_false]

theorem new_struct_type_ok (R : Runtime) (G : Globals) (w : World)
    (name super nst : Value) (params fnames : List Value) (pa fa : Addr) (w1 : World)
    (hkind : R.jl_struct_kind ≠ R.jl_tag_kind)
    (hwf : w.wf)
    (hsuper : super.addr < w.st.next)
    (h1 : jl_f_new_struct_type R G [name, super, .tuple pa params, .tuple fa fnames] w
      = (.ok nst, w1)) :
    nst = .obj w.st.next ∧ w.st.next < w1.st.next ∧
    ∃ sup, w1.ty w.st.next = some (.structType name sup params fnames none) ∧
      sup.addr < w1.st.next ∧ jl_is_struct_type_w R G w1 sup = false ∧
      w1.obj w.st.next = none ∧ w1.arr w.st.next = none := by
  obtain ⟨ho, ha, ht⟩ := hwf w.st.next (le_refl _)
  obtain ⟨ho1, ha1, ht1⟩ := hwf (w.st.next + 1) (Nat.le_succ _)
  obtain ⟨ho2, ha2, ht2⟩ := hwf (w.st.next + 1 + 1) (Nat.le_succ_of_le (Nat.le_succ _))
  have hne1 : w.st.next + 1 ≠ w.st.next := Nat.succ_ne_self _
  have hne2 : w.st.next + 1 + 1 ≠ w.st.next :=
    Nat.ne_of_gt (Nat.lt_succ_of_lt (Nat.lt_succ_self _))
  simp only [jl_f_new_struct_type, List.length_cons, List.length_nil] at h1
  simp only [show ¬ (0 + 1 + 1 + 1 + 1 < 4) by omega, show ¬ (0 + 1 + 1 + 1 + 1 > 4) by omega,
    if_false] at h1
  split at h1
  · simp at h1
  · split at h1
    · simp at h1
    · simp only [new_type_object] at h1
      split at h1
      · -- five constructors
        simp only [jl_alloc_tuple, Prod.mk.injEq, Except.ok.injEq] at h1
        obtain ⟨rfl, rfl⟩ := h1
        refine ⟨rfl, ?_, .obj (w.st.next + 1 + 1), ?_, ?_, ?_, ?_, ?_⟩
        · show w.st.next < w.st.next + 1 + 1 + 1
          exact Nat.lt_succ_of_lt (Nat.lt_succ_of_lt (Nat.lt_succ_self _))
        · simp [set_super_names, Value.addr, hne2.symm]
        · show w.st.next + 1 + 1 < w.st.next + 1 + 1 + 1
          exact Nat.lt_succ_self _
        · simp only [jl_is_struct_type_w, hdr_set_super_names]
          simp only [World.hdr, ho2, ha2, if_true, TObj.kind]
          simpa using fun h => hkind h.symm
        · simp [set_super_names, ho]
        · simp [set_super_names, ha]
      · split at h1
        · simp at h1
        · split at h1
          · simp at h1
          · rename_i hchk
            split at h1
            · rename_i hs
              exfalso
              rw [check_supertype_eq] at hchk
              split at hchk
              · rename_i hv
                simp only [valid_supertype, Bool.and_eq_true] at hv
                have htag := hv.1.1.1
                cases super with
                | tuple a xs => simp [jl_is_struct_type_w] at hs
                | bits a ty d => simp [jl_is_struct_type_w] at hs
                | obj a =>
                  simp only [jl_is_struct_type_w, beq_iff_eq] at hs
                  simp only [jl_is_tag_type_w, beq_iff_eq] at htag
                  exact hkind (hs.symm.trans htag)
              · simp at hchk
            · rename_i hs
              split at h1
              · simp at h1
              · simp only [Prod.mk.injEq, Except.ok.injEq] at h1
                obtain ⟨rfl, rfl⟩ := h1
                refine ⟨rfl, ?_, super, ?_, ?_, ?_, ?_, ?_⟩
                · show w.st.next < w.st.next + 1
                  exact Nat.lt_succ_self _
                · simp [set_super_names, Value.addr]
                · simp only [set_super_names]
                  exact Nat.lt_succ_of_lt hsuper
                · rw [Bool.eq_false_iff]
                  intro h
                  apply hs
                  cases super with
                  | tuple a xs => simp [jl_is_struct_type_w] at h
                  | bits a ty d => simp [jl_is_struct_type_w] at h
                  | obj a =>
                    simp only [jl_is_struct_type_w, hdr_set_super_names] at h ⊢
                    exact h
                · simp [set_super_names, ho]
                · simp [set_super_names, ha]
/-- C17 (amended): when `new_struct_type(name, super, params, fnames)`, then
`new_type_constructor(tps, st)` on its result `st`, then
`new_struct_fields(tc, ftypes)` on the type constructor `tc` all succeed, the
field names of `st` are exactly `fnames` and its field types exactly `ftypes`,
neither of which any of the three builtins examines: the names are free of
duplicates exactly when `fnames` is, and there are as many names as types
exactly when `fnames` and `ftypes` have the same length. -/
theorem struct_names_types_unchecked (R : Runtime) (G : Globals) (w w1 w2 w3 : World)
    (name super nst tc u : Value) (params fnames tps ftypes : List Value)
    (pa fa ta fta : Addr)
    (hkind : R.jl_struct_kind ≠ R.jl_tag_kind)
    (hwf : w.wf)
    (hsuper : super.addr < w.st.next)
    (h1 : jl_f_new_struct_type R G [name, super, .tuple pa params, .tuple fa fnames] w
      = (.ok nst, w1))
    (h2 : jl_f_new_type_constructor R G [.tuple ta tps, nst] w1 = (.ok tc, w2))
    (h3 : jl_f_new_struct_fields R G [tc, .tuple fta ftypes] w2 = (.ok u, w3)) :
    struct_names w3 nst.addr = some fnames ∧
    struct_types w3 nst.addr = some (some ftypes) ∧
    (∃ names types, struct_names w3 nst.addr = some names ∧
      struct_types w3 nst.addr = some (some types) ∧
      (names.Nodup ↔ fnames.Nodup) ∧
      (names.length = types.length ↔ fnames.length = ftypes.length)) := by
  obtain ⟨hnst, hlt, sup, hty, hsup, hns, -, -⟩ :=
    new_struct_type_ok R G w name super nst params fnames pa fa w1 hkind hwf hsuper h1
  subst hnst
  have hne0 : w.st.next ≠ w1.st.next := Nat.ne_of_lt hlt
  have hnes : sup.addr ≠ w1.st.next := Nat.ne_of_lt hsup
  -- the type constructor
  simp only [jl_f_new_type_constructor, List.length_cons, List.length_nil] at h2
  simp only [show ¬ (0 + 1 + 1 < 2) by omega, show ¬ (0 + 1 + 1 > 2) by omega, if_false] at h2
  split at h2
  · simp at h2
  · split at h2
    · simp at h2
    · simp only [Prod.mk.injEq, Except.ok.injEq] at h2
      obtain ⟨htc, hw2⟩ := h2
      have htc2 : tc = .obj w1.st.next := htc.symm
      subst htc2
      have hty2tc : w2.ty w1.st.next = some (.typector tps (.obj w.st.next)) := by
        rw [← hw2]
        simp [new_type_object]
      have hty2 : w2.ty w.st.next
          = some (.structType name sup params fnames none) := by
        rw [← hw2]
        simp [new_type_object, hne0, hty]
      have hns2 : jl_is_struct_type_w R G w2 sup = false := by
        rw [← hw2]
        cases sup with
        | tuple a xs => rfl
        | bits a ty d => rfl
        | obj a =>
          simp only [Value.addr] at hnes
          simp only [jl_is_struct_type_w] at hns ⊢
          rw [hdr_new_type_object R G _ w1 a hnes]
          exact hns
      -- the field types
      simp only [jl_f_new_struct_fields, List.length_cons, List.length_nil, Value.addr, hty2tc,
        hty2, hns2] at h3
      simp only [show ¬ (0 + 1 + 1 < 2) by omega, show ¬ (0 + 1 + 1 > 2) by omega, if_false] at h3
      split at h3
      · simp at h3
      · split at h3
        · simp at h3
        · simp only [Option.isSome_none, Bool.false_eq_true, if_false] at h3
          split at h3
          · simp only [Prod.mk.injEq, Except.ok.injEq] at h3
            obtain ⟨-, hw3⟩ := h3
            have hn : struct_names w3 w.st.next = some fnames := by
              rw [← hw3]
              simp [struct_names, jl_add_generic_constructor, set_types, hty2]
            have ht : struct_types w3 w.st.next = some (some ftypes) := by
              rw [← hw3]
              simp [struct_types, jl_add_generic_constructor, set_types, hty2]
            exact ⟨hn, ht, fnames, ftypes, hn, ht, Iff.rfl, Iff.rfl⟩
          · simp at h3

/-- C17, as stated, fails: `new_struct_type(Foo, A, (), (x, x))`, then
`new_type_constructor((), st)`, then `new_struct_fields(tc, (Int32,))` all
succeed, and the struct type then has the field names `(x, x)`, with a
duplicate, and the single field type `Int32`, one fewer than the names. -/
theorem struct_names_types_counterexample :
    (jl_f_new_struct_type demoRuntime2 demoGlobals
      [.obj 52, .obj 30, .tuple 1 [], .tuple 500 [.obj 50, .obj 50]] demoWorld).1
      = .ok (.obj 1000) ∧
    (jl_f_new_type_constructor demoRuntime2 demoGlobals [.tuple 1 [], .obj 1000]
      (jl_f_new_struct_type demoRuntime2 demoGlobals
        [.obj 52, .obj 30, .tuple 1 [], .tuple 500 [.obj 50, .obj 50]] demoWorld).2).1
      = .ok (.obj 1001) ∧
    (jl_f_new_struct_fields demoRuntime2 demoGlobals [.obj 1001, .tuple 501 [.obj 23]]
      (jl_f_new_type_constructor demoRuntime2 demoGlobals [.tuple 1 [], .obj 1000]
        (jl_f_new_struct_type demoRuntime2 demoGlobals
          [.obj 52, .obj 30, .tuple 1 [], .tuple 500 [.obj 50, .obj 50]] demoWorld).2).2).1
      = .ok (.tuple 1 []) ∧
    struct_names (jl_f_new_struct_fields demoRuntime2 demoGlobals
      [.obj 1001, .tuple 501 [.obj 23]]
      (jl_f_new_type_constructor demoRuntime2 demoGlobals [.tuple 1 [], .obj 1000]
        (jl_f_new_struct_type demoRuntime2 demoGlobals
          [.obj 52, .obj 30, .tuple 1 [], .tuple 500 [.obj 50, .obj 50]] demoWorld).2).2).2 1000
      = some [.obj 50, .obj 50] ∧
    struct_types (jl_f_new_struct_fields demoRuntime2 demoGlobals
      [.obj 1001, .tuple 501 [.obj 23]]
      (jl_f_new_type_constructor demoRuntime2 demoGlobals [.tuple 1 [], .obj 1000]
        (jl_f_new_struct_type demoRuntime2 demoGlobals
          [.obj 52, .obj 30, .tuple 1 [], .tuple 500 [.obj 50, .obj 50]] demoWorld).2).2).2 1000
      = some (some [.obj 23]) ∧
    ¬ [Value.obj 50, Value.obj 50].Nodup ∧
    [Value.obj 50, Value.obj 50].length ≠ [Value.obj 23].length := by
  decide

theorem demoWorld_wf : demoWorld.wf := by
  intro b hb
  have h : (1000 : Nat) ≤ b := hb
  have h1 : b ≠ 210 := fun e => by rw [e] at h; exact absurd h (by decide)
  have h2 : b ≠ 230 := fun e => by rw [e] at h; exact absurd h (by decide)
  have h3 : b ≠ 231 := fun e => by rw [e] at h; exact absurd h (by decide)
  have h4 : b ≠ 232 := fun e => by rw [e] at h; exact absurd h (by decide)
  have h5 : b ≠ 80 := fun e => by rw [e] at h; exact absurd h (by decide)
  have h6 : b ≠ 81 := fun e => by rw [e] at h; exact absurd h (by decide)
  have h7 : b ≠ 82 := fun e => by rw [e] at h; exact absurd h (by decide)
  simp [demoWorld, h1, h2, h3, h4, h5, h6, h7]

/-- Witness of C17 (amended): `new_struct_type(Foo, A, (), (x, y))`, then
`new_type_constructor((), st)`, then `new_struct_fields(tc, (Int32, Float64))`. -/
theorem struct_names_types_unchecked_witness :
    demoWorld.wf ∧
    struct_names (jl_f_new_struct_fields demoRuntime2 demoGlobals
      [.obj 1001, .tuple 501 [.obj 23, .obj 24]]
      (jl_f_new_type_constructor demoRuntime2 demoGlobals [.tuple 1 [], .obj 1000]
        (jl_f_new_struct_type demoRuntime2 demoGlobals
          [.obj 52, .obj 30, .tuple 1 [], .tuple 500 [.obj 50, .obj 51]] demoWorld).2).2).2
      (Value.addr (.obj 1000)) = some [.obj 50, .obj 51] :=
  ⟨demoWorld_wf,
    (struct_names_types_unchecked demoRuntime2 demoGlobals demoWorld
      (jl_f_new_struct_type demoRuntime2 demoGlobals
        [.obj 52, .obj 30, .tuple 1 [], .tuple 500 [.obj 50, .obj 51]] demoWorld).2
      (jl_f_new_type_constructor demoRuntime2 demoGlobals [.tuple 1 [], .obj 1000]
        (jl_f_new_struct_type demoRuntime2 demoGlobals
          [.obj 52, .obj 30, .tuple 1 [], .tuple 500 [.obj 50, .obj 51]] demoWorld).2).2
      (jl_f_new_struct_fields demoRuntime2 demoGlobals
        [.obj 1001, .tuple 501 [.obj 23, .obj 24]]
        (jl_f_new_type_constructor demoRuntime2 demoGlobals [.tuple 1 [], .obj 1000]
          (jl_f_new_struct_type demoRuntime2 demoGlobals
            [.obj 52, .obj 30, .tuple 1 [], .tuple 500 [.obj 50, .obj 51]] demoWorld).2).2).2
      (.obj 52) (.obj 30) (.obj 1000) (.obj 1001) (.tuple 1 []) [] [.obj 50, .obj 51] []
      [.obj 23, .obj 24] 1 500 1 501 (by decide) demoWorld_wf (by decide)
      (Prod.ext (by decide) rfl) (Prod.ext (by decide) rfl) (Prod.ext (by decide) rfl)).1⟩

theorem jl_f_union_single (R : Runtime) (G : Globals) (x : Value) (w : World) :
    jl_f_union R G [x] w = (.ok x, w) := rfl

/-- C18, evaluated at the failing input: `Union` applied to the single argument
`Int32(1)`, a value that is no type, no type variable and no type constructor,
returns that value and raises nothing, whereas the same value as the second of
two arguments raises "invalid union type". -/
theorem union_single_argument_unchecked :
    demoGlobals.jl_is_type (.bits 300 23 1) = false ∧
    jl_is_typevar_w demoRuntime2 demoGlobals demoWorld (.bits 300 23 1) = false ∧
    jl_is_typector_w demoRuntime2 demoGlobals demoWorld (.bits 300 23 1) = false ∧
    (jl_f_union demoRuntime2 demoGlobals [.bits 300 23 1] demoWorld).1
      = .ok (.bits 300 23 1) ∧
    (jl_f_union demoRuntime2 demoGlobals [.obj 23, .bits 300 23 1] demoWorld).1
      = .error .invalidUnionType := by
  decide

/-! ## Properties of `jl_print_to_string` and `jl_load` -/

/-- C19: whatever the printer and the interpreter do to the process-wide state,
and whether they return or raise: after `jl_print_to_string` the globals
`current_output_stream` and `CurrentExceptionHandler` have their values at
entry, after `jl_load` the global `CurrentExceptionHandler` has its value at
entry, and each function is left by `return` when its body returned and by a
jump to the handler that was current at entry when its body raised (or, for
`jl_load`, when the file could not be opened). -/
theorem unwind_restores_globals (jl_print interpret : Value → PState → Bool × PState)
    (dest handler : Addr) (v : Value) (ast : Option (List Form)) (p : PState) :
    (jl_print_to_string jl_print dest handler v p).2.2.current_output_stream
      = p.current_output_stream ∧
    (jl_print_to_string jl_print dest handler v p).2.2.CurrentExceptionHandler
      = p.CurrentExceptionHandler ∧
    (jl_print_to_string jl_print dest handler v p).1
      = (if (jl_print v
            { current_output_stream := dest
              CurrentExceptionHandler := handler
              streams := fun a => if a = dest then [] else p.streams a }).1
         then .raised p.CurrentExceptionHandler else .returned) ∧
    (jl_load interpret handler ast p).2.CurrentExceptionHandler = p.CurrentExceptionHandler ∧
    (jl_load interpret handler ast p).1
      = (match ast with
         | none => .raised p.CurrentExceptionHandler
         | some forms =>
           if (jl_load_loop interpret forms
              { current_output_stream := p.current_output_stream
                CurrentExceptionHandler := handler
                streams := p.streams }).1
           then .raised p.CurrentExceptionHandler else .returned) := by
  refine ⟨?_, ?_, ?_, ?_, ?_⟩
  · unfold jl_print_to_string
    split <;> rfl
  · unfold jl_print_to_string
    split <;> rfl
  · unfold jl_print_to_string
    split <;> simp_all
  · unfold jl_load
    cases ast with
    | none => rfl
    | some forms =>
      simp only []
      split <;> rfl
  · unfold jl_load
    cases ast with
    | none => rfl
    | some forms =>
      simp only []
      split <;> simp_all

/-! ## Properties of `print_tuple` -/

theorem print_tuple_loop_many (pr : Printer) (n : Nat) (hn : n ≠ 1) :
    ∀ (rest : List Value) (i : Nat) (out : List Char), i + rest.length = n →
    (∀ e ∈ rest, (pr e).2 = false) →
    print_tuple_loop pr n true i rest out
      = (false, out ++ comma_separated (rest.map (fun e => (pr e).1))) := by
  intro rest
  induction rest with
  | nil => intro i out _ _; simp [print_tuple_loop, comma_separated]
  | cons e rest ih =>
    intro i out hlen hpr
    have he : (pr e).2 = false := hpr e (List.mem_cons_self _ _)
    have hrest : ∀ x ∈ rest, (pr x).2 = false := fun x hx => hpr x (List.mem_cons_of_mem _ hx)
    have hn1 : (n == 1) = false := by simpa using hn
    rw [print_tuple_loop]
    simp only [he, Bool.false_eq_true, if_false, hn1, Bool.false_and, Bool.or_false,
      decide_eq_true_eq]
    cases rest with
    | nil =>
      have hi : ¬ i < n - 1 := by
        simp only [List.length_cons, List.length_nil] at hlen
        omega
      simp [hi, print_tuple_loop, comma_separated]
    | cons y r =>
      have hi : i < n - 1 := by
        simp only [List.length_cons] at hlen
        omega
      rw [if_pos hi, ih (i + 1) _ (by simp only [List.length_cons] at hlen ⊢; omega) hrest]
      simp [comma_separated]

/-- C20: for every tuple value whose elements print without raising,
`jl_f_print_any` writes `(`, the printed elements separated by single commas, a
comma more exactly when there is one element, and `)`. -/
theorem print_tuple_format (pr : Printer) (others : Value → List Char → Bool × List Char)
    (a : Addr) (elems : List Value) (out : List Char)
    (h : ∀ e ∈ elems, (pr e).2 = false) :
    jl_f_print_any pr others (.tuple a elems) out
      = (false, out ++ ['('] ++ comma_separated (elems.map (fun e => (pr e).1)) ++
          (if elems.length = 1 then [','] else []) ++ [')']) := by
  by_cases h1 : elems.length = 1
  · obtain ⟨e, rfl⟩ := List.length_eq_one.mp h1
    have he : (pr e).2 = false := h e (List.mem_cons_self _ _)
    simp [jl_f_print_any, print_tuple, print_tuple_loop, he, comma_separated]
  · simp only [jl_f_print_any, print_tuple]
    rw [print_tuple_loop_many pr elems.length h1 elems 0 _ (by simp) h]
    simp [h1]

/-- Witness of C20: `tuple(1, 2, 3)` prints as `(1,2,3)`, `tuple(7)` as `(7,)` and
the empty tuple as `()`. -/
theorem print_tuple_format_witness :
    (∀ e ∈ [Value.bits 300 23 1, Value.bits 301 23 2, Value.bits 302 23 3],
      (demoPrinter e).2 = false) ∧
    jl_f_print_any demoPrinter (fun _ o => (true, o))
        (.tuple 500 [.bits 300 23 1, .bits 301 23 2, .bits 302 23 3]) []
      = (false, ['(', '1', ',', '2', ',', '3', ')']) ∧
    jl_f_print_any demoPrinter (fun _ o => (true, o)) (.tuple 501 [.bits 303 23 7]) []
      = (false, ['(', '7', ',', ')']) ∧
    jl_f_print_any demoPrinter (fun _ o => (true, o)) (.tuple 1 []) []
      = (false, ['(', ')']) :=
  ⟨by decide,
    (print_tuple_format demoPrinter (fun _ o => (true, o)) 500
      [.bits 300 23 1, .bits 301 23 2, .bits 302 23 3] [] (by decide)).trans (by decide),
    (print_tuple_format demoPrinter (fun _ o => (true, o)) 501 [.bits 303 23 7] []
      (by decide)).trans (by decide),
    (print_tuple_format demoPrinter (fun _ o => (true, o)) 1 [] [] (by decide)).trans
      (by decide)⟩

/-! ## Properties of the print functions -/

/-- C21, evaluated at the failing input: the instance of the struct type `Foo`
with the two fields `Int32(1)` and `Float64(2)` is printed as the bytes `Foo(1,`,
a zero byte, `2)`: the call `ios_write(s, ",", 2)` writes two bytes between the
fields, the comma and the zero byte that ends the string literal.  The output
is not `Foo(1,2)`, whereas the tuple of the same two values is printed as
`(1,2)`. -/
theorem struct_print_separator_bytes :
    jl_f_print_any demoPrinter
        (print_any_rest demoRuntime2 demoGlobals demoWorld demoPrintEnv demoPrinter
          raising_printer raising_printer) (.obj 210) []
      = (false, ['F', 'o', 'o', '(', '1', ',', Char.ofNat 0, '2', ')']) ∧
    jl_f_print_any demoPrinter
        (print_any_rest demoRuntime2 demoGlobals demoWorld demoPrintEnv demoPrinter
          raising_printer raising_printer) (.obj 210) []
      ≠ (false, ['F', 'o', 'o', '(', '1', ',', '2', ')']) ∧
    jl_f_print_any demoPrinter
        (print_any_rest demoRuntime2 demoGlobals demoWorld demoPrintEnv demoPrinter
          raising_printer raising_printer) (.tuple 5 [.bits 300 23 1, .bits 301 24 2]) []
      = (false, ['(', '1', ',', '2', ')']) := by decide

/-- C22, as stated, fails: for the finite non-zero value `1e10` and a formatter
that answers the exponent form `1e+10`, `print_float64` emits `1e+10` as it is,
a text without a decimal point. -/
theorem print_float64_exponent_counterexample :
    DFINITE ⟨false, 1056, 739280372629504⟩ = true ∧
    Double.isZero ⟨false, 1056, 739280372629504⟩ = false ∧
    print_float64 (fun _ _ => ['1', 'e', '+', '1', '0']) ⟨false, 1056, 739280372629504⟩ false []
      = ['1', 'e', '+', '1', '0'] ∧
    '.' ∉ print_float64 (fun _ _ => ['1', 'e', '+', '1', '0']) ⟨false, 1056, 739280372629504⟩
      false [] := by decide

/-- C22 (amended): for every finite value and whatever string the formatter
returns: for a non-zero value `print_float64` emits that string, followed by `.0`
exactly when the string holds none of the characters `.`, `e`, `E`, so that the
text emitted always holds a decimal point or an exponent marker; zero is printed
as `0.0` and negative zero as `-0.0`. -/
theorem print_float64_decimal_mark (snprint_real : Double → Nat → List Char) (d : Double) (single : Bool)
    (out : List Char) (hfin : DFINITE d = true) :
    (d.isZero = false →
      print_float64 snprint_real d single out
        = out ++ snprint_real d (if single then 8 else 16) ++
            (if (snprint_real d (if single then 8 else 16)).any decimal_mark then []
             else ['.', '0']) ∧
      ∃ c ∈ snprint_real d (if single then 8 else 16) ++
            (if (snprint_real d (if single then 8 else 16)).any decimal_mark then []
             else ['.', '0']), decimal_mark c = true) ∧
    (d.isZero = true → d.sign = false →
      print_float64 snprint_real d single out = out ++ ['0', '.', '0']) ∧
    (d.isZero = true → d.sign = true →
      print_float64 snprint_real d single out = out ++ ['-', '0', '.', '0']) := by
  refine ⟨?_, ?_, ?_⟩
  · intro hz
    constructor
    · unfold print_float64
      simp only [hfin, hz, Bool.not_true, Bool.false_eq_true, if_false]
      by_cases hm : (snprint_real d (if single then 8 else 16)).any decimal_mark = true
      · have hm2 : (snprint_real d (if single then 8 else 16)).any
            (fun c => c == '.' || c == 'e' || c == 'E') = true := hm
        rw [if_pos hm]
        simp only [hm2, Bool.not_true, Bool.false_eq_true, if_false, List.append_nil]
      · have hm2 : (snprint_real d (if single then 8 else 16)).any
            (fun c => c == '.' || c == 'e' || c == 'E') = false :=
          Bool.eq_false_iff.mpr hm
        rw [if_neg hm]
        simp only [hm2, Bool.not_false, if_true]
        simp [List.append_assoc]
    · by_cases hm : (snprint_real d (if single then 8 else 16)).any decimal_mark = true
      · rw [if_pos hm]
        obtain ⟨c, hc, hcm⟩ := List.any_eq_true.mp hm
        exact ⟨c, by simpa using hc, hcm⟩
      · rw [if_neg hm]
        exact ⟨'.', by simp, by decide⟩
  · intro hz hs
    unfold print_float64
    simp only [hfin, hz, hs, Bool.not_true, Bool.false_eq_true, if_false, if_true]
    rfl
  · intro hz hs
    unfold print_float64
    simp only [hfin, hz, hs, Bool.not_true, Bool.false_eq_true, if_false, if_true]
    rfl

/-- Witness of C22: the value `1.0` with a formatter that answers `1` is printed
as `1.0`, positive zero as `0.0`. -/
theorem print_float64_decimal_mark_witness :
    DFINITE ⟨false, 1023, 0⟩ = true ∧
    print_float64 (fun _ _ => ['1']) ⟨false, 1023, 0⟩ false [] = ['1', '.', '0'] ∧
    print_float64 (fun _ _ => ['1']) ⟨false, 0, 0⟩ false [] = ['0', '.', '0'] :=
  ⟨by decide,
    ((print_float64_decimal_mark (fun _ _ => ['1']) ⟨false, 1023, 0⟩ false [] (by decide)).1
      (by decide)).1.trans (by decide),
    (print_float64_decimal_mark (fun _ _ => ['1']) ⟨false, 0, 0⟩ false [] (by decide)).2.1
      (by decide) (by decide)⟩

/-- C23, as stated, fails: a value of a bits type of 24 bits that has no print
method of its own reaches `print_uint` with the width 24, which raises "print:
unsupported integer size"; the print does not succeed and nothing is written. -/
theorem print_bits_width_counterexample :
    jl_is_bits_type_w demoRuntime3 demoGlobals demoWorld (.obj 59) = true ∧
    (demoRuntime3.fields 59).nbits = 24 ∧
    print_uint 255 24 [] = .error .unsupportedIntegerSize ∧
    jl_f_print_any demoPrinter
        (print_any_rest demoRuntime3 demoGlobals demoWorld demoPrintEnv demoPrinter
          raising_printer raising_printer) (.bits 5 59 255) []
      = (true, []) := by decide

/-- C23 (amended): for every instance of a bits type other than the type of the
intrinsic functions that reaches `jl_f_print_any` (it is no type and no
function): when the declared width is 8, 16, 32 or 64 the print succeeds and
writes the decimal digits, without sign, of the payload read as an unsigned
integer of that width; for any other width `print_uint` raises "print:
unsupported integer size" and nothing is written. -/
theorem print_bits_fallback (R : Runtime) (G : Globals) (w : World) (P : PrintEnv) (pr : Printer)
    (print_type print_function : Value → List Char → Bool × List Char)
    (a t d : Nat) (out : List Char)
    (htype : G.jl_is_type (.bits a t d) = false)
    (hfunc : P.jl_is_func (.bits a t d) = false)
    (hintr : t ≠ P.jl_intrinsic_type)
    (hbits : jl_is_bits_type_w R G w (.obj t) = true) :
    (((R.fields t).nbits = 8 ∨ (R.fields t).nbits = 16 ∨ (R.fields t).nbits = 32 ∨
        (R.fields t).nbits = 64) →
      print_uint d (R.fields t).nbits out
        = .ok (out ++ Nat.toDigits 10 (d % 2 ^ (R.fields t).nbits)) ∧
      jl_f_print_any pr (print_any_rest R G w P pr print_type print_function) (.bits a t d) out
        = (false, out ++ Nat.toDigits 10 (d % 2 ^ (R.fields t).nbits))) ∧
    (¬ ((R.fields t).nbits = 8 ∨ (R.fields t).nbits = 16 ∨ (R.fields t).nbits = 32 ∨
        (R.fields t).nbits = 64) →
      print_uint d (R.fields t).nbits out = .error .unsupportedIntegerSize ∧
      jl_f_print_any pr (print_any_rest R G w P pr print_type print_function) (.bits a t d) out
        = (true, out)) := by
  have hi : jl_typeis_w R G w (.bits a t d) P.jl_intrinsic_type = false := by
    simp [jl_typeis_w, jl_typeof_w, hintr]
  have hb : jl_is_bits_type_w R G w (jl_typeof_w R G w (.bits a t d)) = true := hbits
  constructor
  · intro h
    have hu : print_uint d (R.fields t).nbits out
        = .ok (out ++ Nat.toDigits 10 (d % 2 ^ (R.fields t).nbits)) := by
      rcases h with h | h | h | h <;> rw [h] <;> simp [print_uint]
    refine ⟨hu, ?_⟩
    simp only [jl_f_print_any, print_any_rest, htype, hfunc, hi, hb, hu, Bool.false_eq_true,
      if_false, if_true]
  · intro h
    have hu : print_uint d (R.fields t).nbits out = .error .unsupportedIntegerSize := by
      have h1 : (R.fields t).nbits ≠ 8 := fun e => h (Or.inl e)
      have h2 : (R.fields t).nbits ≠ 16 := fun e => h (Or.inr (Or.inl e))
      have h3 : (R.fields t).nbits ≠ 32 := fun e => h (Or.inr (Or.inr (Or.inl e)))
      have h4 : (R.fields t).nbits ≠ 64 := fun e => h (Or.inr (Or.inr (Or.inr e)))
      simp [print_uint, h1, h2, h3, h4]
    refine ⟨hu, ?_⟩
    simp only [jl_f_print_any, print_any_rest, htype, hfunc, hi, hb, hu, Bool.false_eq_true,
      if_false, if_true]

/-- Witness of C23: the payload `0xFF` of a bits type of 8 bits is printed as
`255`. -/
theorem print_bits_fallback_witness :
    print_uint 255 8 [] = .ok ['2', '5', '5'] ∧
    jl_f_print_any demoPrinter
        (print_any_rest demoRuntime2 demoGlobals demoWorld demoPrintEnv demoPrinter
          raising_printer raising_printer) (.bits 5 46 255) []
      = (false, ['2', '5', '5']) :=
  have h := (print_bits_fallback demoRuntime2 demoGlobals demoWorld demoPrintEnv demoPrinter
    raising_printer raising_printer 5 46 255 [] (by decide) (by decide) (by decide)
    (by decide)).1 (Or.inl (by decide))
  ⟨h.1.trans (by decide), h.2.trans (by decide)⟩

/-! ## Further properties of `bigger_type` and `jl_f_promote` -/

theorem is_type_bigger_error (bt : Addr → Addr → BT) (a b : Value) (e : BT)
    (h : is_type_bigger bt a b = .error e) : e = .timeout ∨ e = .fault := by
  unfold is_type_bigger at h
  cases hb : bt a.addr b.addr <;> rw [hb] at h <;> simp at h
  · exact Or.inl h.symm
  · exact Or.inr h.symm

theorem bigger_type_params_side (R : Runtime) (bt : Addr → Addr → BT) (t1_ t2_ : Addr) :
    ∀ (ps1 ps2 : List Value) (winner : Option Addr) (t : Addr),
    (winner = none ∨ winner = some t1_ ∨ winner = some t2_) →
    bigger_type_params R bt t1_ t2_ ps1 ps2 winner = .type t → t = t1_ ∨ t = t2_ := by
  intro ps1
  induction ps1 with
  | nil =>
    intro ps2 winner t hw h
    rcases hw with hw | hw | hw <;> subst hw <;> simp [bigger_type_params] at h
    · exact Or.inl h.symm
    · exact Or.inl h.symm
    · exact Or.inr h.symm
  | cons p1 r1 ih =>
    intro ps2 winner t hw h
    cases ps2 with
    | nil => simp [bigger_type_params] at h
    | cons p2 r2 =>
      rw [bigger_type_params] at h
      split at h
      · exact ih r2 winner t hw h
      · split at h
        · cases h1 : is_type_bigger bt p1 p2 with
          | error e =>
            rw [h1] at h
            rcases is_type_bigger_error bt p1 p2 e h1 with he | he <;> subst he <;> simp at h
          | ok b =>
            rw [h1] at h
            cases b with
            | true =>
              simp only at h
              split at h
              · simp at h
              · exact ih r2 (some t1_) t (Or.inr (Or.inl rfl)) h
            | false =>
              simp only at h
              cases h2 : is_type_bigger bt p2 p1 with
              | error e =>
                rw [h2] at h
                rcases is_type_bigger_error bt p2 p1 e h2 with he | he <;> subst he <;> simp at h
              | ok b2 =>
                rw [h2] at h
                cases b2 with
                | true =>
                  simp only at h
                  split at h
                  · simp at h
                  · exact ih r2 (some t2_) t (Or.inr (Or.inr rfl)) h
                | false => simp at h
        · simp at h

theorem bigger_type_walk_side (R : Runtime) (bt : Addr → Addr → BT) (t1_ t2_ : Addr) :
    ∀ (n : Nat) (t1 t2 t : Addr),
    bigger_type_walk R bt t1_ t2_ n t1 t2 = .type t → t = t1_ ∨ t = t2_ := by
  intro n
  induction n with
  | zero => intro t1 t2 t h; simp [bigger_type_walk] at h
  | succ n ih =>
    intro t1 t2 t h
    rw [bigger_type_walk] at h
    split at h
    · split at h
      · simp at h; exact Or.inl h.symm
      · simp at h
    · split at h
      · simp at h; exact Or.inr h.symm
      · split at h
        · exact bigger_type_params_side R bt t1_ t2_ _ _ none t (Or.inl rfl) h
        · split at h
          · simp at h; exact Or.inr h.symm
          · split at h
            · simp at h; exact Or.inl h.symm
            · exact ih _ _ t h

theorem bigger_type_side (R : Runtime) (n : Nat) (t1 t2 t : Addr)
    (h : bigger_type R n t1 t2 = .type t) : t = t1 ∨ t = t2 := by
  cases n with
  | zero => simp [bigger_type] at h
  | succ n =>
    rw [bigger_type] at h
    split at h
    · simp at h; exact Or.inl h.symm
    · split at h
      · split at h
        · simp at h; exact Or.inl h.symm
        · split at h
          · simp at h; exact Or.inr h.symm
          · simp at h
      · exact bigger_type_walk_side R _ t1 t2 _ _ _ t h

theorem promote_fold_side (R : Runtime) (fuel : Nat) :
    ∀ (rest : List Value) (t u : Addr), promote_fold R fuel t rest = .type u →
      u = t ∨ ∃ x ∈ rest, u = (jl_typeof R.toHeap x).addr := by
  intro rest
  induction rest with
  | nil => intro t u h; simp [promote_fold] at h; exact Or.inl h.symm
  | cons a rest ih =>
    intro t u h
    rw [promote_fold] at h
    cases hb : bigger_type R fuel t (jl_typeof R.toHeap a).addr with
    | type v =>
      rw [hb] at h
      simp only at h
      rcases ih v u h with e | ⟨x, hx, e⟩
      · subst e
        rcases bigger_type_side R fuel _ _ _ hb with e2 | e2
        · exact Or.inl e2
        · exact Or.inr ⟨a, List.mem_cons_self _ _, e2⟩
      · exact Or.inr ⟨x, List.mem_cons_of_mem _ hx, e⟩
    | timeout => rw [hb] at h; simp at h
    | fault => rw [hb] at h; simp at h
    | null => rw [hb] at h; simp at h

/-- C24: `bigger_type` never invents a type: whenever `bigger_type(t1, t2)` is a
type it is `t1` or `t2`; consequently `promote` of two or more arguments, when
it answers, either raises one of its own errors before any conversion or
converts every argument to `typeof(x)` for one of the arguments `x`. -/
theorem bigger_type_never_invents (R : Runtime) (fuel : Nat) :
    (∀ t1 t2 t, bigger_type R fuel t1 t2 = .type t → t = t1 ∨ t = t2) ∧
    (∀ a0 a1 rest s r, jl_f_promote R fuel (a0 :: a1 :: rest) s = some r →
      r = (.error .promotionNotApplicable, s) ∨ r = (.error .fault, s) ∨
      r = (.error .noCommonEmbedding, s) ∨
      ∃ x ∈ a0 :: a1 :: rest,
        r = match promote_convert R (.obj (jl_typeof R.toHeap x).addr) (a0 :: a1 :: rest)
              (jl_alloc_tuple s).2 with
            | (.error e, s1) => (.error e, s1)
            | (.ok vs, s1) => (.ok (.tuple (jl_alloc_tuple s).1 vs), s1)) := by
  refine ⟨fun t1 t2 t h => bigger_type_side R fuel t1 t2 t h, ?_⟩
  intro a0 a1 rest s r h
  rw [jl_f_promote] at h
  split at h
  · exact Or.inl (Option.some.inj h).symm
  · cases hb : bigger_type R fuel (jl_typeof R.toHeap a0).addr (jl_typeof R.toHeap a1).addr with
    | timeout => rw [hb] at h; simp at h
    | fault => rw [hb] at h; exact Or.inr (Or.inl (Option.some.inj h).symm)
    | null => rw [hb] at h; exact Or.inr (Or.inr (Or.inl (Option.some.inj h).symm))
    | type t0 =>
      rw [hb] at h
      simp only at h
      cases hf : promote_fold R fuel t0 rest with
      | timeout => rw [hf] at h; simp at h
      | fault => rw [hf] at h; exact Or.inr (Or.inl (Option.some.inj h).symm)
      | null => rw [hf] at h; exact Or.inr (Or.inr (Or.inl (Option.some.inj h).symm))
      | type t =>
        rw [hf] at h
        simp only at h
        have ht : ∃ x ∈ a0 :: a1 :: rest, t = (jl_typeof R.toHeap x).addr := by
          rcases promote_fold_side R fuel rest t0 t hf with e | ⟨x, hx, e⟩
          · subst e
            rcases bigger_type_side R fuel _ _ _ hb with e2 | e2
            · exact ⟨a0, by simp, e2⟩
            · exact ⟨a1, by simp, e2⟩
          · exact ⟨x, by simp [hx], e⟩
        obtain ⟨x, hx, e⟩ := ht
        refine Or.inr (Or.inr (Or.inr ⟨x, hx, ?_⟩))
        rw [← e]
        cases hp : promote_convert R (.obj t) (a0 :: a1 :: rest) (jl_alloc_tuple s).2 with
        | mk res s1 =>
          rw [hp] at h
          cases res with
          | error e1 => exact (Option.some.inj h).symm
          | ok vs => exact (Option.some.inj h).symm

/-- Witness of C24: `bigger_type(Complex{Int32}, Complex{Float64})` is the second
argument, and `promote(Int32(1), Float64(2))` converts both arguments to
`Float64`, the type of the second. -/
theorem bigger_type_never_invents_witness :
    bigger_type demoRuntime 2 26 27 = .type 27 ∧ ((27 : Addr) = 26 ∨ (27 : Addr) = 27) ∧
    jl_f_promote demoRuntime 3 [.bits 300 23 1, .bits 301 24 2] ⟨1000, []⟩
      = some (.ok (.tuple 1000 [.bits 1001 24 1, .bits 301 24 2]),
          ⟨1002, [(60, [.bits 300 23 1])]⟩) ∧
    ((.ok (.tuple 1000 [.bits 1001 24 1, .bits 301 24 2]), ⟨1002, [(60, [.bits 300 23 1])]⟩)
        = ((.error .promotionNotApplicable, ⟨1000, []⟩) : Result) ∨
      (.ok (.tuple 1000 [.bits 1001 24 1, .bits 301 24 2]), ⟨1002, [(60, [.bits 300 23 1])]⟩)
        = ((.error .fault, ⟨1000, []⟩) : Result) ∨
      (.ok (.tuple 1000 [.bits 1001 24 1, .bits 301 24 2]), ⟨1002, [(60, [.bits 300 23 1])]⟩)
        = ((.error .noCommonEmbedding, ⟨1000, []⟩) : Result) ∨
      ∃ x ∈ [Value.bits 300 23 1, Value.bits 301 24 2],
        ((.ok (.tuple 1000 [.bits 1001 24 1, .bits 301 24 2]),
            ⟨1002, [(60, [.bits 300 23 1])]⟩) : Result)
          = match promote_convert demoRuntime (.obj (jl_typeof demoRuntime.toHeap x).addr)
                [.bits 300 23 1, .bits 301 24 2] (jl_alloc_tuple ⟨1000, []⟩).2 with
            | (.error e, s1) => (.error e, s1)
            | (.ok vs, s1) => (.ok (.tuple (jl_alloc_tuple ⟨1000, []⟩).1 vs), s1)) :=
  ⟨by decide, (bigger_type_never_invents demoRuntime 2).1 26 27 27 (by decide), by decide,
    (bigger_type_never_invents demoRuntime 3).2 (.bits 300 23 1) (.bits 301 24 2) []
      ⟨1000, []⟩ _ (by decide)⟩

/-- C25, evaluated at the failing input: `Int32` and `Complex{Int32}` are distinct
types directly below `Number`, neither more specific than the other.  After one
hop both walks stand on `Number`, the names match, no parameter picks a winner,
and `bigger_type` returns its first argument: `bigger_type(Int32,
Complex{Int32})` is `Int32` and `bigger_type(Complex{Int32}, Int32)` is
`Complex{Int32}`, whatever the bound on the number of steps. -/
theorem bigger_type_order_dependent (n : Nat) : bigger_type demoRuntime (n + 2) 23 26 = .type 23 ∧
    bigger_type demoRuntime (n + 2) 26 23 = .type 26 :=
  ⟨(bigger_type_mono demoRuntime 2 (n + 2) 23 26 (by omega) (by decide)).trans (by decide),
   (bigger_type_mono demoRuntime 2 (n + 2) 26 23 (by omega) (by decide)).trans (by decide)⟩

theorem bigger_type_self_timeout : ∀ n, bigger_type selfRuntime n 90 91 = .timeout := by
  intro n
  induction n with
  | zero => rfl
  | succ n ih =>
    have h1 : bigger_type selfRuntime (n + 1) 90 91
        = bigger_type_walk selfRuntime (bigger_type selfRuntime n) 90 91 (n + 1) 90 91 := by
      rw [bigger_type]
      have e1 : ((90 : Addr) == 91) = false := by decide
      have e2 : (jl_is_bits_type selfRuntime.toHeap (.obj 90) &&
          jl_is_bits_type selfRuntime.toHeap (.obj 91)) = false := by decide
      simp only [e1, e2, Bool.false_eq_true, if_false]
    rw [h1]
    cases n with
    | zero =>
      show bigger_type_walk selfRuntime (bigger_type selfRuntime 0) 90 91 1 90 91 = .timeout
      have : bigger_type selfRuntime 0 = fun _ _ => .timeout := by funext a b; rfl
      rw [this]; decide
    | succ m =>
      have hbt : ∀ bt : Addr → Addr → BT, bt 90 91 = .timeout →
          bigger_type_walk selfRuntime bt 90 91 (m + 2) 90 91 = .timeout := by
        intro bt hbt
        have s1 : bigger_type_walk selfRuntime bt 90 91 (m + 2) 90 91
            = bigger_type_walk selfRuntime bt 90 91 (m + 1) 92 93 := by
          rw [bigger_type_walk]
          have c1 : ((90 : Addr) == selfRuntime.jl_any_type) = false := by decide
          have c2 : ((91 : Addr) == selfRuntime.jl_any_type) = false := by decide
          have c3 : ((selfRuntime.fields 90).name == (selfRuntime.fields 91).name) = false := by
            decide
          have c4 : selfRuntime.jl_type_morespecific (.obj 90) (.obj 91) false false = false := by
            decide
          have c5 : selfRuntime.jl_type_morespecific (.obj 91) (.obj 90) false false = false := by
            decide
          have c6 : (selfRuntime.fields 90).super = 92 := by decide
          have c7 : (selfRuntime.fields 91).super = 93 := by decide
          simp only [c1, c2, c3, c4, c5, c6, c7, Bool.false_eq_true, if_false]
        rw [s1, bigger_type_walk]
        have c1 : ((92 : Addr) == selfRuntime.jl_any_type) = false := by decide
        have c2 : ((93 : Addr) == selfRuntime.jl_any_type) = false := by decide
        have c3 : ((selfRuntime.fields 92).name == (selfRuntime.fields 93).name) = true := by
          decide
        have c4 : (selfRuntime.fields 92).parameters = [.obj 90] := by decide
        have c5 : (selfRuntime.fields 93).parameters = [.obj 91] := by decide
        simp only [c1, c2, c3, c4, c5, Bool.false_eq_true, if_false, if_true]
        rw [bigger_type_params]
        have d1 : selfRuntime.jl_types_equal (.obj 90) (.obj 91) = false := by decide
        have d2 : (jl_is_some_tag_type selfRuntime.toHeap (.obj 90) &&
            jl_is_some_tag_type selfRuntime.toHeap (.obj 91)) = true := by decide
        have d3 : is_type_bigger bt (.obj 90) (.obj 91) = .error .timeout := by
          simp [is_type_bigger, Value.addr, hbt]
        simp only [d1, d2, d3, Bool.false_eq_true, if_false, if_true]
      exact hbt _ ih

/-- C26, evaluated at the failing input: the struct types `S1` and `S2` reach `Any`
in two hops, through the supers `Number{S1}` and `Number{S2}`.  On these supers
the names match, the parameters `S1` and `S2` are compared by `is_type_bigger`,
which calls `bigger_type(S1, S2)` again: no bound on the number of steps is
enough for `bigger_type(S1, S2)` to answer. -/
theorem bigger_type_self_parameterised_diverges :
    super_iter selfRuntime 2 90 = selfRuntime.jl_any_type ∧
    super_iter selfRuntime 2 91 = selfRuntime.jl_any_type ∧
    ∀ n, bigger_type selfRuntime n 90 91 = .timeout :=
  ⟨by decide, by decide, bigger_type_self_timeout⟩

/-- C8, evaluated at the failing input: `Number{S1}` (92) and `Number{S2}` (93) are
distinct types, not bits types, with the same name and one parameter each, `S1`
and `S2`, which are not type-equal.  The claim has `bigger_type` return one of
the two types or undefined; the parameters are compared by `is_type_bigger`,
which calls `bigger_type(S1, S2)`, and that call walks to the supers
`Number{S1}` and `Number{S2}` again: no bound on the number of steps is enough
for `bigger_type(Number{S1}, Number{S2})` to answer. -/
theorem bigger_type_number_self_parameters_diverges :
    (92 : Addr) ≠ 93 ∧
    jl_is_some_tag_type selfRuntime.toHeap (.obj 92) = true ∧
    jl_is_some_tag_type selfRuntime.toHeap (.obj 93) = true ∧
    (jl_is_bits_type selfRuntime.toHeap (.obj 92) &&
      jl_is_bits_type selfRuntime.toHeap (.obj 93)) = false ∧
    (selfRuntime.fields 92).name = (selfRuntime.fields 93).name ∧
    (selfRuntime.fields 92).parameters = [.obj 90] ∧
    (selfRuntime.fields 93).parameters = [.obj 91] ∧
    selfRuntime.jl_types_equal (.obj 90) (.obj 91) = false ∧
    ∀ n, bigger_type selfRuntime n 92 93 = .timeout := by
  refine ⟨by decide, by decide, by decide, by decide, by decide, by decide, by decide,
    by decide, ?_⟩
  intro n
  cases n with
  | zero => rfl
  | succ n =>
    rw [bigger_type]
    have e1 : ((92 : Addr) == 93) = false := by decide
    have e2 : (jl_is_bits_type selfRuntime.toHeap (.obj 92) &&
        jl_is_bits_type selfRuntime.toHeap (.obj 93)) = false := by decide
    simp only [e1, e2, Bool.false_eq_true, if_false]
    rw [bigger_type_walk]
    have c1 : ((92 : Addr) == selfRuntime.jl_any_type) = false := by decide
    have c2 : ((93 : Addr) == selfRuntime.jl_any_type) = false := by decide
    have c3 : ((selfRuntime.fields 92).name == (selfRuntime.fields 93).name) = true := by
      decide
    have c4 : (selfRuntime.fields 92).parameters = [.obj 90] := by decide
    have c5 : (selfRuntime.fields 93).parameters = [.obj 91] := by decide
    simp only [c1, c2, c3, c4, c5, Bool.false_eq_true, if_false, if_true]
    rw [bigger_type_params]
    have d1 : selfRuntime.jl_types_equal (.obj 90) (.obj 91) = false := by decide
    have d2 : (jl_is_some_tag_type selfRuntime.toHeap (.obj 90) &&
        jl_is_some_tag_type selfRuntime.toHeap (.obj 91)) = true := by decide
    have d3 : is_type_bigger (bigger_type selfRuntime n) (.obj 90) (.obj 91)
        = .error .timeout := by
      simp [is_type_bigger, Value.addr, bigger_type_self_timeout n]
    simp only [d1, d2, d3, Bool.false_eq_true, if_false, if_true]

/-! ## Further properties of `jl_convert` and `jl_f_set_field` -/

/-- C27, evaluated at the failing input: `convert(Float64(2), Int32)`, where
`Int32` is a bits type without conversion method and `Float64` is no subtype of
it, stops at the assertion `meth != NULL`: no method is called and the error is
no ConversionError. -/
theorem convert_unregistered_method_assert :
    jl_is_bits_type demoRuntime.toHeap (.obj 23) = true ∧
    (demoRuntime.fields 23).fconvert = none ∧
    demoRuntime.jl_subtype (jl_typeof demoRuntime.toHeap (.bits 300 24 2)) (.obj 23) false false
      = false ∧
    jl_convert demoRuntime (.bits 300 24 2) (.obj 23) ⟨1000, []⟩
      = (.error .assertFailed, ⟨1000, []⟩) ∧
    Err.isConversionError .assertFailed = false := by decide

/-- C28, as stated, fails: the conversion method of `Float64`, called with the
1-tuple holding the instance `s` of `Point`, writes the field `x` of `s` and
raises.  `setfield(s, y, (s,))` raises, and `getfield(s, x)`, which read
`Int32(1)` before the call, reads the value the method wrote. -/
theorem setfield_failure_counterexample :
    (jl_f_set_field demoMethods demoRuntime4 demoGlobals
      [.obj 210, .obj 51, .tuple 5 [.obj 210]] demoWorld4).1 = .error (.raised 0) ∧
    jl_f_get_field demoRuntime4 demoGlobals [.obj 210, .obj 50] demoWorld4
      = .ok (some (.bits 300 23 1)) ∧
    jl_f_get_field demoRuntime4 demoGlobals [.obj 210, .obj 50]
        (jl_f_set_field demoMethods demoRuntime4 demoGlobals
          [.obj 210, .obj 51, .tuple 5 [.obj 210]] demoWorld4).2
      = .ok (some (.bits 306 23 0)) := by
  decide

theorem set_field_error_world (A : Methods) (R : Runtime) (G : Globals) (args : List Value)
    (w w1 : World) (e : Err) (h : jl_f_set_field A R G args w = (.error e, w1)) :
    w1 = w ∨ ∃ v F, args.get? 2 = some v ∧ w1 = (jl_convert_w A R G v F w).2 := by
  unfold jl_f_set_field at h
  repeat' split at h
  all_goals first
    | (cases h; exact Or.inl rfl)
    | (simp at h; done)
    | (cases h; exact Or.inr ⟨_, _, rfl, (congrArg Prod.snd (by assumption)).symm⟩)

/-- C28 (amended): whenever `setfield(s, name, v)` raises, `setfield` itself has
written nothing: the world is the one before the call when the raise comes
before the conversion, and else the world that `convert(v, F)` left, `F` being
the declared type of the field.  When `s` is not a struct the error is
"argument must be a struct" and when `name` is not a field of the type of `s`
it is "type has no field", both in the world before the call; when
`convert(v, F)` raises, `setfield` raises the same error in the world the
conversion left.  When every conversion of `v` leaves the objects, arrays and
types as they were, `getfield(s, fld)` gives for every field what it gave
before the call. -/
theorem setfield_atomic_on_failure (A : Methods) (R : Runtime) (G : Globals) (w w1 : World)
    (s name v : Value) (e : Err)
    (h : jl_f_set_field A R G [s, name, v] w = (.error e, w1)) :
    (w1 = w ∨ ∃ F, w1 = (jl_convert_w A R G v F w).2) ∧
    (jl_typeis_w R G w name G.jl_sym_type = true →
      jl_is_struct_type_w R G w (jl_typeof_w R G w s) = false →
      e = .notAStruct ∧ w1 = w) ∧
    (∀ names, jl_typeis_w R G w name G.jl_sym_type = true →
      jl_is_struct_type_w R G w (jl_typeof_w R G w s) = true →
      struct_names w (jl_typeof_w R G w s).addr = some names →
      field_offset names name = none →
      e = .noField ∧ w1 = w) ∧
    (∀ names types i F e2 w2, jl_typeis_w R G w name G.jl_sym_type = true →
      jl_is_struct_type_w R G w (jl_typeof_w R G w s) = true →
      struct_names w (jl_typeof_w R G w s).addr = some names →
      field_offset names name = some i →
      struct_types w (jl_typeof_w R G w s).addr = some (some types) →
      types.get? i = some F →
      jl_convert_w A R G v F w = (.error e2, w2) →
      e = e2 ∧ w1 = w2) ∧
    ((∀ F, (jl_convert_w A R G v F w).2.obj = w.obj ∧ (jl_convert_w A R G v F w).2.arr = w.arr ∧
        (jl_convert_w A R G v F w).2.ty = w.ty) →
      w1.obj = w.obj ∧
      ∀ fld, jl_f_get_field R G [s, fld] w1 = jl_f_get_field R G [s, fld] w) := by
  have hmain : w1 = w ∨ ∃ F, w1 = (jl_convert_w A R G v F w).2 := by
    rcases set_field_error_world A R G _ w w1 e h with h1 | ⟨v2, F, hv, h1⟩
    · exact Or.inl h1
    · simp at hv
      subst hv
      exact Or.inr ⟨F, h1⟩
  refine ⟨hmain, ?_, ?_, ?_, ?_⟩
  · intro hs hn
    simp only [jl_f_set_field, List.length_cons, List.length_nil, hs, hn] at h
    simp at h
    exact ⟨h.1.symm, h.2.symm⟩
  · intro names hs hst hnames hoff
    simp only [jl_f_set_field, List.length_cons, List.length_nil, hs, hst, hnames, hoff] at h
    simp at h
    exact ⟨h.1.symm, h.2.symm⟩
  · intro names types i F e2 w2 hs hst hnames hoff htypes hF hconv
    simp only [jl_f_set_field, List.length_cons, List.length_nil, hs, hst, hnames, hoff, htypes,
      hF, hconv] at h
    simp at h
    exact ⟨h.1.symm, h.2.symm⟩
  · intro hpure
    have hw : w1.obj = w.obj ∧ w1.arr = w.arr ∧ w1.ty = w.ty := by
      rcases hmain with h1 | ⟨F, h1⟩
      · subst h1; exact ⟨rfl, rfl, rfl⟩
      · rw [h1]; exact hpure F
    refine ⟨hw.1, fun fld => ?_⟩
    have hw1 : w1 = { w with st := w1.st, ctors := w1.ctors } := by
      cases w1; cases w; simp_all
    rw [hw1]
    rfl

/-- Witness of C28: `setfield` of the field `y::Float64` of the instance at 210 to
the empty tuple raises in the conversion method, which writes nothing, and the
field still holds `Float64(2)`. -/
theorem setfield_atomic_on_failure_witness :
    (jl_f_set_field demoMethods demoRuntime4 demoGlobals [.obj 210, .obj 51, .tuple 5 []]
      demoWorld4).1 = .error (.raised 0) ∧
    ((jl_f_set_field demoMethods demoRuntime4 demoGlobals [.obj 210, .obj 51, .tuple 5 []]
        demoWorld4).2 = demoWorld4 ∨
      ∃ F, (jl_f_set_field demoMethods demoRuntime4 demoGlobals
          [.obj 210, .obj 51, .tuple 5 []] demoWorld4).2
        = (jl_convert_w demoMethods demoRuntime4 demoGlobals (.tuple 5 []) F demoWorld4).2) ∧
    jl_f_get_field demoRuntime4 demoGlobals [.obj 210, .obj 51]
        (jl_f_set_field demoMethods demoRuntime4 demoGlobals [.obj 210, .obj 51, .tuple 5 []]
          demoWorld4).2
      = .ok (some (.bits 301 24 2)) :=
  have h := setfield_atomic_on_failure demoMethods demoRuntime4 demoGlobals demoWorld4
    (jl_f_set_field demoMethods demoRuntime4 demoGlobals [.obj 210, .obj 51, .tuple 5 []]
      demoWorld4).2
    (.obj 210) (.obj 51) (.tuple 5 []) (.raised 0) (Prod.ext (by decide) rfl)
  ⟨by decide, h.1, by decide⟩

/-! ## Properties of `jl_f_arrayset` -/

theorem arrayset_out_of_range (A : Methods) (R : Runtime) (G : Globals) (w : World) (a : Addr)
    (x : JArray) (iv v : Value) (hx : w.arr a = some x)
    (hint : jl_typeis_w R G w iv R.jl_int32_type = true)
    (hge : to_size_t (wrap_int32 (jl_unbox_int32 iv - 1)) ≥ x.length) :
    jl_f_arrayset A R G [.obj a, iv, v] w = (.error .arrayOutOfRange, w) := by
  simp only [jl_f_arrayset, List.length_cons, List.length_nil, Nat.lt_irrefl, if_false,
    jl_is_array, Value.addr, hx, Option.isSome_some, Bool.not_true, Bool.false_eq_true, hint,
    hge, if_true, Nat.reduceAdd, gt_iff_lt]

theorem arrayset_conversion_error (A : Methods) (R : Runtime) (G : Globals) (w w1 : World)
    (a : Addr) (x : JArray) (iv v el : Value) (e : Err) (hx : w.arr a = some x)
    (hint : jl_typeis_w R G w iv R.jl_int32_type = true)
    (hlt : ¬ to_size_t (wrap_int32 (jl_unbox_int32 iv - 1)) ≥ x.length)
    (hel : jl_tparam0 R.toHeap (.obj x.type) = some el)
    (hconv : jl_convert_w A R G v el w = (.error e, w1)) :
    jl_f_arrayset A R G [.obj a, iv, v] w = (.error e, w1) := by
  simp only [jl_f_arrayset, List.length_cons, List.length_nil, Nat.lt_irrefl, if_false,
    jl_is_array, Value.addr, hx, Option.isSome_some, Bool.not_true, Bool.false_eq_true, hint,
    hlt, if_true, Nat.reduceAdd, gt_iff_lt, hel, hconv]

theorem arrayset_refs (A : Methods) (R : Runtime) (G : Globals) (w w1 : World) (a : Addr)
    (x x1 : JArray) (iv v el rhs : Value) (elems : List (Option Value))
    (hx : w.arr a = some x)
    (hint : jl_typeis_w R G w iv R.jl_int32_type = true)
    (hlt : ¬ to_size_t (wrap_int32 (jl_unbox_int32 iv - 1)) ≥ x.length)
    (hel : jl_tparam0 R.toHeap (.obj x.type) = some el)
    (hbits : jl_is_bits_type R.toHeap el = false)
    (hconv : jl_convert_w A R G v el w = (.ok rhs, w1))
    (hx1 : w1.arr a = some x1)
    (hdata : x1.data = .refs elems)
    (hin : to_size_t (wrap_int32 (jl_unbox_int32 iv - 1)) < elems.length) :
    jl_f_arrayset A R G [.obj a, iv, v] w
      = (.ok (.obj a),
         { w1 with
           arr := fun b =>
             if b = a then
               some ⟨x1.type, x1.length,
                 .refs (elems.set (to_size_t (wrap_int32 (jl_unbox_int32 iv - 1))) (some rhs))⟩
             else w1.arr b }) := by
  simp only [jl_f_arrayset, List.length_cons, List.length_nil, Nat.lt_irrefl, if_false,
    jl_is_array, Value.addr, hx, Option.isSome_some, Bool.not_true, Bool.false_eq_true, hint,
    hlt, if_true, Nat.reduceAdd, gt_iff_lt, hel, hconv, hbits, hx1, hdata, hin]

theorem arrayset_raw (A : Methods) (R : Runtime) (G : Globals) (w w1 : World) (a : Addr)
    (x x1 : JArray) (iv v el : Value) (ra rt rd : Nat) (elems : List Nat)
    (hx : w.arr a = some x)
    (hint : jl_typeis_w R G w iv R.jl_int32_type = true)
    (hlt : ¬ to_size_t (wrap_int32 (jl_unbox_int32 iv - 1)) ≥ x.length)
    (hel : jl_tparam0 R.toHeap (.obj x.type) = some el)
    (hbits : jl_is_bits_type R.toHeap el = true)
    (hconv : jl_convert_w A R G v el w = (.ok (.bits ra rt rd), w1))
    (hx1 : w1.arr a = some x1)
    (hdata : x1.data = .raw elems)
    (hin : to_size_t (wrap_int32 (jl_unbox_int32 iv - 1)) < elems.length) :
    jl_f_arrayset A R G [.obj a, iv, v] w
      = (.ok (.obj a),
         { w1 with
           arr := fun b =>
             if b = a then
               some ⟨x1.type, x1.length,
                 .raw (array_store elems (to_size_t (wrap_int32 (jl_unbox_int32 iv - 1)))
                   ((R.fields el.addr).nbits / 8) rd)⟩
             else w1.arr b }) := by
  simp only [jl_f_arrayset, List.length_cons, List.length_nil, Nat.lt_irrefl, if_false,
    jl_is_array, Value.addr, hx, Option.isSome_some, Bool.not_true, Bool.false_eq_true, hint,
    hlt, if_true, Nat.reduceAdd, gt_iff_lt, hel, hconv, hbits, hx1, hdata, hin]

theorem jl_arrayref_refs (R : Runtime) (G : Globals) (x : JArray) (i : Nat) (w : World)
    (el : Value) (elems : List (Option Value))
    (hel : jl_tparam0 R.toHeap (.obj x.type) = some el)
    (hbits : jl_is_bits_type R.toHeap el = false) (hdata : x.data = .refs elems) :
    jl_arrayref R G x i w
      = match elems.get? i with
        | none => (.error .fault, w)
        | some none => (.error .uninitializedReference, w)
        | some (some v) => (.ok v, w) := by
  simp only [jl_arrayref, hel, hbits, hdata, Bool.false_eq_true, if_false]

theorem jl_arrayref_raw (R : Runtime) (G : Globals) (x : JArray) (i : Nat) (w : World)
    (el : Value) (elems : List Nat)
    (hel : jl_tparam0 R.toHeap (.obj x.type) = some el)
    (hbits : jl_is_bits_type R.toHeap el = true) (hdata : x.data = .raw elems) :
    jl_arrayref R G x i w
      = match elems.get? i with
        | none => (.error .fault, w)
        | some d =>
          if el.addr == G.jl_bool_type then
            if d % 2 ^ 8 != 0 then (.ok G.jl_true, w) else (.ok G.jl_false, w)
          else
            (.ok (.bits w.st.next el.addr (d % 2 ^ (8 * ((R.fields el.addr).nbits / 8)))),
             { w with st := ⟨w.st.next + 1, w.st.calls⟩ }) := by
  simp only [jl_arrayref, hel, hbits, hdata, if_true]

theorem jl_arrayref_raw_scalar (R : Runtime) (G : Globals) (x y : JArray) (i : Nat)
    (w w1 : World) (el : Value) (elems elems1 : List Nat)
    (hel : jl_tparam0 R.toHeap (.obj x.type) = some el) (hty : y.type = x.type)
    (hbits : jl_is_bits_type R.toHeap el = true) (hdata : x.data = .raw elems)
    (hdata1 : y.data = .raw elems1) (hget : elems1.get? i = elems.get? i) :
    (jl_arrayref R G y i w1).1.map Value.scalar = (jl_arrayref R G x i w).1.map Value.scalar := by
  rw [jl_arrayref_raw R G x i w el elems hel hbits hdata,
    jl_arrayref_raw R G y i w1 el elems1 (by rw [hty]; exact hel) hbits hdata1, hget]
  cases elems.get? i with
  | none => rfl
  | some d =>
    simp only
    split
    · split <;> rfl
    · rfl

theorem jl_f_arraylen_unbox (R : Runtime) (w : World) (a : Addr) (x : JArray)
    (hx : w.arr a = some x) (hn : x.length < 2 ^ 31) :
    (jl_f_arraylen R [.obj a] w).1.map jl_unbox_int32 = .ok (x.length : Int) := by
  simp only [jl_f_arraylen, List.length_cons, List.length_nil, Nat.lt_irrefl, if_false,
    jl_is_array, Value.addr, hx, Option.isSome_some, Bool.not_true, Bool.false_eq_true,
    Nat.reduceAdd, gt_iff_lt, Except.map]
  rw [unbox_box_length R.toHeap x.length w.st hn]

theorem array_store_get_ne (elems : List Nat) (i j nb d : Nat) (h : i ≠ j) :
    (array_store elems i nb d).get? j = elems.get? j := by
  unfold array_store
  split
  · rfl
  · simp only [List.get?_eq_getElem?]
    rw [List.getElem?_set_ne h]

theorem int32_typeis (R : Runtime) (G : Globals) (w : World) (ia d : Nat) :
    jl_typeis_w R G w (.bits ia R.jl_int32_type d) R.jl_int32_type = true := by
  simp [jl_typeis_w, jl_typeof_w]

theorem index_ne (ia t d ja dj n : Nat) (hn : n < 2 ^ 31)
    (h1 : 1 ≤ jl_unbox_int32 (.bits ia t d)) (h2 : jl_unbox_int32 (.bits ia t d) ≤ n)
    (hne : jl_unbox_int32 (.bits ja t dj) ≠ jl_unbox_int32 (.bits ia t d))
    (hlt : ¬ to_size_t (wrap_int32 (jl_unbox_int32 (.bits ja t dj) - 1)) ≥ n) :
    to_size_t (wrap_int32 (jl_unbox_int32 (.bits ia t d) - 1))
      ≠ to_size_t (wrap_int32 (jl_unbox_int32 (.bits ja t dj) - 1)) := by
  obtain ⟨hin, _⟩ := tupleref_index ia t d n hn
  obtain ⟨hjin, hjout⟩ := tupleref_index ja t dj n hn
  obtain ⟨hi, _⟩ := hin ⟨h1, h2⟩
  have hj : 1 ≤ jl_unbox_int32 (.bits ja t dj) ∧ jl_unbox_int32 (.bits ja t dj) ≤ n := by
    by_contra hc
    exact hlt (hjout (by omega))
  obtain ⟨hj2, _⟩ := hjin hj
  rw [hi, hj2]
  omega


theorem jl_arrayref_scalar_world (R : Runtime) (G : Globals) (x : JArray) (i : Nat)
    (w w1 : World) :
    (jl_arrayref R G x i w1).1.map Value.scalar = (jl_arrayref R G x i w).1.map Value.scalar := by
  unfold jl_arrayref
  split
  · rfl
  · split
    · split
      · split
        · rfl
        · split
          · split <;> rfl
          · rfl
      · rfl
    · split
      · split <;> rfl
      · rfl

theorem jl_f_arrayref_scalar_world (R : Runtime) (G : Globals) (w w1 : World) (a : Addr)
    (x : JArray) (ja dj : Nat) (hx : w.arr a = some x) (hx1 : w1.arr a = some x) :
    (jl_f_arrayref R G [.obj a, .bits ja R.jl_int32_type dj] w1).1.map Value.scalar
      = (jl_f_arrayref R G [.obj a, .bits ja R.jl_int32_type dj] w).1.map Value.scalar := by
  rw [jl_f_arrayref_eq R G w1 a x ja dj hx1, jl_f_arrayref_eq R G w a x ja dj hx]
  split
  · rfl
  · exact jl_arrayref_scalar_world R G x _ w w1

/-- C29, as stated, fails: the conversion method of `Float64`, called with the
array `a` of two `Float64` itself, sets the first element of `a` to `0` and
answers `Float64(0)`; called with the 1-tuple holding `a` it does the same write
and raises.  `arrayset(a, 2, a)` returns `a`, yet `arrayref(a, 1)`, which read
the payload 5 before the call, reads 0; `arrayset(a, 2, (a,))` raises, and
`arrayref(a, 1)` reads 0 as well. -/
theorem arrayset_other_slot_counterexample :
    (jl_f_arrayref demoRuntime4 demoGlobals [.obj 233, .bits 302 23 1] demoWorld4).1
      = .ok (.bits 1000 24 5) ∧
    (jl_f_arrayset demoMethods demoRuntime4 demoGlobals [.obj 233, .bits 302 23 2, .obj 233]
      demoWorld4).1 = .ok (.obj 233) ∧
    (jl_f_arrayref demoRuntime4 demoGlobals [.obj 233, .bits 302 23 1]
      (jl_f_arrayset demoMethods demoRuntime4 demoGlobals [.obj 233, .bits 302 23 2, .obj 233]
        demoWorld4).2).1 = .ok (.bits 1001 24 0) ∧
    (jl_f_arrayset demoMethods demoRuntime4 demoGlobals
      [.obj 233, .bits 302 23 2, .tuple 5 [.obj 233]] demoWorld4).1 = .error (.raised 0) ∧
    (jl_f_arrayref demoRuntime4 demoGlobals [.obj 233, .bits 302 23 1]
      (jl_f_arrayset demoMethods demoRuntime4 demoGlobals
        [.obj 233, .bits 302 23 2, .tuple 5 [.obj 233]] demoWorld4).2).1
      = .ok (.bits 1000 24 0) := by
  decide

/-- C29 (amended): for every array of length `n`, `n` in the range of `Int32`, of
element type `E`, and every `Int32` index `i`: for `i < 1` or `i > n`
`arrayset(a, i, v)` raises "index out of range" and leaves the world as it was;
for `1 ≤ i ≤ n` a failing `convert(v, E)` raises its error and `arrayset` itself
writes nothing, the world being the one the conversion left.  For `1 ≤ i ≤ n`
and a conversion that succeeds and leaves `a` an array of its type and length
whose buffer holds `n` elements of the kind of `E`: `arrayset` returns `a`;
afterwards `arrayref(a, i)` returns the converted value itself on an array of
references, and on an array of a bits type of 8, 16, 32 or 64 bits a scalar of
type `E` with the payload of the converted value (`jl_true` or `jl_false` for
`Bool`, true exactly when the stored byte is not zero); `arraylen(a)` is the
same integer as before; `arrayref(a, j)` answers for every `j ≠ i` as in the
world the conversion left, which is as before the call when the conversion did
not write `a` (up to the address of the new scalar on an array of a bits
type). -/
theorem arrayset_arrayref (A : Methods) (R : Runtime) (G : Globals) (w : World) (a : Addr)
    (x : JArray) (el v : Value) (ia d : Nat)
    (hx : w.arr a = some x) (hn : x.length < 2 ^ 31)
    (hel : jl_tparam0 R.toHeap (.obj x.type) = some el) :
    ((jl_unbox_int32 (.bits ia R.jl_int32_type d) < 1 ∨
        jl_unbox_int32 (.bits ia R.jl_int32_type d) > x.length) →
      jl_f_arrayset A R G [.obj a, .bits ia R.jl_int32_type d, v] w
        = (.error .arrayOutOfRange, w)) ∧
    (∀ e w1, 1 ≤ jl_unbox_int32 (.bits ia R.jl_int32_type d) →
      jl_unbox_int32 (.bits ia R.jl_int32_type d) ≤ x.length →
      jl_convert_w A R G v el w = (.error e, w1) →
      jl_f_arrayset A R G [.obj a, .bits ia R.jl_int32_type d, v] w = (.error e, w1)) ∧
    (∀ elems rhs w1 x1, jl_is_bits_type R.toHeap el = false →
      1 ≤ jl_unbox_int32 (.bits ia R.jl_int32_type d) →
      jl_unbox_int32 (.bits ia R.jl_int32_type d) ≤ x.length →
      jl_convert_w A R G v el w = (.ok rhs, w1) →
      w1.arr a = some x1 → x1.type = x.type → x1.length = x.length →
      x1.data = .refs elems → elems.length = x1.length →
      ∃ w2, jl_f_arrayset A R G [.obj a, .bits ia R.jl_int32_type d, v] w
          = (.ok (.obj a), w2) ∧
        jl_f_arrayref R G [.obj a, .bits ia R.jl_int32_type d] w2 = (.ok rhs, w2) ∧
        (jl_f_arraylen R [.obj a] w2).1.map jl_unbox_int32
          = (jl_f_arraylen R [.obj a] w).1.map jl_unbox_int32 ∧
        (∀ ja dj, jl_unbox_int32 (.bits ja R.jl_int32_type dj)
            ≠ jl_unbox_int32 (.bits ia R.jl_int32_type d) →
          (jl_f_arrayref R G [.obj a, .bits ja R.jl_int32_type dj] w2).1
            = (jl_f_arrayref R G [.obj a, .bits ja R.jl_int32_type dj] w1).1) ∧
        (x1 = x → ∀ ja dj, jl_unbox_int32 (.bits ja R.jl_int32_type dj)
            ≠ jl_unbox_int32 (.bits ia R.jl_int32_type d) →
          (jl_f_arrayref R G [.obj a, .bits ja R.jl_int32_type dj] w2).1
            = (jl_f_arrayref R G [.obj a, .bits ja R.jl_int32_type dj] w).1)) ∧
    (∀ elems ra rt rd w1 x1, jl_is_bits_type R.toHeap el = true →
      1 ≤ jl_unbox_int32 (.bits ia R.jl_int32_type d) →
      jl_unbox_int32 (.bits ia R.jl_int32_type d) ≤ x.length →
      jl_convert_w A R G v el w = (.ok (.bits ra rt rd), w1) →
      w1.arr a = some x1 → x1.type = x.type → x1.length = x.length →
      x1.data = .raw elems → elems.length = x1.length →
      ∃ w2, jl_f_arrayset A R G [.obj a, .bits ia R.jl_int32_type d, v] w
          = (.ok (.obj a), w2) ∧
        (((R.fields el.addr).nbits = 8 ∨ (R.fields el.addr).nbits = 16 ∨
            (R.fields el.addr).nbits = 32 ∨ (R.fields el.addr).nbits = 64) →
          el.addr ≠ G.jl_bool_type →
          (jl_f_arrayref R G [.obj a, .bits ia R.jl_int32_type d] w2).1
            = .ok (.bits w2.st.next el.addr (rd % 2 ^ (R.fields el.addr).nbits))) ∧
        (((R.fields el.addr).nbits = 8 ∨ (R.fields el.addr).nbits = 16 ∨
            (R.fields el.addr).nbits = 32 ∨ (R.fields el.addr).nbits = 64) →
          el.addr = G.jl_bool_type →
          jl_f_arrayref R G [.obj a, .bits ia R.jl_int32_type d] w2
            = (.ok (if rd % 2 ^ 8 != 0 then G.jl_true else G.jl_false), w2)) ∧
        (jl_f_arraylen R [.obj a] w2).1.map jl_unbox_int32
          = (jl_f_arraylen R [.obj a] w).1.map jl_unbox_int32 ∧
        (∀ ja dj, jl_unbox_int32 (.bits ja R.jl_int32_type dj)
            ≠ jl_unbox_int32 (.bits ia R.jl_int32_type d) →
          (jl_f_arrayref R G [.obj a, .bits ja R.jl_int32_type dj] w2).1.map Value.scalar
            = (jl_f_arrayref R G [.obj a, .bits ja R.jl_int32_type dj] w1).1.map
                Value.scalar) ∧
        (x1 = x → ∀ ja dj, jl_unbox_int32 (.bits ja R.jl_int32_type dj)
            ≠ jl_unbox_int32 (.bits ia R.jl_int32_type d) →
          (jl_f_arrayref R G [.obj a, .bits ja R.jl_int32_type dj] w2).1.map Value.scalar
            = (jl_f_arrayref R G [.obj a, .bits ja R.jl_int32_type dj] w).1.map
                Value.scalar)) := by
  obtain ⟨hin, hout⟩ := tupleref_index ia R.jl_int32_type d x.length hn
  have hint := int32_typeis R G w ia d
  refine ⟨?_, ?_, ?_, ?_⟩
  · intro h
    exact arrayset_out_of_range A R G w a x _ v hx hint (hout h)
  · intro e w1 h1 h2 hconv
    obtain ⟨hi, hlt⟩ := hin ⟨h1, h2⟩
    exact arrayset_conversion_error A R G w w1 a x _ v el e hx hint (by rw [hi]; omega) hel
      hconv
  · intro elems rhs w1 x1 hbits h1 h2 hconv hx1 hx1t hx1l hdata hlen
    obtain ⟨hi, hlt⟩ := hin ⟨h1, h2⟩
    have hnot : ¬ to_size_t (wrap_int32 (jl_unbox_int32 (.bits ia R.jl_int32_type d) - 1))
        ≥ x.length := by rw [hi]; omega
    have hidx : to_size_t (wrap_int32 (jl_unbox_int32 (.bits ia R.jl_int32_type d) - 1))
        < elems.length := by rw [hlen, hx1l, hi]; exact hlt
    have hel1 : jl_tparam0 R.toHeap (.obj x1.type) = some el := by rw [hx1t]; exact hel
    have hset := arrayset_refs A R G w w1 a x x1 _ v el rhs elems hx hint hnot hel hbits hconv
      hx1 hdata hidx
    obtain ⟨y, hy⟩ : ∃ y : JArray, y = ⟨x1.type, x1.length, .refs (elems.set
        (to_size_t (wrap_int32 (jl_unbox_int32 (.bits ia R.jl_int32_type d) - 1)))
        (some rhs))⟩ := ⟨_, rfl⟩
    rw [← hy] at hset
    have hyt : jl_tparam0 R.toHeap (.obj y.type) = some el := by rw [hy]; exact hel1
    have hyl : y.length = x.length := by rw [hy]; exact hx1l
    have hyd : y.data = .refs (elems.set
        (to_size_t (wrap_int32 (jl_unbox_int32 (.bits ia R.jl_int32_type d) - 1)))
        (some rhs)) := by rw [hy]
    obtain ⟨w2, hw2⟩ : ∃ w2 : World, w2 = { w1 with
        arr := fun b => if b = a then some y else w1.arr b } := ⟨_, rfl⟩
    rw [← hw2] at hset
    have hxa : w2.arr a = some y := by rw [hw2]; simp
    have hframe : ∀ ja dj, jl_unbox_int32 (.bits ja R.jl_int32_type dj)
        ≠ jl_unbox_int32 (.bits ia R.jl_int32_type d) →
        (jl_f_arrayref R G [.obj a, .bits ja R.jl_int32_type dj] w2).1
          = (jl_f_arrayref R G [.obj a, .bits ja R.jl_int32_type dj] w1).1 := by
      intro ja dj hne
      rw [jl_f_arrayref_eq R G w2 a y ja dj hxa, hyl, jl_f_arrayref_eq R G w1 a x1 ja dj hx1,
        hx1l]
      by_cases hj : to_size_t (wrap_int32 (jl_unbox_int32 (.bits ja R.jl_int32_type dj) - 1))
          ≥ x.length
      · rw [if_pos hj, if_pos hj]
      · rw [if_neg hj, if_neg hj, jl_arrayref_refs R G y _ w2 el _ hyt hbits hyd,
          jl_arrayref_refs R G x1 _ w1 el elems hel1 hbits hdata]
        have hneq := index_ne ia R.jl_int32_type d ja dj x.length hn h1 h2 hne hj
        simp only [List.get?_eq_getElem?]
        rw [List.getElem?_set_ne hneq]
        cases elems[to_size_t (wrap_int32 (jl_unbox_int32 (.bits ja R.jl_int32_type dj) - 1))]? with
        | none => rfl
        | some o => cases o <;> rfl
    refine ⟨w2, hset, ?_, ?_, hframe, ?_⟩
    · rw [jl_f_arrayref_eq R G w2 a y ia d hxa, hyl, if_neg hnot,
        jl_arrayref_refs R G y _ w2 el _ hyt hbits hyd]
      simp [List.getElem?_set_self hidx]
    · rw [jl_f_arraylen_unbox R w2 a y hxa (by rw [hyl]; exact hn), hyl,
        jl_f_arraylen_unbox R w a x hx hn]
    · intro hsame ja dj hne
      rw [hframe ja dj hne]
      subst hsame
      rw [jl_f_arrayref_eq R G w1 a x1 ja dj hx1, jl_f_arrayref_eq R G w a x1 ja dj hx]
      split
      · rfl
      · rw [jl_arrayref_refs R G x1 _ w1 el elems hel1 hbits hdata,
          jl_arrayref_refs R G x1 _ w el elems hel1 hbits hdata]
        cases elems.get? (to_size_t
          (wrap_int32 (jl_unbox_int32 (.bits ja R.jl_int32_type dj) - 1))) with
        | none => rfl
        | some o => cases o <;> rfl
  · intro elems ra rt rd w1 x1 hbits h1 h2 hconv hx1 hx1t hx1l hdata hlen
    obtain ⟨hi, hlt⟩ := hin ⟨h1, h2⟩
    have hnot : ¬ to_size_t (wrap_int32 (jl_unbox_int32 (.bits ia R.jl_int32_type d) - 1))
        ≥ x.length := by rw [hi]; omega
    have hidx : to_size_t (wrap_int32 (jl_unbox_int32 (.bits ia R.jl_int32_type d) - 1))
        < elems.length := by rw [hlen, hx1l, hi]; exact hlt
    have hel1 : jl_tparam0 R.toHeap (.obj x1.type) = some el := by rw [hx1t]; exact hel
    have hset := arrayset_raw A R G w w1 a x x1 _ v el ra rt rd elems hx hint hnot hel hbits
      hconv hx1 hdata hidx
    obtain ⟨y, hy⟩ : ∃ y : JArray, y = ⟨x1.type, x1.length, .raw (array_store elems
        (to_size_t (wrap_int32 (jl_unbox_int32 (.bits ia R.jl_int32_type d) - 1)))
        ((R.fields el.addr).nbits / 8) rd)⟩ := ⟨_, rfl⟩
    rw [← hy] at hset
    have hyt : jl_tparam0 R.toHeap (.obj y.type) = some el := by rw [hy]; exact hel1
    have hyty : y.type = x1.type := by rw [hy]
    have hyl : y.length = x.length := by rw [hy]; exact hx1l
    have hyd : y.data = .raw (array_store elems
        (to_size_t (wrap_int32 (jl_unbox_int32 (.bits ia R.jl_int32_type d) - 1)))
        ((R.fields el.addr).nbits / 8) rd) := by rw [hy]
    obtain ⟨w2, hw2⟩ : ∃ w2 : World, w2 = { w1 with
        arr := fun b => if b = a then some y else w1.arr b } := ⟨_, rfl⟩
    rw [← hw2] at hset
    have hxa : w2.arr a = some y := by rw [hw2]; simp
    have hstore : ((R.fields el.addr).nbits = 8 ∨ (R.fields el.addr).nbits = 16 ∨
        (R.fields el.addr).nbits = 32 ∨ (R.fields el.addr).nbits = 64) →
        8 * ((R.fields el.addr).nbits / 8) = (R.fields el.addr).nbits ∧
        array_store elems
          (to_size_t (wrap_int32 (jl_unbox_int32 (.bits ia R.jl_int32_type d) - 1)))
          ((R.fields el.addr).nbits / 8) rd
        = elems.set (to_size_t (wrap_int32 (jl_unbox_int32 (.bits ia R.jl_int32_type d) - 1)))
            (rd % 2 ^ (R.fields el.addr).nbits) := by
      intro hw
      have hnb : (R.fields el.addr).nbits / 8 ≠ 0 ∧
          8 * ((R.fields el.addr).nbits / 8) = (R.fields el.addr).nbits := by
        rcases hw with h | h | h | h <;> rw [h] <;> decide
      refine ⟨hnb.2, ?_⟩
      rw [array_store, if_neg hnb.1, hnb.2]
    have hframe : ∀ ja dj, jl_unbox_int32 (.bits ja R.jl_int32_type dj)
        ≠ jl_unbox_int32 (.bits ia R.jl_int32_type d) →
        (jl_f_arrayref R G [.obj a, .bits ja R.jl_int32_type dj] w2).1.map Value.scalar
          = (jl_f_arrayref R G [.obj a, .bits ja R.jl_int32_type dj] w1).1.map
              Value.scalar := by
      intro ja dj hne
      rw [jl_f_arrayref_eq R G w2 a y ja dj hxa, hyl, jl_f_arrayref_eq R G w1 a x1 ja dj hx1,
        hx1l]
      by_cases hj : to_size_t (wrap_int32 (jl_unbox_int32 (.bits ja R.jl_int32_type dj) - 1))
          ≥ x.length
      · rw [if_pos hj, if_pos hj]
      · rw [if_neg hj, if_neg hj]
        have hneq := index_ne ia R.jl_int32_type d ja dj x.length hn h1 h2 hne hj
        exact jl_arrayref_raw_scalar R G x1 y _ w1 w2 el elems _ hel1 hyty hbits hdata hyd
          (array_store_get_ne elems _ _ _ _ hneq)
    refine ⟨w2, hset, ?_, ?_, ?_, hframe, ?_⟩
    · intro hw hb
      have hb2 : (el.addr == G.jl_bool_type) = false := by simpa using hb
      rw [(hstore hw).2] at hyd
      rw [jl_f_arrayref_eq R G w2 a y ia d hxa, hyl, if_neg hnot,
        jl_arrayref_raw R G y _ w2 el _ hyt hbits hyd]
      simp only [List.get?_eq_getElem?, List.getElem?_set_self hidx, hb2, Bool.false_eq_true,
        if_false, (hstore hw).1, Nat.mod_mod]
    · intro hw hb
      have hb2 : (el.addr == G.jl_bool_type) = true := by simpa using hb
      rw [(hstore hw).2] at hyd
      rw [jl_f_arrayref_eq R G w2 a y ia d hxa, hyl, if_neg hnot,
        jl_arrayref_raw R G y _ w2 el _ hyt hbits hyd]
      have hmod : rd % 2 ^ (R.fields el.addr).nbits % 2 ^ 8 = rd % 2 ^ 8 := by
        apply Nat.mod_mod_of_dvd
        rcases hw with h | h | h | h <;> rw [h] <;> decide
      simp only [List.get?_eq_getElem?, List.getElem?_set_self hidx, hb2, if_true, hmod]
      split <;> rfl
    · rw [jl_f_arraylen_unbox R w2 a y hxa (by rw [hyl]; exact hn), hyl,
        jl_f_arraylen_unbox R w a x hx hn]
    · intro hsame ja dj hne
      rw [hframe ja dj hne]
      subst hsame
      exact jl_f_arrayref_scalar_world R G w w1 a x1 ja dj hx hx1

/-- Witness of C29: storing `Int32(42)` at index 2 of the `Array{Int32}` holding
7, 8, 9, a conversion that calls no method, returns the array; index 2 then
reads 42 and index 3 still reads 9. -/
theorem arrayset_arrayref_witness :
    demoWorld4.arr 230 = some ⟨47, 3, .raw [7, 8, 9]⟩ ∧
    jl_convert_w demoMethods demoRuntime4 demoGlobals (.bits 303 23 42) (.obj 23) demoWorld4
      = (.ok (.bits 303 23 42), demoWorld4) ∧
    ∃ w2, jl_f_arrayset demoMethods demoRuntime4 demoGlobals
          [.obj 230, .bits 302 demoRuntime4.jl_int32_type 2, .bits 303 23 42] demoWorld4
        = (.ok (.obj 230), w2) ∧
      (jl_f_arrayref demoRuntime4 demoGlobals
          [.obj 230, .bits 302 demoRuntime4.jl_int32_type 2] w2).1
        = .ok (.bits w2.st.next 23 42) ∧
      (jl_f_arrayref demoRuntime4 demoGlobals
          [.obj 230, .bits 304 demoRuntime4.jl_int32_type 3] w2).1.map Value.scalar
        = .ok (.bits 0 23 9) :=
  ⟨by decide, Prod.ext (by decide) rfl,
    match (arrayset_arrayref demoMethods demoRuntime4 demoGlobals demoWorld4 230
      ⟨47, 3, .raw [7, 8, 9]⟩ (.obj 23) (.bits 303 23 42) 302 2 (by decide) (by decide)
      (by decide)).2.2.2 [7, 8, 9] 303 23 42 demoWorld4 ⟨47, 3, .raw [7, 8, 9]⟩ (by decide)
      (by decide) (by decide) (Prod.ext (by decide) rfl) (by decide) rfl rfl rfl
      (by decide) with
    | ⟨w2, h1, h2, _, _, _, h6⟩ =>
      ⟨w2, h1, h2 (Or.inr (Or.inr (Or.inl (by decide)))) (by decide),
        (h6 rfl 304 3 (by decide)).trans (by decide)⟩⟩

end Julia
